import Mathlib

/-!
# Adreno fault tolerance: context blame, ring-buffer forensics, recovery ladder

A shallow embedding of the fault-tolerance functions of
`drivers/gpu/msm/adreno.c` (`adreno_mark_context_status`,
`adreno_set_max_ts_for_bad_ctxs`, `_find_start_of_cmd_seq`,
`_find_cmd_seq_after_eop_ts`, `_find_hanging_ib_sequence`,
`adreno_setup_ft_data`, `_adreno_check_long_ib`, `_adreno_ft_resubmit_rb`,
`_adreno_ft`, `adreno_ft`), of its hang detector (`adreno_ft_detect`,
`is_adreno_rbbm_status_idle`) and of the entry point of an episode
(`adreno_dump_and_exec_ft`), and theorems about them.

Conventions.
* Machine words are natural numbers. Buffers are functions from a word index
  to a word (`hostptr[i]`); byte offsets into a buffer are divided by
  `sizeof(unsigned int) = 4`.
* Stateful code passes the device and the snapshot explicitly.
* Hardware and code outside `adreno.c` (device restart, idle wait, ring-buffer
  extraction, `vmalloc`) is an oracle argument; every call into it is
  recorded in an event trace.
* Loops that the C code does not bound take a `fuel` argument. A function
  returns `none` when it does not return to its caller: the fuel runs out, or
  a `NULL` pointer is dereferenced.
-/

namespace Adreno

/-! ## Constants and macros of the kgsl and adreno headers -/

/-- The constants and macros that `adreno.c` takes from headers
(`kgsl.h`, `adreno_pm4types.h`, `adreno_drawctxt.h`, `msm_kgsl.h`). Their
values are parameters of the development. -/
structure ft_consts where
  KGSL_CMD_IDENTIFIER : Nat
  KGSL_CONTEXT_TO_MEM_IDENTIFIER : Nat
  KGSL_NOP_IB_IDENTIFIER : Nat
  KGSL_END_OF_FRAME_IDENTIFIER : Nat
  CP_HDR_INDIRECT_BUFFER_PFD : Nat
  adreno_cmd_is_ib : Nat → Bool
  CP_HDR_MEM_WRITE : Nat
  CACHE_FLUSH_TS : Nat
  cp_nop_packet : Nat → Nat
  CTXT_FLAGS_PREAMBLE : Nat
  CTXT_FLAGS_GPU_HANG : Nat
  CTXT_FLAGS_SKIP_EOF : Nat
  CTXT_FLAGS_NO_FAULT_TOLERANCE : Nat
  CTXT_FLAGS_GPU_HANG_FT : Nat
  KGSL_FT_DISABLE : Nat
  KGSL_FT_REPLAY : Nat
  KGSL_FT_SKIPIB : Nat
  KGSL_FT_SKIPFRAME : Nat
  KGSL_FT_DEFAULT_POLICY : Nat
  KGSL_CTX_STAT_GUILTY_CONTEXT_RESET_EXT : Nat
  KGSL_CTX_STAT_INNOCENT_CONTEXT_RESET_EXT : Nat
  KGSL_MEMSTORE_GLOBAL : Nat
  memstore_gpuaddr_global_eop : Nat

/-- The values the msm-3.4 headers give these constants; used to run the
definitions on concrete inputs. -/
def msm_consts : ft_consts where
  KGSL_CMD_IDENTIFIER := 0xFEEDFACE
  KGSL_CONTEXT_TO_MEM_IDENTIFIER := 0x2EADBEEF
  KGSL_NOP_IB_IDENTIFIER := 0x20F20F20
  KGSL_END_OF_FRAME_IDENTIFIER := 0x2E0F2E0F
  CP_HDR_INDIRECT_BUFFER_PFD := 0xC0013700
  adreno_cmd_is_ib := fun cmd =>
    cmd == 0xC0013F00 || cmd == 0xC0013700 || cmd == 0xC0013B00 || cmd == 0xC0013200
  CP_HDR_MEM_WRITE := 0xC0013D00
  CACHE_FLUSH_TS := 4
  cp_nop_packet := fun cnt => (0xC0000000 + ((cnt + 0x3FFF) % 0x4000) * 0x10000 + 0x1000)
  CTXT_FLAGS_PREAMBLE := 0x20
  CTXT_FLAGS_GPU_HANG := 0x100
  CTXT_FLAGS_SKIP_EOF := 0x10000
  CTXT_FLAGS_NO_FAULT_TOLERANCE := 0x20000
  CTXT_FLAGS_GPU_HANG_FT := 0x40000
  KGSL_FT_DISABLE := 1
  KGSL_FT_REPLAY := 2
  KGSL_FT_SKIPIB := 4
  KGSL_FT_SKIPFRAME := 8
  KGSL_FT_DEFAULT_POLICY := 14
  KGSL_CTX_STAT_GUILTY_CONTEXT_RESET_EXT := 1
  KGSL_CTX_STAT_INNOCENT_CONTEXT_RESET_EXT := 2
  KGSL_MEMSTORE_GLOBAL := 0
  memstore_gpuaddr_global_eop := 0x1000C

/-- Error numbers of `errno.h`. -/
def EAGAIN : Int := 11

/-- Out of memory. -/
def ENOMEM : Int := 12

/-- Invalid argument. -/
def EINVAL : Int := 22

/-- Complement of a 32-bit word, the C `~x` on `unsigned int`. -/
def bnot32 (x : Nat) : Nat := 0xFFFFFFFF ^^^ x

/-! ## Data model -/

/-- The part of `struct adreno_context` the fault-tolerance code touches. -/
structure adreno_context where
  flags : Nat
  timestamp : Nat
  ib_gpu_time_used : Nat := 0

/-- The part of `struct kgsl_context` the fault-tolerance code touches.
`devctxt` is a pointer that may be `NULL`. -/
structure kgsl_context where
  id : Nat
  reset_status : Nat
  wait_on_invalid_ts : Bool := false
  detached : Bool := false
  devctxt : Option adreno_context

/-- The fields of `struct kgsl_devmemstore`, one record per context id. -/
inductive memstore_field where
  | soptimestamp
  | eoptimestamp
  | current_context
deriving DecidableEq, Repr

/-- The ring buffer: `buffer_desc.hostptr` as words, `buffer_desc.size` in
bytes, the write pointer in words and the last queued global timestamp. -/
structure adreno_ringbuffer where
  buffer : Nat → Nat
  size : Nat
  wptr : Nat
  global_ts : Nat := 0

/-- The device state the fault-tolerance code reads and writes.
`context_idr` lists the contexts in the order `idr_get_next` enumerates them;
`memstore c f` is the word at `KGSL_MEMSTORE_OFFSET(c, f)`;
`drawctxt_active` holds the id of the context whose `devctxt` it points to. -/
structure kgsl_device where
  context_idr : List kgsl_context
  memstore : Nat → memstore_field → Nat
  ringbuffer : adreno_ringbuffer
  cp_ib1_base : Nat := 0
  mmu_fault : Nat := 0
  long_ib : Nat := 0
  long_ib_ts : Nat := 0
  ft_policy : Nat := 0
  drawctxt_active : Option Nat := none

/-- The kernel `idr_find` on the context table. -/
def idr_find (idr : List kgsl_context) (id : Nat) : Option kgsl_context :=
  idr.find? (fun c => c.id == id)

/-- A write through the pointer `idr_find` returned: the first entry with the
given id is replaced by `f` of it. -/
def idr_update (idr : List kgsl_context) (id : Nat) (f : kgsl_context → kgsl_context) :
    List kgsl_context :=
  match idr with
  | [] => []
  | c :: cs => if c.id == id then f c :: cs else c :: idr_update cs id f

/-- The kernel `kgsl_sharedmem_writel` on the memstore. -/
def memstore_writel (m : Nat → memstore_field → Nat) (c : Nat) (f : memstore_field)
    (v : Nat) : Nat → memstore_field → Nat :=
  fun c2 f2 => if c2 = c ∧ f2 = f then v else m c2 f2

/-! ## Context blame and timestamp reconciliation -/

/-- Body of the loop of `adreno_mark_context_status` for one context. -/
def mark_context (K : ft_consts) (ft_status : Int) (context : kgsl_context) : kgsl_context :=
  if ft_status ≠ 0 then
    { context with
      reset_status := K.KGSL_CTX_STAT_GUILTY_CONTEXT_RESET_EXT
      devctxt := context.devctxt.map
        (fun a => { a with flags := a.flags ||| K.CTXT_FLAGS_GPU_HANG }) }
  else if K.KGSL_CTX_STAT_GUILTY_CONTEXT_RESET_EXT ≠ context.reset_status then
    match context.devctxt with
    | some a =>
      if a.flags &&& (K.CTXT_FLAGS_GPU_HANG ||| K.CTXT_FLAGS_GPU_HANG_FT) ≠ 0 then
        { context with reset_status := K.KGSL_CTX_STAT_GUILTY_CONTEXT_RESET_EXT }
      else
        { context with reset_status := K.KGSL_CTX_STAT_INNOCENT_CONTEXT_RESET_EXT }
    | none =>
      { context with reset_status := K.KGSL_CTX_STAT_INNOCENT_CONTEXT_RESET_EXT }
  else context

/-- The function `adreno_mark_context_status`: every context of the table is
visited once, in `idr_get_next` order. -/
def adreno_mark_context_status (K : ft_consts) (device : kgsl_device) (ft_status : Int) :
    kgsl_device :=
  { device with context_idr := device.context_idr.map (mark_context K ft_status) }

/-- A sequence of blame passes, one per episode, each with its own status. -/
def mark_context_episodes (K : ft_consts) (device : kgsl_device) (sts : List Int) :
    kgsl_device :=
  sts.foldl (adreno_mark_context_status K) device

/-! ## Ring-buffer forensics -/

/-- Modelled from the spec: the macro `adreno_ringbuffer_inc_wrapped` is
defined in `adreno_ringbuffer.h`, outside `adreno.c`; positions in the ring
buffer are "always interpreted modulo" the buffer size, so one word forward
is `(val + sizeof(unsigned int)) % size`. -/
def adreno_ringbuffer_inc_wrapped (val size : Nat) : Nat := (val + 4) % size

/-- Modelled from the spec: the macro `adreno_ringbuffer_dec_wrapped` is
defined in `adreno_ringbuffer.h`, outside `adreno.c`; one word backward,
modulo the buffer size, is `(val + size - sizeof(unsigned int)) % size`. -/
def adreno_ringbuffer_dec_wrapped (val size : Nat) : Nat := (val + size - 4) % size

/-- The read `kgsl_sharedmem_readl(&rb->buffer_desc, &val, offset)`: the word
at byte offset `offset` of the ring buffer. -/
def rb_readl (rb : adreno_ringbuffer) (offset : Nat) : Nat := rb.buffer (offset / 4)

/-- One step of a walk over the ring buffer, forward when `inc`. -/
def rb_step (inc : Bool) (size : Nat) (p : Nat) : Nat :=
  if inc then adreno_ringbuffer_inc_wrapped p size else adreno_ringbuffer_dec_wrapped p size

/-- The byte offset reached from `p` after `k` steps of the walk. -/
def rb_walk (inc : Bool) (size : Nat) (p : Nat) : Nat → Nat
  | 0 => p
  | k + 1 => rb_walk inc size (rb_step inc size p) k

/-- The `while` loop of `_find_start_of_cmd_seq`. `ptr0` is the value of
`*ptr` at entry, `start_ptr` the local of that name; the result is the
returned status and the value of `*ptr` at return. `fuel` bounds the number
of executions of the loop body. -/
def find_start_of_cmd_seq_loop (K : ft_consts) (rb : adreno_ringbuffer) (inc : Bool)
    (ptr0 : Nat) : Nat → Nat → Option (Int × Nat)
  | fuel, start_ptr =>
    if start_ptr / 4 ≠ rb.wptr then
      match fuel with
      | 0 => none
      | fuel + 1 =>
        let start_ptr :=
          if inc then adreno_ringbuffer_inc_wrapped start_ptr rb.size
          else adreno_ringbuffer_dec_wrapped start_ptr rb.size
        let val1 := rb_readl rb start_ptr
        if K.KGSL_CMD_IDENTIFIER = val1 then
          let start_ptr :=
            if start_ptr / 4 ≠ rb.wptr then adreno_ringbuffer_dec_wrapped start_ptr rb.size
            else start_ptr
          some (0, start_ptr)
        else find_start_of_cmd_seq_loop K rb inc ptr0 fuel start_ptr
    else some (-EINVAL, ptr0)

/-- The function `_find_start_of_cmd_seq(rb, ptr, inc)`: returns
`(status, *ptr)`. -/
def _find_start_of_cmd_seq (K : ft_consts) (fuel : Nat) (rb : adreno_ringbuffer) (ptr : Nat)
    (inc : Bool) : Option (Int × Nat) :=
  find_start_of_cmd_seq_loop K rb inc ptr fuel ptr

/-- The `do ... while` loop of `_find_cmd_seq_after_eop_ts`. `val` is the
array `val[3]`, `i` and `check` the locals of that name. Returns the status
and `temp_rb_rptr` at the exit of the loop; `fuel` bounds the executions of
the body. -/
def find_cmd_seq_after_eop_ts_loop (K : ft_consts) (rb : adreno_ringbuffer)
    (global_eop : Nat) (inc : Bool) :
    Nat → Nat → (Nat → Nat) → Nat → Bool → Option (Int × Nat)
  | 0, _, _, _, _ => none
  | fuel + 1, temp_rb_rptr, val, i, check =>
    let temp_rb_rptr :=
      if !inc then adreno_ringbuffer_dec_wrapped temp_rb_rptr rb.size else temp_rb_rptr
    let val := Function.update val i (rb_readl rb temp_rb_rptr)
    let hit : Bool :=
      check && ((inc && val i == global_eop) ||
        (!inc && (val i == K.CP_HDR_MEM_WRITE || val i == K.CACHE_FLUSH_TS)))
    let i1 := (i + 2) % 3
    let j := (i1 + 2) % 3
    if hit && val i1 == K.memstore_gpuaddr_global_eop &&
        ((inc && (val j == K.CACHE_FLUSH_TS || val j == K.CP_HDR_MEM_WRITE)) ||
          (!inc && val j == global_eop)) then
      some (0, temp_rb_rptr)
    else
      let i := if hit then (i1 + 1) % 3 else i
      let temp_rb_rptr :=
        if inc then adreno_ringbuffer_inc_wrapped temp_rb_rptr rb.size else temp_rb_rptr
      let i := (i + 1) % 3
      let check := if i = 2 then true else check
      if temp_rb_rptr / 4 ≠ rb.wptr then
        find_cmd_seq_after_eop_ts_loop K rb global_eop inc fuel temp_rb_rptr val i check
      else some (-EINVAL, temp_rb_rptr)

/-- The function `_find_cmd_seq_after_eop_ts(rb, rb_rptr, global_eop, inc)`:
returns `(status, *rb_rptr)`. -/
def _find_cmd_seq_after_eop_ts (K : ft_consts) (fuel : Nat) (rb : adreno_ringbuffer)
    (rb_rptr : Nat) (global_eop : Nat) (inc : Bool) : Option (Int × Nat) :=
  if inc ∧ rb_rptr / 4 ≠ rb.wptr then some (-EINVAL, rb_rptr)
  else
    match find_cmd_seq_after_eop_ts_loop K rb global_eop inc fuel rb_rptr (fun _ => 0) 0 false with
    | none => none
    | some (status, temp_rb_rptr) =>
      if status = 0 then
        match _find_start_of_cmd_seq K fuel rb temp_rb_rptr false with
        | none => none
        | some (status, temp_rb_rptr) =>
          if status = 0 then some (0, temp_rb_rptr) else some (status, rb_rptr)
      else some (status, rb_rptr)

/-- The `while` loop of `_find_hanging_ib_sequence`. `val` is the array
`val[2]`. Returns the status and `temp_rb_rptr` at the exit of the loop;
`fuel` bounds the executions of the body, `F` is the fuel of the call of
`_find_start_of_cmd_seq`. -/
def find_hanging_ib_sequence_loop (K : ft_consts) (F : Nat) (rb : adreno_ringbuffer)
    (ib1 : Nat) : Nat → Nat → (Nat → Nat) → Nat → Bool → Bool → Option (Int × Nat)
  | fuel, temp_rb_rptr, val, i, check, ctx_switch =>
    if temp_rb_rptr / 4 ≠ rb.wptr then
      match fuel with
      | 0 => none
      | fuel + 1 =>
        let val := Function.update val i (rb_readl rb temp_rb_rptr)
        let hit : Bool := check && val i == ib1
        if hit && K.adreno_cmd_is_ib (val ((i + 1) % 2)) then
          _find_start_of_cmd_seq K F rb temp_rb_rptr false
        else
          let i := if hit then (i + 1 + 1) % 2 else i
          if val i = K.KGSL_CONTEXT_TO_MEM_IDENTIFIER ∧ ctx_switch = true then
            some (-EINVAL, temp_rb_rptr)
          else
            let ctx_switch :=
              if val i = K.KGSL_CONTEXT_TO_MEM_IDENTIFIER then true else ctx_switch
            let i := (i + 1) % 2
            let check := if i = 1 then true else check
            find_hanging_ib_sequence_loop K F rb ib1 fuel
              (adreno_ringbuffer_inc_wrapped temp_rb_rptr rb.size) val i check ctx_switch
    else some (-EINVAL, temp_rb_rptr)

/-- The function `_find_hanging_ib_sequence(rb, rb_rptr, ib1)`: returns
`(status, *rb_rptr)`. -/
def _find_hanging_ib_sequence (K : ft_consts) (fuel : Nat) (rb : adreno_ringbuffer)
    (rb_rptr : Nat) (ib1 : Nat) : Option (Int × Nat) :=
  match find_hanging_ib_sequence_loop K fuel rb ib1 fuel rb_rptr (fun _ => 0) 0 false false with
  | none => none
  | some (status, temp_rb_rptr) =>
    if status = 0 then some (0, temp_rb_rptr) else some (status, rb_rptr)

/-! ## The recovery policy state machine -/

/-- The snapshot `struct adreno_ft_data`. The three capture buffers are the
memory behind the pointers; the `_alloc` flags say whether the pointer holds a
live `vmalloc` allocation. `_adreno_ft` is entered only after
`adreno_setup_ft_data` returned 0, that is with the three buffers allocated,
each `rb->buffer_desc.size` bytes long. -/
structure adreno_ft_data where
  ib1 : Nat := 0
  context_id : Nat := 0
  global_eop : Nat := 0
  rb_buffer : Nat → Nat := fun _ => 0
  rb_size : Nat := 0
  bad_rb_buffer : Nat → Nat := fun _ => 0
  bad_rb_size : Nat := 0
  good_rb_buffer : Nat → Nat := fun _ => 0
  good_rb_size : Nat := 0
  last_valid_ctx_id : Nat := 0
  status : Nat := 0
  ft_policy : Nat := 0
  start_of_replay_cmds : Nat := 0
  replay_for_snapshot : Nat := 0
  rb_buffer_alloc : Bool := false
  bad_rb_buffer_alloc : Bool := false
  good_rb_buffer_alloc : Bool := false

/-- A ring-buffer pointer as `_adreno_ft` and `adreno_ft` hold it: `NULL` or
`&adreno_dev->ringbuffer`. -/
inductive rb_ptr where
  | null
  | device_ringbuffer
deriving DecidableEq, Repr

/-- The call sites of `_adreno_ft_resubmit_rb` in `_adreno_ft`. -/
inductive ft_stage where
  | replay
  | skipib
  | skipframe
  | good
deriving DecidableEq, Repr

/-- What `adreno_ringbuffer_extract` (defined in `adreno_ringbuffer.c`) stores
into the snapshot. -/
structure ft_extract where
  rb_buffer : Nat → Nat
  rb_size : Nat
  bad_rb_buffer : Nat → Nat
  bad_rb_size : Nat
  good_rb_buffer : Nat → Nat
  good_rb_size : Nat
  last_valid_ctx_id : Nat

/-- The device state that hardware and code outside `adreno.c` may change
during a restart, a ring-buffer restore and an idle wait. -/
structure hw_view where
  memstore : Nat → memstore_field → Nat
  ringbuffer : adreno_ringbuffer
  cp_ib1_base : Nat
  mmu_fault : Nat
  long_ib : Nat
  long_ib_ts : Nat

/-- The outcomes of the calls one run of `_adreno_ft` makes outside
`adreno.c`: the result of the extraction, whether a step of
`_adreno_ft_restart_device` that can fail (`adreno_start`,
`kgsl_mmu_enable_clk`; `adreno_stop` and `adreno_init` always return 0)
fails, what `adreno_idle` returns, and the state the hardware leaves
behind. -/
structure ft_oracle where
  extract : ft_extract
  restart_fails : ft_stage → Bool
  idle_ret : ft_stage → Int
  hw : ft_stage → kgsl_device → hw_view

/-- The calls a run makes outside `adreno.c`, in order. `resubmit` is a call
of `_adreno_ft_resubmit_rb` with its arguments and return value; `restore` is
the call of `adreno_ringbuffer_restore` inside it. -/
inductive ft_event where
  | extract (rb : rb_ptr)
  | resubmit (stage : ft_stage) (rb : rb_ptr) (buff : Nat → Nat) (size : Nat) (ret : Int)
  | restore (stage : ft_stage) (rb : rb_ptr) (buff : Nat → Nat) (size : Nat)
  | drawctxt_switch

/-- Device, snapshot and trace while `_adreno_ft` runs. -/
structure ft_state where
  device : kgsl_device
  ft_data : adreno_ft_data
  trace : List ft_event

/-- Return value of `_adreno_ft` with the state it leaves. -/
structure ft_result where
  ret : Int
  device : kgsl_device
  ft_data : adreno_ft_data
  trace : List ft_event

/-- Modelled from the spec: `kgsl_context_get` is defined in `kgsl.h`, outside
`adreno.c`; it yields the context with the given id of "the live table",
`NULL` for an unknown id or a "detached context". -/
def kgsl_context_get (device : kgsl_device) (id : Nat) : Option kgsl_context :=
  match idr_find device.context_idr id with
  | some c => if c.detached then none else some c
  | none => none

/-- The flags of the device context of context `id`, when the table has that
id and its `devctxt` is not `NULL`. -/
def ctx_flags (device : kgsl_device) (id : Nat) : Option Nat :=
  match idr_find device.context_idr id with
  | some c => c.devctxt.map (fun a => a.flags)
  | none => none

/-- The assignment `adreno_context->flags = f(adreno_context->flags)` for the
device context of context `id`. -/
def ctx_set_flags (device : kgsl_device) (id : Nat) (f : Nat → Nat) : kgsl_device :=
  { device with
    context_idr := idr_update device.context_idr id (fun c =>
      { c with devctxt := c.devctxt.map (fun a => { a with flags := f a.flags }) }) }

/-- The hardware's changes written into the device state. -/
def hw_apply (device : kgsl_device) (v : hw_view) : kgsl_device :=
  { device with
    memstore := v.memstore, ringbuffer := v.ringbuffer, cp_ib1_base := v.cp_ib1_base,
    mmu_fault := v.mmu_fault, long_ib := v.long_ib, long_ib_ts := v.long_ib_ts }

/-- The function `_adreno_check_long_ib`. -/
def _adreno_check_long_ib (K : ft_consts) (device : kgsl_device) : Int × kgsl_device :=
  let curr_global_ts := device.memstore K.KGSL_MEMSTORE_GLOBAL memstore_field.eoptimestamp
  let device := { device with long_ib := 0 }
  if curr_global_ts = device.long_ib_ts then (1, device) else (0, device)

/-- The function `_adreno_ft_restart_device`: 1 when a hardware step fails or
the context is `NULL`, else 0. -/
def _adreno_ft_restart_device (o : ft_oracle) (stage : ft_stage)
    (context : Option kgsl_context) : Int :=
  if o.restart_fails stage then 1
  else match context with
    | some _ => 0
    | none => 1

/-- The function `adreno_stop`, on the state modelled here: the assignment
`adreno_dev->drawctxt_active = NULL`. It always returns 0. -/
def adreno_stop (device : kgsl_device) : kgsl_device :=
  { device with drawctxt_active := none }

/-- The function `adreno_init`, on the state modelled here: the assignment
`rb->global_ts = 0`. It always returns 0, so every call of
`_adreno_ft_restart_device` runs it after `adreno_stop`. -/
def adreno_init (device : kgsl_device) : kgsl_device :=
  { device with ringbuffer := { device.ringbuffer with global_ts := 0 } }

/-- Return value of `_adreno_ft_resubmit_rb`. -/
def resubmit_ret (o : ft_oracle) (stage : ft_stage) (context : Option kgsl_context)
    (size : Nat) : Int :=
  if _adreno_ft_restart_device o stage context ≠ 0 then 1
  else if size ≠ 0 then o.idle_ret stage
  else 0

/-- The function `_adreno_ft_resubmit_rb`: restart the device and, when `size`
is not 0, restore `buff` into the ring buffer and wait for idle. The restart
runs `adreno_stop` and `adreno_init` before any step that can fail; the
hardware and the code outside `adreno.c` (the callees of `adreno_start`, the
restore, the idle wait) act on the state these two leave. Returns the return
value, the device and the events. -/
def _adreno_ft_resubmit_rb (o : ft_oracle) (stage : ft_stage) (device : kgsl_device)
    (rb : rb_ptr) (context : Option kgsl_context) (buff : Nat → Nat) (size : Nat) :
    Int × kgsl_device × List ft_event :=
  let ret := resubmit_ret o stage context size
  let device := adreno_init (adreno_stop device)
  let device := hw_apply device (o.hw stage device)
  if _adreno_ft_restart_device o stage context ≠ 0 then
    (ret, device, [ft_event.resubmit stage rb buff size ret])
  else if size ≠ 0 then
    (ret, device, [ft_event.resubmit stage rb buff size ret, ft_event.restore stage rb buff size])
  else
    (ret, device, [ft_event.resubmit stage rb buff size ret])

/-- The label `play_good_cmds` of `_adreno_ft` to the end of the function.
`id` is the id of the offending context, whose `devctxt` is not `NULL` here. -/
def _adreno_ft_play_good_cmds (K : ft_consts) (o : ft_oracle) (rb : rb_ptr)
    (context : kgsl_context) (last_active_ctx : Option Nat) (s : ft_state) : ft_result :=
  let device :=
    if s.ft_data.status ≠ 0 then s.device
    else
      { ctx_set_flags s.device context.id
          (fun flags => (flags &&& bnot32 K.CTXT_FLAGS_GPU_HANG) ||| K.CTXT_FLAGS_GPU_HANG_FT)
        with drawctxt_active := last_active_ctx }
  let r := _adreno_ft_resubmit_rb o ft_stage.good device rb (some context)
    s.ft_data.good_rb_buffer s.ft_data.good_rb_size
  if r.1 ≠ 0 then
    { ret := -EAGAIN, device := r.2.1, ft_data := s.ft_data, trace := s.trace ++ r.2.2 }
  else
    let device :=
      if s.ft_data.last_valid_ctx_id ≠ 0 then
        match kgsl_context_get r.2.1 s.ft_data.last_valid_ctx_id with
        | some last_ctx =>
          { r.2.1 with
            drawctxt_active := if last_ctx.devctxt.isSome then some last_ctx.id else none }
        | none => r.2.1
      else r.2.1
    { ret := 0, device := device, ft_data := s.ft_data, trace := s.trace ++ r.2.2 }

/-- The `for` loop of the SKIP_FRAME block: `n` is the number of iterations
left (`bad_rb_size - i`); returns the final `i` and the buffer. -/
def skipframe_loop (K : ft_consts) : Nat → Nat → (Nat → Nat) → Nat × (Nat → Nat)
  | 0, i, buf => (i, buf)
  | n + 1, i, buf =>
    if buf i = K.KGSL_END_OF_FRAME_IDENTIFIER then
      (i, Function.update buf 0 (K.cp_nop_packet i))
    else skipframe_loop K n (i + 1) buf

/-- The SKIP_FRAME block up to the resubmission: the search for the
end-of-frame word and the patch of word 0. -/
def _adreno_ft_skipframe_patch (K : ft_consts) (context : kgsl_context) (s : ft_state) :
    ft_state :=
  let r := skipframe_loop K s.ft_data.bad_rb_size 0 s.ft_data.bad_rb_buffer
  if r.1 = s.ft_data.bad_rb_size then
    { s with
      device := ctx_set_flags s.device context.id (fun flags => flags ||| K.CTXT_FLAGS_SKIP_EOF)
      ft_data := { s.ft_data with bad_rb_buffer := Function.update r.2 0 (K.cp_nop_packet r.1) } }
  else
    { s with ft_data := { s.ft_data with bad_rb_buffer := r.2 } }

/-- The SKIP_FRAME block of `_adreno_ft` and what follows it. -/
def _adreno_ft_skipframe (K : ft_consts) (o : ft_oracle) (rb : rb_ptr)
    (context : kgsl_context) (last_active_ctx : Option Nat) (s : ft_state) : ft_result :=
  if s.ft_data.ft_policy &&& K.KGSL_FT_SKIPFRAME ≠ 0 then
    let s := _adreno_ft_skipframe_patch K context s
    let r := _adreno_ft_resubmit_rb o ft_stage.skipframe s.device rb (some context)
      s.ft_data.bad_rb_buffer s.ft_data.bad_rb_size
    if r.1 ≠ 0 then
      _adreno_ft_play_good_cmds K o rb context last_active_ctx
        { device := r.2.1, ft_data := { s.ft_data with status := 1 }, trace := s.trace ++ r.2.2 }
    else
      _adreno_ft_play_good_cmds K o rb context last_active_ctx
        { device := r.2.1, ft_data := { s.ft_data with status := 0 }, trace := s.trace ++ r.2.2 }
  else _adreno_ft_play_good_cmds K o rb context last_active_ctx s

/-- The `for` loop of the SKIP_IB block: `n` is the number of iterations left
(`bad_rb_size - i`); returns the final `i` and the buffer. -/
def skipib_loop (K : ft_consts) (ib1 : Nat) : Nat → Nat → (Nat → Nat) → Nat × (Nat → Nat)
  | 0, i, buf => (i, buf)
  | n + 1, i, buf =>
    if buf i = K.CP_HDR_INDIRECT_BUFFER_PFD ∧ buf (i + 1) = ib1 then
      (i, Function.update
            (Function.update (Function.update buf i (K.cp_nop_packet 2))
              (i + 1) K.KGSL_NOP_IB_IDENTIFIER)
            (i + 2) K.KGSL_NOP_IB_IDENTIFIER)
    else skipib_loop K ib1 n (i + 1) buf

/-- The SKIP_IB block of `_adreno_ft` and what follows it. -/
def _adreno_ft_skipib (K : ft_consts) (o : ft_oracle) (rb : rb_ptr)
    (context : kgsl_context) (last_active_ctx : Option Nat) (s : ft_state) : ft_result :=
  if s.ft_data.ft_policy &&& K.KGSL_FT_SKIPIB ≠ 0 then
    let p := skipib_loop K s.ft_data.ib1 s.ft_data.bad_rb_size 0 s.ft_data.bad_rb_buffer
    let s := { s with ft_data := { s.ft_data with bad_rb_buffer := p.2 } }
    if p.1 = s.ft_data.bad_rb_size ∨ s.ft_data.ib1 = 0 then
      _adreno_ft_play_good_cmds K o rb context last_active_ctx
        { s with ft_data := { s.ft_data with status := 1 } }
    else
      let r := _adreno_ft_resubmit_rb o ft_stage.skipib s.device rb (some context)
        s.ft_data.bad_rb_buffer s.ft_data.bad_rb_size
      if r.1 ≠ 0 then
        _adreno_ft_skipframe K o rb context last_active_ctx
          { device := r.2.1, ft_data := { s.ft_data with status := 1 },
            trace := s.trace ++ r.2.2 }
      else
        _adreno_ft_play_good_cmds K o rb context last_active_ctx
          { device := r.2.1, ft_data := { s.ft_data with status := 0 },
            trace := s.trace ++ r.2.2 }
  else _adreno_ft_skipframe K o rb context last_active_ctx s

/-- The REPLAY block of `_adreno_ft` and what follows it. -/
def _adreno_ft_replay (K : ft_consts) (o : ft_oracle) (rb : rb_ptr)
    (context : kgsl_context) (last_active_ctx : Option Nat) (s : ft_state) : ft_result :=
  if s.ft_data.ft_policy &&& K.KGSL_FT_REPLAY ≠ 0 then
    let r := _adreno_ft_resubmit_rb o ft_stage.replay s.device rb (some context)
      s.ft_data.bad_rb_buffer s.ft_data.bad_rb_size
    if r.1 ≠ 0 then
      _adreno_ft_skipib K o rb context last_active_ctx
        { device := r.2.1, ft_data := { s.ft_data with status := 1 },
          trace := s.trace ++ r.2.2 }
    else
      _adreno_ft_play_good_cmds K o rb context last_active_ctx
        { device := r.2.1, ft_data := s.ft_data, trace := s.trace ++ r.2.2 }
  else _adreno_ft_skipib K o rb context last_active_ctx s

/-- The snapshot after `adreno_ringbuffer_extract` stored its result. -/
def ft_apply_extract (ft_data : adreno_ft_data) (e : ft_extract) : adreno_ft_data :=
  { ft_data with
    rb_buffer := e.rb_buffer, rb_size := e.rb_size,
    bad_rb_buffer := e.bad_rb_buffer, bad_rb_size := e.bad_rb_size,
    good_rb_buffer := e.good_rb_buffer, good_rb_size := e.good_rb_size,
    last_valid_ctx_id := e.last_valid_ctx_id }

/-- The assignments `adreno_context->flags |= CTXT_FLAGS_GPU_HANG` and
`context->wait_on_invalid_ts = false` at the entry of `_adreno_ft`. -/
def ft_mark_hung (K : ft_consts) (device : kgsl_device) (context : kgsl_context) :
    kgsl_device :=
  { device with
    context_idr := idr_update device.context_idr context.id (fun c =>
      { c with
        wait_on_invalid_ts := false
        devctxt := c.devctxt.map (fun a =>
          { a with flags := a.flags ||| K.CTXT_FLAGS_GPU_HANG }) }) }

/-- The body of `_adreno_ft` once `kgsl_context_get` returned `context` and
`context->devctxt` is `adreno_context`, not `NULL`. The locals `rb` and
`last_active_ctx` are initialised to `NULL` and never assigned. -/
def _adreno_ft_live (K : ft_consts) (o : ft_oracle) (device : kgsl_device)
    (ft_data : adreno_ft_data) (context : kgsl_context) (adreno_context : adreno_context) :
    ft_result :=
  let rb : rb_ptr := rb_ptr.null
  let last_active_ctx : Option Nat := none
  let device := ft_mark_hung K device context
  if (adreno_context.flags ||| K.CTXT_FLAGS_GPU_HANG) &&& K.CTXT_FLAGS_NO_FAULT_TOLERANCE ≠ 0
  then
    _adreno_ft_play_good_cmds K o rb context last_active_ctx
      { device := device, ft_data := ft_data, trace := [] }
  else
    let s : ft_state :=
      { device := device, ft_data := ft_apply_extract ft_data o.extract,
        trace := [ft_event.extract rb] }
    if s.device.long_ib ≠ 0 then
      let c := _adreno_check_long_ib K s.device
      if c.1 ≠ 0 then
        _adreno_ft_play_good_cmds K o rb context last_active_ctx
          { s with device := c.2, ft_data := { s.ft_data with status := 1 } }
      else
        { ret := 0
          device := ctx_set_flags c.2 context.id
            (fun flags => flags &&& bnot32 K.CTXT_FLAGS_GPU_HANG)
          ft_data := s.ft_data, trace := s.trace }
    else if s.device.mmu_fault ≠ 0 then
      _adreno_ft_play_good_cmds K o rb context last_active_ctx
        { s with device := { s.device with mmu_fault := 0 } }
    else if s.ft_data.ft_policy &&& K.KGSL_FT_DISABLE ≠ 0 then
      _adreno_ft_play_good_cmds K o rb context last_active_ctx s
    else _adreno_ft_replay K o rb context last_active_ctx s

/-- The function `_adreno_ft`. -/
def _adreno_ft (K : ft_consts) (o : ft_oracle) (device : kgsl_device)
    (ft_data : adreno_ft_data) : ft_result :=
  match kgsl_context_get device ft_data.context_id with
  | none => { ret := -EINVAL, device := device, ft_data := ft_data, trace := [] }
  | some context =>
    match context.devctxt with
    | none => { ret := -EINVAL, device := device, ft_data := ft_data, trace := [] }
    | some adreno_context => _adreno_ft_live K o device ft_data context adreno_context

/-! ## Snapshot construction and the retry loop -/

/-- The outcome of the three `vmalloc` calls of `adreno_setup_ft_data`: `none`
for a failed allocation, else the (uninitialised) memory obtained. -/
structure alloc_oracle where
  rb_buffer : Option (Nat → Nat)
  bad_rb_buffer : Option (Nat → Nat)
  good_rb_buffer : Option (Nat → Nat)

/-- The three `vfree` calls of `adreno_destroy_ft_data` and of the label
`done` of `adreno_setup_ft_data` (`vfree(NULL)` does nothing). -/
def adreno_destroy_ft_data (ft_data : adreno_ft_data) : adreno_ft_data :=
  { ft_data with
    rb_buffer_alloc := false, bad_rb_buffer_alloc := false, good_rb_buffer_alloc := false }

/-- The function `adreno_setup_ft_data`: returns the return value, the device
(`adreno_dev->ft_policy` may be set) and the snapshot. `fuel` bounds the
loops of the two locators. -/
def adreno_setup_ft_data (K : ft_consts) (fuel : Nat) (al : alloc_oracle)
    (device : kgsl_device) : Option (Int × kgsl_device × adreno_ft_data) :=
  let rb := device.ringbuffer
  let rb_rptr := (rb.wptr * 4) % 2 ^ 32
  let ft_data : adreno_ft_data :=
    { start_of_replay_cmds := 0xFFFFFFFF, replay_for_snapshot := 0xFFFFFFFF,
      ib1 := device.cp_ib1_base,
      context_id := device.memstore K.KGSL_MEMSTORE_GLOBAL memstore_field.current_context,
      global_eop := device.memstore K.KGSL_MEMSTORE_GLOBAL memstore_field.eoptimestamp }
  match al.rb_buffer with
  | none => some (-ENOMEM, device, ft_data)
  | some b1 =>
    let ft_data := { ft_data with rb_buffer := b1, rb_buffer_alloc := true }
    match al.bad_rb_buffer with
    | none => some (-ENOMEM, device, adreno_destroy_ft_data ft_data)
    | some b2 =>
      let ft_data := { ft_data with bad_rb_buffer := b2, bad_rb_buffer_alloc := true }
      match al.good_rb_buffer with
      | none => some (-ENOMEM, device, adreno_destroy_ft_data ft_data)
      | some b3 =>
        let ft_data :=
          { ft_data with good_rb_buffer := b3, good_rb_buffer_alloc := true, status := 0 }
        match idr_find device.context_idr ft_data.context_id with
        | none => some (0, device, ft_data)
        | some context =>
          match _find_cmd_seq_after_eop_ts K fuel rb rb_rptr
              ((ft_data.global_eop + 1) % 2 ^ 32) false with
          | none => none
          | some (ret, rb_rptr) =>
            if ret ≠ 0 then some (ret, device, adreno_destroy_ft_data ft_data)
            else
              let ft_data := { ft_data with start_of_replay_cmds := rb_rptr }
              let device :=
                if device.ft_policy = 0 then
                  { device with ft_policy := K.KGSL_FT_DEFAULT_POLICY }
                else device
              let ft_data := { ft_data with ft_policy := device.ft_policy }
              match context.devctxt with
              | none => none
              | some adreno_context =>
                if adreno_context.flags &&& K.CTXT_FLAGS_PREAMBLE ≠ 0 ∧ ft_data.ib1 ≠ 0 then
                  match _find_hanging_ib_sequence K fuel rb rb_rptr ft_data.ib1 with
                  | none => none
                  | some (ret, rb_rptr) =>
                    if ret ≠ 0 then some (0, device, ft_data)
                    else
                      some (0, device,
                        { ft_data with
                          start_of_replay_cmds := rb_rptr, replay_for_snapshot := rb_rptr })
                else some (0, device, ft_data)

/-- The loop of `adreno_set_max_ts_for_bad_ctxs` over the contexts still to
visit; `none` when a context without device context is dereferenced. -/
def set_max_ts_loop (K : ft_consts) :
    List kgsl_context → (Nat → memstore_field → Nat) → Option (Nat → memstore_field → Nat)
  | [], m => some m
  | context :: rest, m =>
    match context.devctxt with
    | none => none
    | some temp_adreno_context =>
      if temp_adreno_context.flags &&& K.CTXT_FLAGS_GPU_HANG ≠ 0 then
        set_max_ts_loop K rest
          (memstore_writel
            (memstore_writel m context.id memstore_field.soptimestamp
              temp_adreno_context.timestamp)
            context.id memstore_field.eoptimestamp temp_adreno_context.timestamp)
      else set_max_ts_loop K rest m

/-- The function `adreno_set_max_ts_for_bad_ctxs`. -/
def adreno_set_max_ts_for_bad_ctxs (K : ft_consts) (device : kgsl_device) :
    Option kgsl_device :=
  match set_max_ts_loop K device.context_idr device.memstore with
  | none => none
  | some m => some { device with memstore := m }

/-- The outcomes of the calls outside `adreno.c` during one call of
`adreno_ft`: those of the `k`-th run of `_adreno_ft` and the allocations of
the `k`-th rebuild of the snapshot. -/
structure ft_world where
  run : Nat → ft_oracle
  alloc : Nat → alloc_oracle

/-- The `while (true)` loop of `adreno_ft`, from its `k`-th iteration on.
`fuel` bounds the iterations, `F` the loops of the locators. The result holds
`ret` and the state at the exit of the loop. -/
def adreno_ft_loop (K : ft_consts) (F : Nat) (w : ft_world) :
    Nat → Nat → kgsl_device → adreno_ft_data → List ft_event → Option ft_result
  | 0, _, _, _, _ => none
  | fuel + 1, k, device, ft_data, trace =>
    let r := _adreno_ft K (w.run k) device ft_data
    if r.ret = -EAGAIN then
      match adreno_setup_ft_data K F (w.alloc k) r.device with
      | none => none
      | some (ret, device, ft_data) =>
        if ret ≠ 0 then
          some { ret := ret, device := device, ft_data := ft_data, trace := trace ++ r.trace }
        else adreno_ft_loop K F w fuel (k + 1) device ft_data (trace ++ r.trace)
    else some { r with trace := trace ++ r.trace }

/-- The function `adreno_ft` up to and including the call of
`adreno_set_max_ts_for_bad_ctxs`. On a zero `ret` the global end-of-pipe slot
is written with `rb->global_ts` and the active context is switched out. (The
page-table pointers the function also sets are not part of the model, and
snapshot memory freed by `adreno_destroy_ft_data` is not tracked across the
rebuild, which starts from a zeroed snapshot.) -/
def adreno_ft_reconcile (K : ft_consts) (F fuel : Nat) (w : ft_world) (device : kgsl_device)
    (ft_data : adreno_ft_data) : Option ft_result :=
  match adreno_ft_loop K F w fuel 0 device ft_data [] with
  | none => none
  | some r =>
    let s : kgsl_device × List ft_event :=
      if r.ret ≠ 0 then (r.device, r.trace)
      else
        let d := { r.device with
          memstore := memstore_writel r.device.memstore K.KGSL_MEMSTORE_GLOBAL
            memstore_field.eoptimestamp r.device.ringbuffer.global_ts }
        if d.drawctxt_active ≠ none then
          ({ d with drawctxt_active := none }, r.trace ++ [ft_event.drawctxt_switch])
        else (d, r.trace)
    match adreno_set_max_ts_for_bad_ctxs K s.1 with
    | none => none
    | some d => some { ret := r.ret, device := d, ft_data := r.ft_data, trace := s.2 }

/-- The function `adreno_ft`: the retry loop, the reconciliation of the
timestamps and the blame pass `adreno_mark_context_status(device, ret)`. -/
def adreno_ft (K : ft_consts) (F fuel : Nat) (w : ft_world) (device : kgsl_device)
    (ft_data : adreno_ft_data) : Option ft_result :=
  match adreno_ft_reconcile K F fuel w device ft_data with
  | none => none
  | some r => some { r with device := adreno_mark_context_status K r.device r.ret }

/-- The ids of the contexts of the table, in table order. -/
def context_ids (device : kgsl_device) : List Nat :=
  device.context_idr.map (fun c => c.id)

/-- The stages of the `_adreno_ft_resubmit_rb` calls of a trace, with their
return values, in order. -/
def resubmits : List ft_event → List (ft_stage × Int)
  | [] => []
  | ft_event.resubmit stage _ _ _ ret :: rest => (stage, ret) :: resubmits rest
  | _ :: rest => resubmits rest

/-- The resubmissions of the bad segment of a trace. -/
def bad_resubmits (trace : List ft_event) : List (ft_stage × Int) :=
  (resubmits trace).filter (fun x => x.1 ≠ ft_stage.good)

/-- The shape of a ladder: the stages of `l` appear in the order of `allowed`,
each at most once, and every resubmission but the last returned non-zero. -/
def ladder_ok (allowed : List ft_stage) (l : List (ft_stage × Int)) : Prop :=
  (l.map Prod.fst).Sublist allowed ∧ ∀ x ∈ l.dropLast, x.2 ≠ 0

/-! ## Predicates and measures used in the statements -/

/-- Bytes left to walk from `p` to the write pointer `w` (in words). -/
def rb_dist (inc : Bool) (size w p : Nat) : Nat :=
  if inc then (if p ≤ 4 * w then 4 * w - p else 4 * w + size - p)
  else (if 4 * w ≤ p then p - 4 * w else p + size - 4 * w)

/-- The episode is dismissed as a long-IB false positive: the context has not
opted out (the test `_adreno_ft` makes after setting the hang flag), `long_ib`
is set and the global end-of-pipe timestamp has moved since detection. -/
def long_ib_dismissed (K : ft_consts) (device : kgsl_device) (a : adreno_context) : Prop :=
  (a.flags ||| K.CTXT_FLAGS_GPU_HANG) &&& K.CTXT_FLAGS_NO_FAULT_TOLERANCE = 0 ∧
  device.long_ib ≠ 0 ∧
  device.memstore K.KGSL_MEMSTORE_GLOBAL memstore_field.eoptimestamp ≠ device.long_ib_ts

/-- The flag masks the recovery ladder sets and tests do not overlap. -/
def flags_disjoint (K : ft_consts) : Prop :=
  K.CTXT_FLAGS_GPU_HANG &&& K.CTXT_FLAGS_NO_FAULT_TOLERANCE = 0 ∧
  K.CTXT_FLAGS_GPU_HANG &&& K.CTXT_FLAGS_GPU_HANG_FT = 0 ∧
  K.CTXT_FLAGS_SKIP_EOF &&& K.CTXT_FLAGS_GPU_HANG_FT = 0 ∧
  K.CTXT_FLAGS_SKIP_EOF &&& K.CTXT_FLAGS_GPU_HANG = 0

/-- The offending context `id` of device `d` is flagged hung and its
`CTXT_FLAGS_GPU_HANG_FT` bits are `v`. -/
def hung_with_ft_bits (K : ft_consts) (v : Nat) (d : kgsl_device) (id : Nat) : Prop :=
  ∃ f, ctx_flags d id = some f ∧ f &&& K.CTXT_FLAGS_GPU_HANG = K.CTXT_FLAGS_GPU_HANG ∧
    f &&& K.CTXT_FLAGS_GPU_HANG_FT = v

/-! ## Concrete inputs -/

/-- A 4-word ring buffer, write pointer at word 0, one marker at word 2. -/
def rb_one_marker : adreno_ringbuffer :=
  { buffer := fun i => if i = 2 then 0xFEEDFACE else 0, size := 16, wptr := 0 }

/-- A 4-word ring buffer, write pointer at word 0, without any marker. -/
def rb_no_marker : adreno_ringbuffer :=
  { buffer := fun _ => 0, size := 16, wptr := 0 }

/-- A context that an earlier episode marked guilty. -/
def ctx_guilty : kgsl_context :=
  { id := 2, reset_status := 1, devctxt := some { flags := 0, timestamp := 7 } }

/-- A context that was never blamed. -/
def ctx_clean : kgsl_context :=
  { id := 1, reset_status := 0, devctxt := some { flags := 0, timestamp := 5 } }

/-- A device with the two contexts above. -/
def dev_two_contexts : kgsl_device :=
  { context_idr := [ctx_clean, ctx_guilty], memstore := fun _ _ => 0,
    ringbuffer := rb_no_marker }

/-- An oracle under which every restart and every idle wait succeeds and the
hardware leaves the modelled state as `adreno_stop` and `adreno_init` left it;
the extraction yields a bad segment of three words and a good segment of
two. -/
def oracle_all_ok : ft_oracle :=
  { extract :=
      { rb_buffer := fun _ => 0, rb_size := 5,
        bad_rb_buffer := fun i => if i = 0 then 0xC0013700 else if i = 1 then 0x5000 else 7,
        bad_rb_size := 3,
        good_rb_buffer := fun _ => 9, good_rb_size := 2, last_valid_ctx_id := 0 },
    restart_fails := fun _ => false,
    idle_ret := fun _ => 0,
    hw := fun _ d =>
      { memstore := d.memstore, ringbuffer := d.ringbuffer, cp_ib1_base := d.cp_ib1_base,
        mmu_fault := d.mmu_fault, long_ib := d.long_ib, long_ib_ts := d.long_ib_ts } }

/-- The same oracle, but every idle wait after a resubmission of the bad
segment times out (`-ETIMEDOUT`). -/
def oracle_bad_fails : ft_oracle :=
  { oracle_all_ok with
    idle_ret := fun st => if st = ft_stage.good then 0 else -110 }

/-- A snapshot for context 1 with SKIP_IB and SKIP_FRAME enabled and no
faulting IB recorded (`ib1 = 0`). -/
def ft_data_no_ib : adreno_ft_data :=
  { context_id := 1, ib1 := 0, ft_policy := 12 }

/-- A snapshot for context 1 with the default policy and a faulting IB at
`0x5000`. -/
def ft_data_default : adreno_ft_data :=
  { context_id := 1, ib1 := 0x5000, ft_policy := 14 }

/-- A state at the entry of a ladder block: device with contexts 1 and 2,
a bad segment of four words holding one call of the IB at `0x5000`. -/
def ladder_state : ft_state :=
  { device := dev_two_contexts,
    ft_data :=
      { context_id := 1, ib1 := 0x5000, ft_policy := 14,
        bad_rb_buffer := fun i =>
          if i = 0 then 0xC0013700 else if i = 1 then 0x5000 else if i = 2 then 64 else 7,
        bad_rb_size := 4, good_rb_buffer := fun _ => 9, good_rb_size := 2 },
    trace := [ft_event.extract rb_ptr.null] }

/-- The state of `ladder_state` with no faulting IB recorded. -/
def ladder_state_no_ib : ft_state :=
  { ladder_state with ft_data := { ladder_state.ft_data with ib1 := 0 } }

/-- A snapshot for context 1 whose policy holds `KGSL_FT_DISABLE` next to
the three strategies. -/
def ft_data_disable : adreno_ft_data :=
  { context_id := 1, ib1 := 0x5000, ft_policy := 15 }

/-- An oracle under which the bad segment drains but the idle wait after the
good-segment replay times out. -/
def oracle_good_fails : ft_oracle :=
  { oracle_all_ok with
    idle_ret := fun st => if st = ft_stage.good then -110 else 0 }

/-- Every run of `_adreno_ft` succeeds; allocations succeed. -/
def world_all_ok : ft_world :=
  { run := fun _ => oracle_all_ok,
    alloc := fun _ =>
      { rb_buffer := some (fun _ => 0), bad_rb_buffer := some (fun _ => 0),
        good_rb_buffer := some (fun _ => 0) } }

/-- The good-segment replay fails and the rebuild of the snapshot cannot
allocate its first buffer. -/
def world_good_fails_nomem : ft_world :=
  { run := fun _ => oracle_good_fails,
    alloc := fun _ => { rb_buffer := none, bad_rb_buffer := none, good_rb_buffer := none } }

/-- Every resubmission of the bad segment fails and the good-segment replay
succeeds; allocations succeed. -/
def world_bad_fails : ft_world :=
  { world_all_ok with run := fun _ => oracle_bad_fails }

/-- For each context of the table: id, flags, last-submitted timestamp and
the start-of-pipe and end-of-pipe slots of the memstore. -/
def timestamp_report (device : kgsl_device) :
    List (Nat × Option Nat × Option Nat × Nat × Nat) :=
  device.context_idr.map (fun c =>
    (c.id, c.devctxt.map (fun a => a.flags), c.devctxt.map (fun a => a.timestamp),
      device.memstore c.id memstore_field.soptimestamp,
      device.memstore c.id memstore_field.eoptimestamp))

/-- The run ended with the good-segment replay: after the resubmissions `pre`
come resubmissions `l` of the bad segment, then the one of the good segment,
and the return value is `-EAGAIN` when that one returned non-zero, else 0. -/
def good_replay_last (o : ft_oracle) (context : kgsl_context) (pre : List (ft_stage × Int))
    (r : ft_result) : Prop :=
  ∃ l, resubmits r.trace =
      pre ++ l ++
        [(ft_stage.good, resubmit_ret o ft_stage.good (some context) r.ft_data.good_rb_size)] ∧
    (∀ x ∈ l, x.1 ≠ ft_stage.good) ∧
    r.ret = (if resubmit_ret o ft_stage.good (some context) r.ft_data.good_rb_size ≠ 0
      then -EAGAIN else 0)

/-- A second context that was never blamed. -/
def ctx_other : kgsl_context :=
  { id := 3, reset_status := 0, devctxt := some { flags := 0, timestamp := 9 } }

/-- A device on which no context is blamed or flagged: contexts 1 and 3. -/
def dev_clean_contexts : kgsl_device :=
  { context_idr := [ctx_clean, ctx_other], memstore := fun _ _ => 0,
    ringbuffer := rb_no_marker }

/-- The idle wait after the REPLAY resubmission times out; every other step
succeeds. -/
def oracle_replay_fails : ft_oracle :=
  { oracle_all_ok with
    idle_ret := fun st => if st = ft_stage.replay then -110 else 0 }

/-- An 8-word ring buffer, write pointer at word 0: a command marker at word
3 and, at words 5 to 7, the end-of-pipe write of global timestamp 42. -/
def rb_eop_sequence : adreno_ringbuffer :=
  { buffer := fun i =>
      if i = 3 then 0xFEEDFACE else if i = 5 then 0xC0013D00 else if i = 6 then 0x1000C
      else if i = 7 then 42 else 0,
    size := 32, wptr := 0 }

/-- A context whose device context has `CTXT_FLAGS_PREAMBLE`. -/
def ctx_preamble : kgsl_context :=
  { id := 1, reset_status := 0, devctxt := some { flags := 0x20, timestamp := 5 } }

/-- A device that hung in context 1 with the IB at `0x5000` in flight; the
last retired global timestamp is 41. -/
def dev_preamble : kgsl_device :=
  { context_idr := [ctx_preamble],
    memstore := fun c f =>
      if c = 0 then
        (match f with
          | memstore_field.current_context => 1
          | memstore_field.eoptimestamp => 41
          | memstore_field.soptimestamp => 0)
      else 0,
    ringbuffer := rb_eop_sequence, cp_ib1_base := 0x5000 }

/-! ## Hang detection -/

/-- The index range of `ft_detect_regs` that decides a long IB. -/
def LONG_IB_DETECT_REG_INDEX_START : Nat := 1

/-- The last index of that range. -/
def LONG_IB_DETECT_REG_INDEX_END : Nat := 5

/-- The value `ARRAY_SIZE(ft_detect_regs)`: the array has twelve entries. -/
def ft_detect_regs_count : Nat := 12

/-- The constants and macros `adreno_ft_detect` takes from headers
(`kgsl_device.h`, `a2xx_reg.h`, `linux/jiffies.h`). -/
structure detect_consts where
  KGSL_TIMEOUT_PART : Nat
  KGSL_TIMEOUT_LONG_IB_DETECTION : Nat
  REG_CP_RB_RPTR : Nat
  REG_CP_RB_WPTR : Nat
  msecs_to_jiffies : Nat → Nat
  time_before : Nat → Nat → Bool

/-- Sample values used to run the definitions on concrete inputs: a poll
interval of 50 ms, a long-IB threshold of 2000 ms, `HZ = 100`;
`time_before(a, b)` is `(long)(a - b) < 0` on 32-bit words. -/
def msm_detect_consts : detect_consts where
  KGSL_TIMEOUT_PART := 50
  KGSL_TIMEOUT_LONG_IB_DETECTION := 2000
  REG_CP_RB_RPTR := 0x1C4
  REG_CP_RB_WPTR := 0x1C5
  msecs_to_jiffies := fun m => (m + 9) / 10
  time_before := fun a b => decide (2 ^ 31 ≤ (a + 2 ^ 32 - b % 2 ^ 32) % 2 ^ 32)

/-- What one call of `adreno_ft_detect` reads outside the device state of the
model: `jiffies`, the registers (`status_regread` for the reads of the idle
check, `regread` for the sampling loop), the array `ft_detect_regs`, the
fields `fast_hang_detect` and `long_ib_detect` of the adreno device,
`adreno_is_a2xx` and `gpudev->reg_rbbm_status`. -/
structure detect_env where
  jiffies : Nat
  status_regread : Nat → Nat
  regread : Nat → Nat
  ft_detect_regs : Nat → Nat
  fast_hang_detect : Nat
  long_ib_detect : Nat
  is_a2xx : Bool
  reg_rbbm_status : Nat

/-- The `static` locals of `adreno_ft_detect`. The pointer `context` is held
as the id of the context it points to, `curr_context` as the id of the context
whose `devctxt` it points to; `none` is `NULL`. -/
structure detect_statics where
  next_hang_detect_time : Nat := 0
  prev_global_ts : Nat := 0
  curr_context : Option Nat := none
  context : Option Nat := none

/-- The `return` statements of `adreno_ft_detect`, in source order; the last
one is the `return 0` after the write-back loop. -/
inductive detect_return where
  | idle
  | rate_limit
  | fast_hang
  | long_ib
  | fall_through
deriving DecidableEq, Repr

/-- Return value of `adreno_ft_detect`, the `return` statement taken, and the
state it leaves: device, statics, the caller's buffer `prev_reg_val` and the
register writes made. -/
structure detect_result where
  ret : Nat
  site : detect_return
  device : kgsl_device
  statics : detect_statics
  prev_reg_val : Nat → Nat
  regwrites : List (Nat × Nat)

/-- The function `is_adreno_rbbm_status_idle`. -/
def is_adreno_rbbm_status_idle (e : detect_env) : Bool :=
  let reg_rbbm_status := e.status_regread e.reg_rbbm_status
  if e.is_a2xx then reg_rbbm_status == 0x110
  else reg_rbbm_status &&& 0x80000000 == 0

/-- The device context behind the pointer held as `id`; `none` when the
context is not in the table or its `devctxt` is `NULL`. -/
def devctxt_of (device : kgsl_device) (id : Nat) : Option adreno_context :=
  match idr_find device.context_idr id with
  | some c => c.devctxt
  | none => none

/-- A write to fields of the device context behind the pointer held as `id`. -/
def devctxt_update (device : kgsl_device) (id : Nat) (f : adreno_context → adreno_context) :
    kgsl_device :=
  { device with
    context_idr := idr_update device.context_idr id (fun c =>
      { c with devctxt := c.devctxt.map f }) }

/-- The sampling loop of `adreno_ft_detect` over the indices `l`, on the array
`curr_reg_val`: entries of `ft_detect_regs` that are 0 are skipped. -/
def detect_sample_loop (e : detect_env) : List Nat → (Nat → Nat) → (Nat → Nat)
  | [], curr_reg_val => curr_reg_val
  | i :: rest, curr_reg_val =>
    if e.ft_detect_regs i = 0 then detect_sample_loop e rest curr_reg_val
    else
      detect_sample_loop e rest
        (Function.update curr_reg_val i (e.regread (e.ft_detect_regs i)))

/-- The array `curr_reg_val` after the `memset` and the sampling loop. -/
def detect_sample (e : detect_env) : Nat → Nat :=
  detect_sample_loop e (List.range ft_detect_regs_count) (fun _ => 0)

/-- The comparison loop of `adreno_ft_detect` over the indices `l`; the state
is `(fast_hang_detected, long_ib_detected)`. -/
def detect_compare_loop (curr_reg_val prev_reg_val : Nat → Nat) :
    List Nat → Bool × Bool → Bool × Bool
  | [], s => s
  | i :: rest, s =>
    if curr_reg_val i ≠ prev_reg_val i then
      detect_compare_loop curr_reg_val prev_reg_val rest
        (false,
          if LONG_IB_DETECT_REG_INDEX_START ≤ i ∧ i ≤ LONG_IB_DETECT_REG_INDEX_END then false
          else s.2)
    else detect_compare_loop curr_reg_val prev_reg_val rest s

/-- The write-back loop `prev_reg_val[i] = curr_reg_val[i]` over the indices
`l`. -/
def detect_writeback_loop (curr_reg_val : Nat → Nat) : List Nat → (Nat → Nat) → (Nat → Nat)
  | [], prev_reg_val => prev_reg_val
  | i :: rest, prev_reg_val =>
    detect_writeback_loop curr_reg_val rest (Function.update prev_reg_val i (curr_reg_val i))

/-- The end of `adreno_ft_detect`: the write-back loop and `return 0`. -/
def detect_fall_through (device : kgsl_device) (st : detect_statics)
    (curr_reg_val prev_reg_val : Nat → Nat) : detect_result :=
  { ret := 0, site := detect_return.fall_through, device := device, statics := st,
    prev_reg_val :=
      detect_writeback_loop curr_reg_val (List.range ft_detect_regs_count) prev_reg_val,
    regwrites := [] }

/-- The block `if (context == NULL) { ... }` of `adreno_ft_detect`: the
current context id is read from the memstore and looked up; when found, its
`devctxt` becomes `curr_context` and is dereferenced (`none` when it is
`NULL`). -/
def detect_resolve_context (K : ft_consts) (device : kgsl_device) (st : detect_statics) :
    Option (kgsl_device × detect_statics) :=
  if st.context = none then
    let curr_context_id :=
      device.memstore K.KGSL_MEMSTORE_GLOBAL memstore_field.current_context
    match idr_find device.context_idr curr_context_id with
    | some context =>
      match context.devctxt with
      | none => none
      | some _ =>
        some (devctxt_update device context.id (fun a => { a with ib_gpu_time_used := 0 }),
          { st with context := some context.id, curr_context := some context.id })
    | none => some (device, { st with context := none })
  else some (device, st)

/-- The block `if (curr_context != NULL) { ... } else { ... }` of the stalled
branch of `adreno_ft_detect`, to the end of the function.
`ib_gpu_time_used` is a 32-bit word (it is printed with `%d`). -/
def detect_stalled_body (K : ft_consts) (D : detect_consts) (device : kgsl_device)
    (st : detect_statics) (curr_reg_val prev_reg_val : Nat → Nat) (curr_global_ts : Nat)
    (fast_hang_detected long_ib_detected : Bool) : Option detect_result :=
  match st.curr_context with
  | none => some (detect_fall_through device st curr_reg_val prev_reg_val)
  | some id =>
    match devctxt_of device id with
    | none => none
    | some curr_context =>
      let t1 := (curr_context.ib_gpu_time_used + D.KGSL_TIMEOUT_PART) % 2 ^ 32
      let device := devctxt_update device id (fun a => { a with ib_gpu_time_used := t1 })
      let s := detect_compare_loop curr_reg_val prev_reg_val
        (List.range ft_detect_regs_count) (fast_hang_detected, long_ib_detected)
      if s.1 then
        some { ret := 1, site := detect_return.fast_hang, device := device, statics := st,
               prev_reg_val := prev_reg_val, regwrites := [] }
      else if s.2 ∧ curr_context.flags &&& K.CTXT_FLAGS_NO_FAULT_TOLERANCE = 0 then
        let t2 := (t1 + D.KGSL_TIMEOUT_PART) % 2 ^ 32
        let device := devctxt_update device id (fun a => { a with ib_gpu_time_used := t2 })
        if t2 > D.KGSL_TIMEOUT_LONG_IB_DETECTION ∧ device.long_ib_ts ≠ curr_global_ts then
          some { ret := 1, site := detect_return.long_ib,
                 device :=
                   devctxt_update { device with long_ib := 1, long_ib_ts := curr_global_ts }
                     id (fun a => { a with ib_gpu_time_used := 0 }),
                 statics := st, prev_reg_val := prev_reg_val, regwrites := [] }
        else some (detect_fall_through device st curr_reg_val prev_reg_val)
      else some (detect_fall_through device st curr_reg_val prev_reg_val)

/-- The branch `curr_global_ts == prev_global_ts` of `adreno_ft_detect` to
the end of the function. -/
def detect_stalled (K : ft_consts) (D : detect_consts) (device : kgsl_device)
    (st : detect_statics) (curr_reg_val prev_reg_val : Nat → Nat) (curr_global_ts : Nat)
    (fast_hang_detected long_ib_detected : Bool) : Option detect_result :=
  match detect_resolve_context K device st with
  | none => none
  | some (device, st) =>
    detect_stalled_body K D device st curr_reg_val prev_reg_val curr_global_ts
      fast_hang_detected long_ib_detected

/-- The function `adreno_ft_detect(device, prev_reg_val)`. `next_hang_detect_time`
is an `unsigned long`, 32 bits wide on this target. -/
def adreno_ft_detect (K : ft_consts) (D : detect_consts) (e : detect_env)
    (device : kgsl_device) (st : detect_statics) (prev_reg_val : Nat → Nat) :
    Option detect_result :=
  let fast_hang_detected : Bool := if e.fast_hang_detect = 0 then false else true
  let long_ib_detected : Bool := if e.long_ib_detect = 0 then false else true
  if is_adreno_rbbm_status_idle e then
    let regwrites :=
      if e.is_a2xx then
        let rptr := e.status_regread D.REG_CP_RB_RPTR
        if rptr ≠ device.ringbuffer.wptr then [(D.REG_CP_RB_WPTR, device.ringbuffer.wptr)]
        else []
      else []
    some { ret := 0, site := detect_return.idle, device := device, statics := st,
           prev_reg_val := prev_reg_val, regwrites := regwrites }
  else if st.next_hang_detect_time ≠ 0 ∧
      D.time_before e.jiffies st.next_hang_detect_time = true then
    some { ret := 0, site := detect_return.rate_limit, device := device, statics := st,
           prev_reg_val := prev_reg_val, regwrites := [] }
  else
    let st := { st with
      next_hang_detect_time :=
        (e.jiffies + D.msecs_to_jiffies (D.KGSL_TIMEOUT_PART - 1)) % 2 ^ 32 }
    let curr_reg_val := detect_sample e
    let curr_global_ts := device.memstore K.KGSL_MEMSTORE_GLOBAL memstore_field.eoptimestamp
    if curr_global_ts = st.prev_global_ts then
      detect_stalled K D device st curr_reg_val prev_reg_val curr_global_ts
        fast_hang_detected long_ib_detected
    else
      some (detect_fall_through { device with long_ib := 0, long_ib_ts := 0 }
        { st with prev_global_ts := curr_global_ts, context := none, curr_context := none }
        curr_reg_val prev_reg_val)

/-- The call samples the registers: the status register is not idle and the
rate limit does not cut the call short. -/
def detect_samples (D : detect_consts) (e : detect_env) (st : detect_statics) : Prop :=
  is_adreno_rbbm_status_idle e = false ∧
  ¬ (st.next_hang_detect_time ≠ 0 ∧ D.time_before e.jiffies st.next_hang_detect_time = true)

/-- The current context of the stalled branch is `id` with device context `a`
and accumulated time `base` at the first increment: either no context is
cached and the id read from the memstore is in the table with a device
context (its time is reset to 0), or a context is cached and `curr_context`
points to `a`. -/
def detect_resolved (K : ft_consts) (device : kgsl_device) (st : detect_statics) (id : Nat)
    (a : adreno_context) (base : Nat) : Prop :=
  (st.context = none ∧
    (∃ c, idr_find device.context_idr
        (device.memstore K.KGSL_MEMSTORE_GLOBAL memstore_field.current_context) = some c ∧
      c.id = id ∧ c.devctxt = some a) ∧ base = 0) ∨
  (st.context ≠ none ∧ st.curr_context = some id ∧ devctxt_of device id = some a ∧
    base = a.ib_gpu_time_used)

/-- No `NULL` or stale pointer is dereferenced by the stalled branch. -/
def detect_pointers_ok (K : ft_consts) (device : kgsl_device) (st : detect_statics) : Prop :=
  (st.context = none →
    match idr_find device.context_idr
        (device.memstore K.KGSL_MEMSTORE_GLOBAL memstore_field.current_context) with
    | some c => c.devctxt ≠ none
    | none => ∀ id, st.curr_context = some id → devctxt_of device id ≠ none) ∧
  (st.context ≠ none → ∀ id, st.curr_context = some id → devctxt_of device id ≠ none)

/-- A context whose device context accumulated 1950 ms. -/
def ctx_busy : kgsl_context :=
  { id := 1, reset_status := 0,
    devctxt := some { flags := 0, timestamp := 5, ib_gpu_time_used := 1950 } }

/-- A device whose context 1 is current, global end-of-pipe timestamp 41. -/
def dev_busy : kgsl_device :=
  { context_idr := [ctx_busy],
    memstore := fun c f =>
      if c = 0 then
        (match f with
          | memstore_field.current_context => 1
          | memstore_field.eoptimestamp => 41
          | memstore_field.soptimestamp => 0)
      else 0,
    ringbuffer := rb_no_marker }

/-- An a3xx GPU that is busy; the first six entries of `ft_detect_regs` name
registers, each of which reads 7. -/
def env_busy : detect_env :=
  { jiffies := 1000, status_regread := fun _ => 0x80000000,
    regread := fun _ => 7,
    ft_detect_regs := fun i =>
      if i = 0 then 0x5D0 else if i = 1 then 0x1C4 else if i = 2 then 0x458
      else if i = 3 then 0x459 else if i = 4 then 0x45A else if i = 5 then 0x45B else 0,
    fast_hang_detect := 1, long_ib_detect := 1, is_a2xx := false, reg_rbbm_status := 0x5D0 }

/-- Statics with context 1 cached and the previous global timestamp `ts`. -/
def statics_cached (ts : Nat) : detect_statics :=
  { prev_global_ts := ts, context := some 1, curr_context := some 1 }

/-- A caller's buffer that holds the sample of `env_busy` except at index 0. -/
def prev_regs_status_moved : Nat → Nat :=
  fun i => if i = 0 then 9 else if i ≤ 5 then 7 else 0

/-- A caller's buffer that holds the sample of `env_busy`. -/
def prev_regs_same : Nat → Nat :=
  fun i => if i ≤ 5 then 7 else 0

/-- An 8-word ring buffer, write pointer at word 0: a command marker at word
2, one context-switch marker at word 3 and the call of the IB at `0x5000` at
words 4 and 5. -/
def rb_one_switch : adreno_ringbuffer :=
  { buffer := fun i =>
      if i = 2 then 0xFEEDFACE else if i = 3 then 0x2EADBEEF else if i = 4 then 0xC0013F00
      else if i = 5 then 0x5000 else 0,
    size := 32, wptr := 0 }

/-- The same ring buffer with a second context-switch marker at word 2 in
place of the command marker. -/
def rb_two_switches : adreno_ringbuffer :=
  { buffer := fun i =>
      if i = 2 then 0x2EADBEEF else if i = 3 then 0x2EADBEEF else if i = 4 then 0xC0013F00
      else if i = 5 then 0x5000 else 0,
    size := 32, wptr := 0 }

/-- The device with contexts 1 and 2 after a long IB was declared at global
timestamp `ts`; the global end-of-pipe timestamp is 41 now. -/
def dev_long_ib (ts : Nat) : kgsl_device :=
  { dev_two_contexts with
    long_ib := 1, long_ib_ts := ts,
    memstore := fun c f =>
      if c = 0 ∧ f = memstore_field.eoptimestamp then 41 else 0 }

/-- An event of a trace without the buffer it carries: the function called,
the ring-buffer handle, the size and the return value. -/
inductive ft_call where
  | extract (rb : rb_ptr)
  | resubmit (stage : ft_stage) (rb : rb_ptr) (size : Nat) (ret : Int)
  | restore (stage : ft_stage) (rb : rb_ptr) (size : Nat)
  | drawctxt_switch
deriving DecidableEq, Repr

/-- The call an event records. -/
def event_call : ft_event → ft_call
  | ft_event.extract rb => ft_call.extract rb
  | ft_event.resubmit stage rb _ size ret => ft_call.resubmit stage rb size ret
  | ft_event.restore stage rb _ size => ft_call.restore stage rb size
  | ft_event.drawctxt_switch => ft_call.drawctxt_switch

/-- The ring-buffer handle passed in a call, when it takes one. -/
def event_rb : ft_event → Option rb_ptr
  | ft_event.extract rb => some rb
  | ft_event.resubmit _ rb _ _ _ => some rb
  | ft_event.restore _ rb _ _ => some rb
  | ft_event.drawctxt_switch => none

/-- Every ring-buffer handle passed in the calls of a trace is `rb`. -/
def handles_are (rb : rb_ptr) (trace : List ft_event) : Prop :=
  ∀ e ∈ trace, event_rb e = none ∨ event_rb e = some rb

/-- A context that asked for no fault tolerance. -/
def ctx_no_ft : kgsl_context :=
  { id := 1, reset_status := 0, devctxt := some { flags := 0x20000, timestamp := 5 } }

/-- A device whose context 1 asked for no fault tolerance. -/
def dev_no_ft : kgsl_device :=
  { context_idr := [ctx_no_ft, ctx_guilty], memstore := fun _ _ => 0,
    ringbuffer := rb_no_marker }

/-- A bad segment of one word, an IB call header; the word after the segment
holds `0x5000`. -/
def bad_rb_header_last : Nat → Nat :=
  fun i => if i = 0 then 0xC0013700 else if i = 1 then 0x5000 else 7

/-- The same segment followed by a word that is not `0x5000`. -/
def bad_rb_header_last_other : Nat → Nat :=
  fun i => if i = 0 then 0xC0013700 else 7

/-- A bad segment of three words: the call of an IB at address 0. -/
def bad_rb_ib_zero : Nat → Nat :=
  fun i => if i = 0 then 0xC0013700 else if i = 1 then 0 else 7

/-! ## The top-level fault handler -/

/-- The error number `ETIMEDOUT` of `errno.h`. -/
def ETIMEDOUT : Int := 110

/-- No data available. -/
def ENODATA : Int := 61

/-- The device states of `kgsl_device.h` that `adreno_dump_and_exec_ft`
names. -/
structure dump_consts where
  KGSL_STATE_ACTIVE : Nat
  KGSL_STATE_HUNG : Nat
  KGSL_STATE_DUMP_AND_FT : Nat

/-- Sample values of the three states, pairwise different. -/
def msm_dump_consts : dump_consts where
  KGSL_STATE_ACTIVE := 0x2
  KGSL_STATE_HUNG := 0x20
  KGSL_STATE_DUMP_AND_FT := 0x40

/-- The device as `adreno_dump_and_exec_ft` sees it: the state of the
fault-tolerance code, `device->state`, the completion `device->ft_gate`
(`ft_gate_done` is set by `complete_all` and cleared by `INIT_COMPLETION`),
the power levels of `device->pwrctrl` and `device->snapshot_no_panic`. -/
structure dump_device where
  device : kgsl_device
  state : Nat
  ft_gate_done : Bool
  active_pwrlevel : Nat
  max_pwrlevel : Nat
  snapshot_no_panic : Nat

/-- What one call of `adreno_dump_and_exec_ft` meets outside the device:
`pid_of id` is `context->dev_priv->process_priv->pid` of context `id`, `none`
when one of the two pointers is `NULL`; `state_after_wait` is `device->state`
when `wait_for_completion` returns; the allocations and the runs of the
recovery; `board_mfg_mode()` and the return value of `adreno_kill_suspect`. -/
structure dump_env where
  pid_of : Nat → Option Nat
  state_after_wait : Nat
  alloc : alloc_oracle
  world : ft_world
  board_mfg_mode : Bool
  kill_suspect : Nat → Int

/-- The calls of `adreno_dump_and_exec_ft` that leave the modelled state as
it is. -/
inductive dump_event where
  | postmortem_dump
  | device_snapshot
  | mod_timer
deriving DecidableEq, Repr

/-- Modelled from the spec: `kgsl_pwrctrl_set_state` is defined in
`kgsl_pwrctrl.c`, outside `adreno.c`; it "marks device state as" the state
given. -/
def kgsl_pwrctrl_set_state (dd : dump_device) (state : Nat) : dump_device :=
  { dd with state := state }

/-- Modelled from the spec: `kgsl_pwrctrl_pwrlevel_change` is defined in
`kgsl_pwrctrl.c`, outside `adreno.c`; it "forces the device to" the power
level given, which becomes the active one. -/
def kgsl_pwrctrl_pwrlevel_change (dd : dump_device) (level : Nat) : dump_device :=
  { dd with active_pwrlevel := level }

/-- The function `adreno_dump_and_exec_ft`: the result, the device and the
calls made; `none` when the function does not return (`panic`, or a recovery
that does not return). `F` and `fuel` bound the loops of the recovery. -/
def adreno_dump_and_exec_ft (K : ft_consts) (C : dump_consts) (e : dump_env) (F fuel : Nat)
    (dd : dump_device) : Option (Int × dump_device × List dump_event) :=
  let result : Int := -ETIMEDOUT
  if dd.state = C.KGSL_STATE_HUNG then some (result, dd, [])
  else if dd.state = C.KGSL_STATE_DUMP_AND_FT then
    let dd := { dd with state := e.state_after_wait, ft_gate_done := true }
    if dd.state ≠ C.KGSL_STATE_HUNG then some (0, dd, []) else some (result, dd, [])
  else
    let dd := kgsl_pwrctrl_set_state dd C.KGSL_STATE_DUMP_AND_FT
    let dd := { dd with ft_gate_done := false }
    let context_id := dd.device.memstore K.KGSL_MEMSTORE_GLOBAL memstore_field.current_context
    match idr_find dd.device.context_idr context_id with
    | none => some (-ENODATA, dd, [])
    | some context =>
      match e.pid_of context.id with
      | none => some (-ENODATA, dd, [])
      | some gpu_hung_pid =>
        let curr_pwrlevel := dd.active_pwrlevel
        let dd := kgsl_pwrctrl_pwrlevel_change dd dd.max_pwrlevel
        match adreno_setup_ft_data K F e.alloc dd.device with
        | none => none
        | some (result, device, ft_data) =>
          let dd := { dd with device := device }
          let events :=
            if dd.device.long_ib = 0 then [dump_event.postmortem_dump, dump_event.device_snapshot]
            else []
          let r : Option (Int × kgsl_device) :=
            if result = 0 then
              (adreno_ft K F fuel e.world dd.device ft_data).map (fun r => (r.ret, r.device))
            else some (result, dd.device)
          match r with
          | none => none
          | some (result, device) =>
            let dd := { dd with device := device }
            let dd := kgsl_pwrctrl_pwrlevel_change dd curr_pwrlevel
            let s : dump_device × List dump_event :=
              if result ≠ 0 then (kgsl_pwrctrl_set_state dd C.KGSL_STATE_HUNG, events)
              else
                (kgsl_pwrctrl_set_state dd C.KGSL_STATE_ACTIVE, events ++ [dump_event.mod_timer])
            let dd : dump_device := { s.1 with ft_gate_done := true }
            if dd.snapshot_no_panic = 0 then
              if result ≠ 0 then none
              else if e.board_mfg_mode = true ∨ e.kill_suspect gpu_hung_pid ≠ 0 then none
              else some (result, dd, s.2)
            else some (result, dd, s.2)

/-- A device in the active state whose memstore names context 0 as current,
an id that is not in the context table (contexts 1 and 2). -/
def dump_dev_unknown_context : dump_device :=
  { device := dev_two_contexts, state := 0x2, ft_gate_done := true,
    active_pwrlevel := 3, max_pwrlevel := 0, snapshot_no_panic := 1 }

/-- The device of `dev_preamble` (context 1 current and in the table) in the
active state. -/
def dump_dev_known_context : dump_device :=
  { device := dev_preamble, state := 0x2, ft_gate_done := true,
    active_pwrlevel := 3, max_pwrlevel := 0, snapshot_no_panic := 1 }

/-- Every context has an owning process (pid 77); allocations and recovery
steps succeed. -/
def dump_env_ok : dump_env :=
  { pid_of := fun _ => some 77, state_after_wait := 0x2,
    alloc := world_all_ok.alloc 0, world := world_all_ok,
    board_mfg_mode := false, kill_suspect := fun _ => 0 }


/-! ## Reference for the backward end-of-pipe search -/

/-- The three consecutive words at the byte offsets `p`, `p + 1` word and
`p + 2` words (modulo the buffer size) are an end-of-pipe write of `v`: the
header `cp_type3_packet(CP_MEM_WRITE, 2)` or `CACHE_FLUSH_TS`, the memstore
address of the global `eoptimestamp`, and the value `v`. -/
def eop_write_at (K : ft_consts) (rb : adreno_ringbuffer) (v p : Nat) : Bool :=
  (rb_readl rb p == K.CP_HDR_MEM_WRITE || rb_readl rb p == K.CACHE_FLUSH_TS) &&
    (rb_readl rb (adreno_ringbuffer_inc_wrapped p rb.size) == K.memstore_gpuaddr_global_eop &&
      rb_readl rb (adreno_ringbuffer_inc_wrapped (adreno_ringbuffer_inc_wrapped p rb.size)
        rb.size) == v)

/-- The byte offsets read by a backward walk of `n` reads that starts at
`temp`: one word before `temp`, two words before it, and so on, modulo the
buffer size. -/
def eop_walk_positions (rb : adreno_ringbuffer) (temp n : Nat) : List Nat :=
  (List.range n).map (fun k => rb_walk false rb.size temp (k + 1))

/-- The search of the reference: among the positions of the backward walk of
`n` reads from `temp`, the first one reached after at least `s` earlier reads
that holds an end-of-pipe write of `v`. -/
def eop_search (K : ft_consts) (rb : adreno_ringbuffer) (v : Nat) (n s temp : Nat) :
    Option Nat :=
  ((eop_walk_positions rb temp n).drop s).find? (eop_write_at K rb v)

/-- The reference for `_find_cmd_seq_after_eop_ts(rb, &rb_rptr, v, false)`
called with `rb_rptr` at the write pointer, following the words of the
specification: walk backward from `wptr - 1` (modulo the buffer size) down to
`wptr`, `size / 4` reads in all; take the first position, reached after at
least two earlier reads, that holds an end-of-pipe write of `v`; when there is
one and `_find_start_of_cmd_seq` walking backward from it succeeds, the result
is `0` with the locator's position, otherwise `-EINVAL` with `*rb_rptr`
unchanged. -/
def find_cmd_seq_after_eop_ts_reference (K : ft_consts) (fuel : Nat)
    (rb : adreno_ringbuffer) (v : Nat) : Option (Int × Nat) :=
  match eop_search K rb v (rb.size / 4) 2 (rb.wptr * 4) with
  | none => some (-EINVAL, rb.wptr * 4)
  | some p =>
    match _find_start_of_cmd_seq K fuel rb p false with
    | none => none
    | some (status, q) => if status = 0 then some (0, q) else some (-EINVAL, rb.wptr * 4)

/-- The relation between the locals of the loop of `_find_cmd_seq_after_eop_ts`
walking backward and the words already read: `s` reads are still to be made
before `check` is set, and once it is set the two words read last are held in
`val` at the two indices before `i`. -/
def eop_loop_inv (rb : adreno_ringbuffer) (s temp : Nat) (val : Nat → Nat) (i : Nat)
    (check : Bool) : Prop :=
  i < 3 ∧
    ((s = 2 ∧ i = 0 ∧ check = false) ∨
      (s = 1 ∧ i = 1 ∧ check = false ∧ val 0 = rb_readl rb temp) ∨
      (s = 0 ∧ check = true ∧ val ((i + 2) % 3) = rb_readl rb temp ∧
        val ((i + 1) % 3) = rb_readl rb (adreno_ringbuffer_inc_wrapped temp rb.size)))

/-! ## Theorems -/

theorem mark_context_guilty (K : ft_consts) (ft_status : Int) (c : kgsl_context)
    (h : c.reset_status = K.KGSL_CTX_STAT_GUILTY_CONTEXT_RESET_EXT) :
    (mark_context K ft_status c).reset_status = K.KGSL_CTX_STAT_GUILTY_CONTEXT_RESET_EXT := by
  unfold mark_context
  by_cases hs : ft_status = 0
  · simp [hs, h]
  · simp [hs]

theorem mark_context_id (K : ft_consts) (ft_status : Int) (c : kgsl_context) :
    (mark_context K ft_status c).id = c.id := by
  unfold mark_context
  split
  · rfl
  · split
    · split
      · split <;> rfl
      · rfl
    · rfl

theorem mark_episodes_length (K : ft_consts) (sts : List Int) (device : kgsl_device) :
    (mark_context_episodes K device sts).context_idr.length = device.context_idr.length := by
  induction sts generalizing device with
  | nil => rfl
  | cons s rest ih =>
    have := ih (adreno_mark_context_status K device s)
    simpa [mark_context_episodes, adreno_mark_context_status] using this

theorem mark_episodes_guilty (K : ft_consts) (sts : List Int) (device : kgsl_device) (i : Nat)
    (c : kgsl_context) (hc : device.context_idr[i]? = some c)
    (h : c.reset_status = K.KGSL_CTX_STAT_GUILTY_CONTEXT_RESET_EXT) :
    ∃ c2, (mark_context_episodes K device sts).context_idr[i]? = some c2 ∧ c2.id = c.id ∧
      c2.reset_status = K.KGSL_CTX_STAT_GUILTY_CONTEXT_RESET_EXT := by
  induction sts generalizing device c with
  | nil => exact ⟨c, hc, rfl, h⟩
  | cons s rest ih =>
    have h1 : (adreno_mark_context_status K device s).context_idr[i]? =
        some (mark_context K s c) := by
      simp [adreno_mark_context_status, List.getElem?_map, hc]
    obtain ⟨c2, h2, h3, h4⟩ := ih (adreno_mark_context_status K device s) (mark_context K s c) h1
      (mark_context_guilty K s c h)
    exact ⟨c2, h2, by rw [h3, mark_context_id], h4⟩

/-- C1: `adreno_mark_context_status` never downgrades blame. For every
`ft_status` and every context of the table (position `i`), a context whose
`reset_status` is guilty before the call is the same context (same id, same
position) and still guilty after it; and the same holds after any sequence of
episodes `sts`. -/
theorem C1_guilty_is_monotonic (K : ft_consts) (device : kgsl_device) (i : Nat)
    (c : kgsl_context) (hc : device.context_idr[i]? = some c)
    (h : c.reset_status = K.KGSL_CTX_STAT_GUILTY_CONTEXT_RESET_EXT) :
    (∀ ft_status : Int, ∃ c2,
      (adreno_mark_context_status K device ft_status).context_idr[i]? = some c2 ∧
      c2.id = c.id ∧ c2.reset_status = K.KGSL_CTX_STAT_GUILTY_CONTEXT_RESET_EXT) ∧
    (∀ sts : List Int, ∃ c2,
      (mark_context_episodes K device sts).context_idr[i]? = some c2 ∧
      c2.id = c.id ∧ c2.reset_status = K.KGSL_CTX_STAT_GUILTY_CONTEXT_RESET_EXT) := by
  refine ⟨fun ft_status => ?_, fun sts => mark_episodes_guilty K sts device i c hc h⟩
  exact mark_episodes_guilty K [ft_status] device i c hc h

/-! ### The sequence-start locator -/

theorem inc_wrapped_eq (p size : Nat) (hp : p < size) (h4 : p % 4 = 0) (hs : size % 4 = 0) :
    adreno_ringbuffer_inc_wrapped p size = if p + 4 = size then 0 else p + 4 := by
  unfold adreno_ringbuffer_inc_wrapped
  split
  · next h => rw [h, Nat.mod_self]
  · next h => exact Nat.mod_eq_of_lt (by omega)

theorem dec_wrapped_eq (p size : Nat) (hp : p < size) (h4 : p % 4 = 0) (hs : size % 4 = 0) :
    adreno_ringbuffer_dec_wrapped p size = if p = 0 then size - 4 else p - 4 := by
  unfold adreno_ringbuffer_dec_wrapped
  split
  · next h => subst h; rw [Nat.zero_add]; exact Nat.mod_eq_of_lt (by omega)
  · next h =>
    have : p + size - 4 = (p - 4) + size := by omega
    rw [this, Nat.add_mod_right]
    exact Nat.mod_eq_of_lt (by omega)

theorem rb_step_wf (inc : Bool) (size w p : Nat) (hp : p < size) (h4 : p % 4 = 0)
    (hs : size % 4 = 0) (hw : w < size / 4) (hne : p / 4 ≠ w) :
    rb_step inc size p < size ∧ rb_step inc size p % 4 = 0 ∧
      rb_dist inc size w (rb_step inc size p) + 4 = rb_dist inc size w p := by
  unfold rb_step rb_dist
  cases inc
  · simp only [Bool.false_eq_true, if_false]
    rw [dec_wrapped_eq p size hp h4 hs]
    split <;> split <;> split <;> omega
  · simp only [if_true]
    rw [inc_wrapped_eq p size hp h4 hs]
    split <;> split <;> split <;> omega

theorem find_start_loop_terminates (K : ft_consts) (rb : adreno_ringbuffer) (inc : Bool)
    (ptr0 : Nat) (hs : rb.size % 4 = 0) (hw : rb.wptr < rb.size / 4) :
    ∀ (fuel p : Nat), p < rb.size → p % 4 = 0 → rb_dist inc rb.size rb.wptr p ≤ 4 * fuel →
      (∃ r, find_start_of_cmd_seq_loop K rb inc ptr0 fuel p = some r) ∧
      ((∀ k, 0 < k → (∀ j, j < k → rb_walk inc rb.size p j / 4 ≠ rb.wptr) →
          rb_readl rb (rb_walk inc rb.size p k) ≠ K.KGSL_CMD_IDENTIFIER) →
        find_start_of_cmd_seq_loop K rb inc ptr0 fuel p = some (-EINVAL, ptr0)) := by
  intro fuel
  induction fuel with
  | zero =>
    intro p hp h4 hd
    have hpw : p / 4 = rb.wptr := by
      unfold rb_dist at hd
      cases inc
      · simp only [Bool.false_eq_true, if_false] at hd
        split at hd <;> omega
      · simp only [if_true] at hd
        split at hd <;> omega
    unfold find_start_of_cmd_seq_loop
    simp [hpw]
  | succ n ih =>
    intro p hp h4 hd
    by_cases hpw : p / 4 = rb.wptr
    · unfold find_start_of_cmd_seq_loop
      simp [hpw]
    · obtain ⟨h1, h2, h3⟩ := rb_step_wf inc rb.size rb.wptr p hp h4 hs hw hpw
      have hd2 : rb_dist inc rb.size rb.wptr (rb_step inc rb.size p) ≤ 4 * n := by omega
      obtain ⟨⟨r, hr⟩, hnone⟩ := ih (rb_step inc rb.size p) h1 h2 hd2
      have hstep : (if inc = true then adreno_ringbuffer_inc_wrapped p rb.size
          else adreno_ringbuffer_dec_wrapped p rb.size) = rb_step inc rb.size p := rfl
      constructor
      · unfold find_start_of_cmd_seq_loop
        simp only [hpw, ne_eq, not_false_eq_true, if_true, hstep]
        split
        · exact ⟨_, rfl⟩
        · exact ⟨r, hr⟩
      · intro hno
        unfold find_start_of_cmd_seq_loop
        simp only [hpw, ne_eq, not_false_eq_true, if_true, hstep]
        have hfirst : rb_readl rb (rb_step inc rb.size p) ≠ K.KGSL_CMD_IDENTIFIER := by
          have := hno 1 (by omega) (fun j hj => by
            have : j = 0 := by omega
            subst this; exact hpw)
          simpa [rb_walk] using this
        rw [if_neg (fun h => hfirst h.symm)]
        apply hnone
        intro k hk hj
        have := hno (k + 1) (by omega) (fun j hjk => by
          cases j with
          | zero => exact hpw
          | succ j => exact hj j (by omega))
        simpa [rb_walk] using this

/-- C6: `_find_start_of_cmd_seq` terminates and fails cleanly. For a ring
buffer whose byte size is a multiple of 4 (positive, since the write pointer
is below `size/4`), a word-aligned start offset below `size` and either direction, the
loop returns within `size/4` executions of its body; and if no
`KGSL_CMD_IDENTIFIER` word lies on the walk from the start offset (exclusive)
to the write pointer (inclusive), the result is `-EINVAL` with `*ptr`
unchanged. -/
theorem C6_find_start_terminates (K : ft_consts) (rb : adreno_ringbuffer) (ptr : Nat)
    (inc : Bool) (hs : rb.size % 4 = 0) (hw : rb.wptr < rb.size / 4)
    (hp : ptr < rb.size) (h4 : ptr % 4 = 0) :
    (∃ r, _find_start_of_cmd_seq K (rb.size / 4) rb ptr inc = some r) ∧
    ((∀ k, 0 < k → (∀ j, j < k → rb_walk inc rb.size ptr j / 4 ≠ rb.wptr) →
        rb_readl rb (rb_walk inc rb.size ptr k) ≠ K.KGSL_CMD_IDENTIFIER) →
      _find_start_of_cmd_seq K (rb.size / 4) rb ptr inc = some (-EINVAL, ptr)) := by
  have hd : rb_dist inc rb.size rb.wptr ptr ≤ 4 * (rb.size / 4) := by
    unfold rb_dist
    cases inc <;> simp <;> split <;> omega
  exact find_start_loop_terminates K rb inc ptr hs hw (rb.size / 4) ptr hp h4 hd

theorem find_start_loop_success (K : ft_consts) (rb : adreno_ringbuffer) (inc : Bool)
    (ptr0 : Nat) :
    ∀ (fuel p q : Nat), find_start_of_cmd_seq_loop K rb inc ptr0 fuel p = some (0, q) →
      ∃ k, 0 < k ∧ k ≤ fuel ∧
        (∀ j, j < k → rb_walk inc rb.size p j / 4 ≠ rb.wptr) ∧
        (∀ j, 0 < j → j < k → rb_readl rb (rb_walk inc rb.size p j) ≠ K.KGSL_CMD_IDENTIFIER) ∧
        rb_readl rb (rb_walk inc rb.size p k) = K.KGSL_CMD_IDENTIFIER ∧
        q = (if rb_walk inc rb.size p k / 4 ≠ rb.wptr
              then adreno_ringbuffer_dec_wrapped (rb_walk inc rb.size p k) rb.size
              else rb_walk inc rb.size p k) := by
  intro fuel
  induction fuel with
  | zero =>
    intro p q h
    unfold find_start_of_cmd_seq_loop at h
    split at h
    · simp at h
    · simp [EINVAL] at h
  | succ n ih =>
    intro p q h
    unfold find_start_of_cmd_seq_loop at h
    split at h
    · next hpw =>
      have hstep : (if inc = true then adreno_ringbuffer_inc_wrapped p rb.size
          else adreno_ringbuffer_dec_wrapped p rb.size) = rb_step inc rb.size p := rfl
      simp only [hstep] at h
      split at h
      · next hm =>
        refine ⟨1, by omega, by omega, ?_, ?_, ?_, ?_⟩
        · intro j hj
          have : j = 0 := by omega
          subst this; exact hpw
        · intro j h0 h1; omega
        · simpa [rb_walk] using hm.symm
        · simp only [Option.some.injEq, Prod.mk.injEq, true_and] at h
          simpa [rb_walk] using h.symm
      · next hm =>
        obtain ⟨k, hk0, hkn, hw, hnm, hmk, hq⟩ := ih (rb_step inc rb.size p) q h
        refine ⟨k + 1, by omega, by omega, ?_, ?_, ?_, ?_⟩
        · intro j hj
          cases j with
          | zero => exact hpw
          | succ j => exact hw j (by omega)
        · intro j h0 h1
          cases j with
          | zero => omega
          | succ j =>
            cases j with
            | zero => simpa [rb_walk] using fun h => hm h.symm
            | succ j => exact hnm (j + 1) (by omega) (by omega)
        · exact hmk
        · exact hq
    · simp [EINVAL] at h

/-- C5 (as amended): on success `_find_start_of_cmd_seq` has met, after
`k ≥ 1` steps of the walk from the start offset in the requested direction,
the first `KGSL_CMD_IDENTIFIER` word (no earlier position of the walk holds
one, and the write pointer was not reached before), and `*ptr` is that
position moved one word back whenever the marker is not at the write pointer,
in either direction. -/
theorem C5_find_start_result (K : ft_consts) (fuel : Nat) (rb : adreno_ringbuffer)
    (ptr q : Nat) (inc : Bool)
    (h : _find_start_of_cmd_seq K fuel rb ptr inc = some (0, q)) :
    ∃ k, 0 < k ∧ k ≤ fuel ∧
      (∀ j, j < k → rb_walk inc rb.size ptr j / 4 ≠ rb.wptr) ∧
      (∀ j, 0 < j → j < k →
        rb_readl rb (rb_walk inc rb.size ptr j) ≠ K.KGSL_CMD_IDENTIFIER) ∧
      rb_readl rb (rb_walk inc rb.size ptr k) = K.KGSL_CMD_IDENTIFIER ∧
      q = (if rb_walk inc rb.size ptr k / 4 ≠ rb.wptr
            then adreno_ringbuffer_dec_wrapped (rb_walk inc rb.size ptr k) rb.size
            else rb_walk inc rb.size ptr k) :=
  find_start_loop_success K rb inc ptr fuel ptr q h

/-- C5, counterexample: a 4-word ring buffer with the write pointer at word 0
and a single `KGSL_CMD_IDENTIFIER` at word 2 (byte offset 8). Walking forward
from byte offset 4 the first marker met is at offset 8, one step away and not
at the write pointer, yet the function succeeds with `*ptr = 4`, not 8. -/
theorem C5_forward_counterexample :
    _find_start_of_cmd_seq msm_consts 4 rb_one_marker 4 true = some (0, 4) ∧
    rb_walk true rb_one_marker.size 4 1 = 8 ∧
    rb_readl rb_one_marker 8 = msm_consts.KGSL_CMD_IDENTIFIER ∧
    8 / 4 ≠ rb_one_marker.wptr := by
  decide

/-- C5, witness: the same buffer walked backward from offset 12 meets the
marker at offset 8 and returns offset 4. -/
theorem C5_find_start_result_witness :
    _find_start_of_cmd_seq msm_consts 4 rb_one_marker 12 false = some (0, 4) ∧
    ∃ k, 0 < k ∧ k ≤ 4 ∧
      (∀ j, j < k → rb_walk false rb_one_marker.size 12 j / 4 ≠ rb_one_marker.wptr) ∧
      (∀ j, 0 < j → j < k →
        rb_readl rb_one_marker (rb_walk false rb_one_marker.size 12 j) ≠
          msm_consts.KGSL_CMD_IDENTIFIER) ∧
      rb_readl rb_one_marker (rb_walk false rb_one_marker.size 12 k) =
        msm_consts.KGSL_CMD_IDENTIFIER ∧
      4 = (if rb_walk false rb_one_marker.size 12 k / 4 ≠ rb_one_marker.wptr
            then adreno_ringbuffer_dec_wrapped (rb_walk false rb_one_marker.size 12 k)
              rb_one_marker.size
            else rb_walk false rb_one_marker.size 12 k) :=
  ⟨by decide, C5_find_start_result msm_consts 4 rb_one_marker 12 4 false (by decide)⟩

/-- C6, witness: a 4-word ring buffer without any marker, walked backward from
offset 8 to the write pointer at word 0. -/
theorem C6_find_start_terminates_witness :
    (rb_no_marker.size % 4 = 0 ∧ rb_no_marker.wptr < rb_no_marker.size / 4 ∧
      8 < rb_no_marker.size ∧ 8 % 4 = 0) ∧
    ((∃ r, _find_start_of_cmd_seq msm_consts (rb_no_marker.size / 4) rb_no_marker 8 false
        = some r) ∧
    ((∀ k, 0 < k → (∀ j, j < k → rb_walk false rb_no_marker.size 8 j / 4 ≠ rb_no_marker.wptr) →
        rb_readl rb_no_marker (rb_walk false rb_no_marker.size 8 k) ≠
          msm_consts.KGSL_CMD_IDENTIFIER) →
      _find_start_of_cmd_seq msm_consts (rb_no_marker.size / 4) rb_no_marker 8 false
        = some (-EINVAL, 8))) :=
  ⟨by decide, C6_find_start_terminates msm_consts rb_no_marker 8 false (by decide) (by decide)
    (by decide) (by decide)⟩

/-- C1, witness: a table of two contexts, the second one guilty. -/
theorem C1_guilty_is_monotonic_witness :
    (dev_two_contexts.context_idr[1]? = some ctx_guilty ∧
      ctx_guilty.reset_status = msm_consts.KGSL_CTX_STAT_GUILTY_CONTEXT_RESET_EXT) ∧
    ((∀ ft_status : Int, ∃ c2,
      (adreno_mark_context_status msm_consts dev_two_contexts ft_status).context_idr[1]?
        = some c2 ∧
      c2.id = ctx_guilty.id ∧
      c2.reset_status = msm_consts.KGSL_CTX_STAT_GUILTY_CONTEXT_RESET_EXT) ∧
    (∀ sts : List Int, ∃ c2,
      (mark_context_episodes msm_consts dev_two_contexts sts).context_idr[1]? = some c2 ∧
      c2.id = ctx_guilty.id ∧
      c2.reset_status = msm_consts.KGSL_CTX_STAT_GUILTY_CONTEXT_RESET_EXT)) :=
  ⟨⟨rfl, rfl⟩, C1_guilty_is_monotonic msm_consts dev_two_contexts 1 ctx_guilty rfl rfl⟩

/-! ### The recovery ladder -/

theorem resubmits_append (a b : List ft_event) :
    resubmits (a ++ b) = resubmits a ++ resubmits b := by
  induction a with
  | nil => rfl
  | cons e rest ih => cases e <;> simp [resubmits, ih]

theorem bad_resubmits_append (a b : List ft_event) :
    bad_resubmits (a ++ b) = bad_resubmits a ++ bad_resubmits b := by
  simp [bad_resubmits, resubmits_append]

theorem resubmit_rb_ret (o : ft_oracle) (stage : ft_stage) (device : kgsl_device)
    (rb : rb_ptr) (context : Option kgsl_context) (buff : Nat → Nat) (size : Nat) :
    (_adreno_ft_resubmit_rb o stage device rb context buff size).1 =
      resubmit_ret o stage context size := by
  unfold _adreno_ft_resubmit_rb
  split
  · rfl
  · split <;> rfl

theorem resubmit_rb_device (o : ft_oracle) (stage : ft_stage) (device : kgsl_device)
    (rb : rb_ptr) (context : Option kgsl_context) (buff : Nat → Nat) (size : Nat) :
    (_adreno_ft_resubmit_rb o stage device rb context buff size).2.1 =
      hw_apply (adreno_init (adreno_stop device))
        (o.hw stage (adreno_init (adreno_stop device))) := by
  unfold _adreno_ft_resubmit_rb
  split
  · rfl
  · split <;> rfl

theorem resubmit_rb_resubmits (o : ft_oracle) (stage : ft_stage) (device : kgsl_device)
    (rb : rb_ptr) (context : Option kgsl_context) (buff : Nat → Nat) (size : Nat) :
    resubmits (_adreno_ft_resubmit_rb o stage device rb context buff size).2.2 =
      [(stage, resubmit_ret o stage context size)] := by
  unfold _adreno_ft_resubmit_rb
  split
  · rfl
  · split <;> rfl

theorem resubmit_rb_mem (o : ft_oracle) (stage : ft_stage) (device : kgsl_device)
    (rb : rb_ptr) (context : Option kgsl_context) (buff : Nat → Nat) (size : Nat) :
    ft_event.resubmit stage rb buff size (resubmit_ret o stage context size) ∈
      (_adreno_ft_resubmit_rb o stage device rb context buff size).2.2 := by
  unfold _adreno_ft_resubmit_rb
  split
  · simp
  · split <;> simp

theorem play_good_trace (K : ft_consts) (o : ft_oracle) (rb : rb_ptr)
    (context : kgsl_context) (last : Option Nat) (s : ft_state) :
    ∃ d, (_adreno_ft_play_good_cmds K o rb context last s).trace =
      s.trace ++ (_adreno_ft_resubmit_rb o ft_stage.good d rb (some context)
        s.ft_data.good_rb_buffer s.ft_data.good_rb_size).2.2 := by
  unfold _adreno_ft_play_good_cmds
  simp only []
  split <;> split <;> exact ⟨_, rfl⟩

theorem play_good_resubmits (K : ft_consts) (o : ft_oracle) (rb : rb_ptr)
    (context : kgsl_context) (last : Option Nat) (s : ft_state) :
    resubmits (_adreno_ft_play_good_cmds K o rb context last s).trace =
      resubmits s.trace ++
        [(ft_stage.good, resubmit_ret o ft_stage.good (some context) s.ft_data.good_rb_size)] := by
  obtain ⟨d, hd⟩ := play_good_trace K o rb context last s
  rw [hd, resubmits_append, resubmit_rb_resubmits]

theorem play_good_ft_data (K : ft_consts) (o : ft_oracle) (rb : rb_ptr)
    (context : kgsl_context) (last : Option Nat) (s : ft_state) :
    (_adreno_ft_play_good_cmds K o rb context last s).ft_data = s.ft_data := by
  unfold _adreno_ft_play_good_cmds
  simp only []
  split <;> split <;> rfl

theorem play_good_bad_resubmits (K : ft_consts) (o : ft_oracle) (rb : rb_ptr)
    (context : kgsl_context) (last : Option Nat) (s : ft_state) :
    bad_resubmits (_adreno_ft_play_good_cmds K o rb context last s).trace =
      bad_resubmits s.trace := by
  simp [bad_resubmits, play_good_resubmits]

theorem ladder_ok_nil (allowed : List ft_stage) : ladder_ok allowed [] := by
  simp [ladder_ok]

theorem ladder_ok_skip (a : ft_stage) (rest : List ft_stage) (l : List (ft_stage × Int))
    (h : ladder_ok rest l) : ladder_ok (a :: rest) l :=
  ⟨List.Sublist.cons a h.1, h.2⟩

theorem ladder_ok_cons (a : ft_stage) (x : Int) (rest : List ft_stage)
    (l : List (ft_stage × Int)) (h : ladder_ok rest l) (hx : x ≠ 0 ∨ l = []) :
    ladder_ok (a :: rest) ((a, x) :: l) := by
  refine ⟨?_, ?_⟩
  · simpa using h.1
  · intro y hy
    cases l with
    | nil => simp at hy
    | cons b l2 =>
      rw [List.dropLast_cons₂] at hy
      rcases List.mem_cons.mp hy with h1 | h1
      · subst h1
        rcases hx with hx | hx
        · exact hx
        · simp at hx
      · exact h.2 y h1

theorem skipframe_patch_trace (K : ft_consts) (context : kgsl_context) (s : ft_state) :
    (_adreno_ft_skipframe_patch K context s).trace = s.trace := by
  unfold _adreno_ft_skipframe_patch
  simp only []
  split <;> rfl

theorem skipframe_bad_resubmits (K : ft_consts) (o : ft_oracle) (rb : rb_ptr)
    (context : kgsl_context) (last : Option Nat) (s : ft_state) :
    ∃ l, bad_resubmits (_adreno_ft_skipframe K o rb context last s).trace =
        bad_resubmits s.trace ++ l ∧ ladder_ok [ft_stage.skipframe] l := by
  unfold _adreno_ft_skipframe
  split
  · refine ⟨[(ft_stage.skipframe, resubmit_ret o ft_stage.skipframe (some context)
        (_adreno_ft_skipframe_patch K context s).ft_data.bad_rb_size)], ?_,
      ladder_ok_cons _ _ _ _ (ladder_ok_nil _) (Or.inr rfl)⟩
    simp only []
    split <;>
      simp [play_good_bad_resubmits, bad_resubmits_append, skipframe_patch_trace] <;>
      simp [bad_resubmits, resubmit_rb_resubmits]
  · exact ⟨[], by simp [play_good_bad_resubmits], ladder_ok_nil _⟩

theorem skipib_bad_resubmits (K : ft_consts) (o : ft_oracle) (rb : rb_ptr)
    (context : kgsl_context) (last : Option Nat) (s : ft_state) :
    ∃ l, bad_resubmits (_adreno_ft_skipib K o rb context last s).trace =
        bad_resubmits s.trace ++ l ∧
      ladder_ok [ft_stage.skipib, ft_stage.skipframe] l := by
  unfold _adreno_ft_skipib
  split
  · simp only []
    split
    · exact ⟨[], by simp [play_good_bad_resubmits], ladder_ok_nil _⟩
    · split
      · next hne =>
        rw [resubmit_rb_ret] at hne
        obtain ⟨l, hl, hok⟩ := skipframe_bad_resubmits K o rb context last
          { device := (_adreno_ft_resubmit_rb o ft_stage.skipib s.device rb (some context)
              (skipib_loop K s.ft_data.ib1 s.ft_data.bad_rb_size 0 s.ft_data.bad_rb_buffer).2
              s.ft_data.bad_rb_size).2.1,
            ft_data := { s.ft_data with
              bad_rb_buffer :=
                (skipib_loop K s.ft_data.ib1 s.ft_data.bad_rb_size 0 s.ft_data.bad_rb_buffer).2,
              status := 1 },
            trace := s.trace ++ (_adreno_ft_resubmit_rb o ft_stage.skipib s.device rb
              (some context)
              (skipib_loop K s.ft_data.ib1 s.ft_data.bad_rb_size 0 s.ft_data.bad_rb_buffer).2
              s.ft_data.bad_rb_size).2.2 }
        refine ⟨(ft_stage.skipib, resubmit_ret o ft_stage.skipib (some context)
          s.ft_data.bad_rb_size) :: l, ?_, ladder_ok_cons _ _ _ _ hok (Or.inl hne)⟩
        rw [hl, bad_resubmits_append]
        simp [bad_resubmits, resubmit_rb_resubmits]
      · refine ⟨[(ft_stage.skipib, resubmit_ret o ft_stage.skipib (some context)
          s.ft_data.bad_rb_size)], ?_,
          ladder_ok_cons _ _ _ _ (ladder_ok_nil _) (Or.inr rfl)⟩
        simp [play_good_bad_resubmits, bad_resubmits_append]
        simp [bad_resubmits, resubmit_rb_resubmits]
  · obtain ⟨l, hl, hok⟩ := skipframe_bad_resubmits K o rb context last s
    exact ⟨l, hl, ladder_ok_skip _ _ _ hok⟩

theorem replay_bad_resubmits (K : ft_consts) (o : ft_oracle) (rb : rb_ptr)
    (context : kgsl_context) (last : Option Nat) (s : ft_state) :
    ∃ l, bad_resubmits (_adreno_ft_replay K o rb context last s).trace =
        bad_resubmits s.trace ++ l ∧
      ladder_ok [ft_stage.replay, ft_stage.skipib, ft_stage.skipframe] l := by
  unfold _adreno_ft_replay
  split
  · simp only []
    split
    · next hne =>
      rw [resubmit_rb_ret] at hne
      obtain ⟨l, hl, hok⟩ := skipib_bad_resubmits K o rb context last
        { device := (_adreno_ft_resubmit_rb o ft_stage.replay s.device rb (some context)
            s.ft_data.bad_rb_buffer s.ft_data.bad_rb_size).2.1,
          ft_data := { s.ft_data with status := 1 },
          trace := s.trace ++ (_adreno_ft_resubmit_rb o ft_stage.replay s.device rb
            (some context) s.ft_data.bad_rb_buffer s.ft_data.bad_rb_size).2.2 }
      refine ⟨(ft_stage.replay, resubmit_ret o ft_stage.replay (some context)
        s.ft_data.bad_rb_size) :: l, ?_, ladder_ok_cons _ _ _ _ hok (Or.inl hne)⟩
      rw [hl, bad_resubmits_append]
      simp [bad_resubmits, resubmit_rb_resubmits]
    · refine ⟨[(ft_stage.replay, resubmit_ret o ft_stage.replay (some context)
        s.ft_data.bad_rb_size)], ?_,
        ladder_ok_cons _ _ _ _ (ladder_ok_nil _) (Or.inr rfl)⟩
      simp [play_good_bad_resubmits, bad_resubmits_append]
      simp [bad_resubmits, resubmit_rb_resubmits]
  · obtain ⟨l, hl, hok⟩ := skipib_bad_resubmits K o rb context last s
    exact ⟨l, hl, ladder_ok_skip _ _ _ hok⟩

theorem live_bad_resubmits (K : ft_consts) (o : ft_oracle) (device : kgsl_device)
    (ft_data : adreno_ft_data) (context : kgsl_context) (a : adreno_context) :
    ladder_ok [ft_stage.replay, ft_stage.skipib, ft_stage.skipframe]
      (bad_resubmits (_adreno_ft_live K o device ft_data context a).trace) := by
  unfold _adreno_ft_live
  simp only []
  split
  · rw [play_good_bad_resubmits]; exact ladder_ok_nil _
  · split
    · split
      · rw [play_good_bad_resubmits]; exact ladder_ok_nil _
      · exact ladder_ok_nil _
    · split
      · rw [play_good_bad_resubmits]; exact ladder_ok_nil _
      · split
        · rw [play_good_bad_resubmits]; exact ladder_ok_nil _
        · obtain ⟨l, hl, hok⟩ := replay_bad_resubmits K o rb_ptr.null context none
            { device := ft_mark_hung K device context,
              ft_data := ft_apply_extract ft_data o.extract,
              trace := [ft_event.extract rb_ptr.null] }
          rw [hl]
          simpa [bad_resubmits, resubmits] using hok

/-- C3: in every run of `_adreno_ft`, for every policy bitmask, device,
snapshot and outcome of the external calls, the resubmissions of the bad
segment are in ladder order (their stages form a sublist of REPLAY, SKIP_IB,
SKIP_FRAME, so each strategy resubmits at most once and in that order), and
every bad-segment resubmission that is followed by another one returned
non-zero (no strategy runs after an earlier one has succeeded). -/
theorem C3_ladder_order (K : ft_consts) (o : ft_oracle) (device : kgsl_device)
    (ft_data : adreno_ft_data) :
    ((bad_resubmits (_adreno_ft K o device ft_data).trace).map Prod.fst).Sublist
        [ft_stage.replay, ft_stage.skipib, ft_stage.skipframe] ∧
    ∀ x ∈ (bad_resubmits (_adreno_ft K o device ft_data).trace).dropLast, x.2 ≠ 0 := by
  have key : ladder_ok [ft_stage.replay, ft_stage.skipib, ft_stage.skipframe]
      (bad_resubmits (_adreno_ft K o device ft_data).trace) := by
    unfold _adreno_ft
    split
    · exact ladder_ok_nil _
    · split
      · exact ladder_ok_nil _
      · exact live_bad_resubmits K o device ft_data _ _
  exact key

/-! ### Bit masks and the context table -/

theorem or_and_self_mask (a H : Nat) : (a ||| H) &&& H = H := by
  apply Nat.eq_of_testBit_eq; intro i
  simp only [Nat.testBit_and, Nat.testBit_or]
  cases a.testBit i <;> cases H.testBit i <;> rfl

theorem or_and_keep (f S H : Nat) (h : f &&& H = H) : (f ||| S) &&& H = H := by
  apply Nat.eq_of_testBit_eq; intro i
  have := congrArg (fun x => x.testBit i) h
  simp only [Nat.testBit_and, Nat.testBit_or] at this ⊢
  revert this
  cases f.testBit i <;> cases H.testBit i <;> cases S.testBit i <;> simp

theorem or_and_disjoint (f S T : Nat) (h : S &&& T = 0) : (f ||| S) &&& T = f &&& T := by
  rw [Nat.and_distrib_right, h, Nat.or_zero]

theorem and_ne_zero_or (a h n : Nat) (hn : a &&& n ≠ 0) : (a ||| h) &&& n ≠ 0 := by
  intro h0
  apply hn
  apply Nat.eq_of_testBit_eq; intro i
  have := congrArg (fun x => x.testBit i) h0
  simp only [Nat.testBit_and, Nat.testBit_or, Nat.zero_testBit] at this ⊢
  revert this
  cases a.testBit i <;> cases h.testBit i <;> cases n.testBit i <;> simp

theorem idr_find_update (l : List kgsl_context) (id : Nat) (g : kgsl_context → kgsl_context)
    (hg : ∀ c, (g c).id = c.id) :
    idr_find (idr_update l id g) id = (idr_find l id).map g := by
  induction l with
  | nil => rfl
  | cons c cs ih =>
    unfold idr_update
    by_cases h : c.id = id
    · simp [idr_find, h, hg]
    · have ih2 : List.find? (fun c => c.id == id) (idr_update cs id g) =
          Option.map g (List.find? (fun c => c.id == id) cs) := ih
      simp [idr_find, h, ih2]

theorem idr_find_id (l : List kgsl_context) (id : Nat) (c : kgsl_context)
    (h : idr_find l id = some c) : c.id = id := by
  have := List.find?_some h
  simpa using this

theorem kgsl_context_get_find (device : kgsl_device) (id : Nat) (c : kgsl_context)
    (h : kgsl_context_get device id = some c) :
    idr_find device.context_idr id = some c ∧ c.id = id := by
  unfold kgsl_context_get at h
  split at h
  · next c2 hc2 =>
    split at h
    · simp at h
    · simp only [Option.some.injEq] at h
      subst h
      exact ⟨hc2, idr_find_id _ _ _ hc2⟩
  · simp at h

theorem ctx_flags_set_flags (device : kgsl_device) (id : Nat) (f : Nat → Nat) :
    ctx_flags (ctx_set_flags device id f) id = (ctx_flags device id).map f := by
  unfold ctx_flags ctx_set_flags
  simp only []
  rw [idr_find_update]
  · cases idr_find device.context_idr id with
    | none => rfl
    | some c => cases hc : c.devctxt <;> simp [hc]
  · intro c; rfl

theorem ctx_flags_mark_hung (K : ft_consts) (device : kgsl_device) (c : kgsl_context) :
    ctx_flags (ft_mark_hung K device c) c.id =
      (ctx_flags device c.id).map (fun f => f ||| K.CTXT_FLAGS_GPU_HANG) := by
  unfold ctx_flags ft_mark_hung
  simp only []
  rw [idr_find_update]
  · cases idr_find device.context_idr c.id with
    | none => rfl
    | some c2 => cases hc : c2.devctxt <;> simp [hc]
  · intro c; rfl

theorem ctx_flags_congr (d1 d2 : kgsl_device) (id : Nat)
    (h : d1.context_idr = d2.context_idr) : ctx_flags d1 id = ctx_flags d2 id := by
  unfold ctx_flags
  rw [h]

theorem ctx_flags_of_get (device : kgsl_device) (id : Nat) (c : kgsl_context)
    (a : adreno_context) (h : kgsl_context_get device id = some c) (ha : c.devctxt = some a) :
    ctx_flags device c.id = some a.flags := by
  obtain ⟨h1, h2⟩ := kgsl_context_get_find device id c h
  unfold ctx_flags
  rw [h2, h1]
  simp [ha]

/-! ### The SKIP_IB and SKIP_FRAME patches -/

theorem skipib_loop_none (K : ft_consts) (ib1 : Nat) (buf : Nat → Nat) :
    ∀ (n i : Nat),
      (∀ j, i ≤ j → j < i + n → ¬ (buf j = K.CP_HDR_INDIRECT_BUFFER_PFD ∧ buf (j + 1) = ib1)) →
      skipib_loop K ib1 n i buf = (i + n, buf) := by
  intro n
  induction n with
  | zero => intro i _; rfl
  | succ n ih =>
    intro i h
    unfold skipib_loop
    rw [if_neg (h i (Nat.le_refl _) (by omega))]
    rw [ih (i + 1) (fun j h1 h2 => h j (by omega) (by omega))]
    congr 1
    omega

theorem skipib_loop_first (K : ft_consts) (ib1 : Nat) (buf : Nat → Nat) (i0 : Nat)
    (hm : buf i0 = K.CP_HDR_INDIRECT_BUFFER_PFD ∧ buf (i0 + 1) = ib1) :
    ∀ (n i : Nat), i ≤ i0 → i0 < i + n →
      (∀ j, i ≤ j → j < i0 → ¬ (buf j = K.CP_HDR_INDIRECT_BUFFER_PFD ∧ buf (j + 1) = ib1)) →
      skipib_loop K ib1 n i buf =
        (i0, Function.update
              (Function.update (Function.update buf i0 (K.cp_nop_packet 2))
                (i0 + 1) K.KGSL_NOP_IB_IDENTIFIER)
              (i0 + 2) K.KGSL_NOP_IB_IDENTIFIER) := by
  intro n
  induction n with
  | zero => intro i h1 h2; omega
  | succ n ih =>
    intro i h1 h2 h3
    unfold skipib_loop
    by_cases hi : i = i0
    · subst hi
      rw [if_pos hm]
    · rw [if_neg (h3 i (Nat.le_refl _) (by omega))]
      exact ih (i + 1) (by omega) (by omega) (fun j h4 h5 => h3 j (by omega) h5)

theorem skipframe_loop_none (K : ft_consts) (buf : Nat → Nat) :
    ∀ (n i : Nat), (∀ j, i ≤ j → j < i + n → buf j ≠ K.KGSL_END_OF_FRAME_IDENTIFIER) →
      skipframe_loop K n i buf = (i + n, buf) := by
  intro n
  induction n with
  | zero => intro i _; rfl
  | succ n ih =>
    intro i h
    unfold skipframe_loop
    rw [if_neg (h i (Nat.le_refl _) (by omega))]
    rw [ih (i + 1) (fun j h1 h2 => h j (by omega) (by omega))]
    congr 1
    omega

theorem skipframe_trace_ext (K : ft_consts) (o : ft_oracle) (rb : rb_ptr)
    (context : kgsl_context) (last : Option Nat) (s : ft_state) :
    ∃ t, (_adreno_ft_skipframe K o rb context last s).trace = s.trace ++ t := by
  unfold _adreno_ft_skipframe
  split
  · simp only []
    split
    · obtain ⟨d, hd⟩ := play_good_trace K o rb context last
        { device := (_adreno_ft_resubmit_rb o ft_stage.skipframe
              (_adreno_ft_skipframe_patch K context s).device rb (some context)
              (_adreno_ft_skipframe_patch K context s).ft_data.bad_rb_buffer
              (_adreno_ft_skipframe_patch K context s).ft_data.bad_rb_size).2.1,
          ft_data := { (_adreno_ft_skipframe_patch K context s).ft_data with status := 1 },
          trace := (_adreno_ft_skipframe_patch K context s).trace ++
            (_adreno_ft_resubmit_rb o ft_stage.skipframe
              (_adreno_ft_skipframe_patch K context s).device rb (some context)
              (_adreno_ft_skipframe_patch K context s).ft_data.bad_rb_buffer
              (_adreno_ft_skipframe_patch K context s).ft_data.bad_rb_size).2.2 }
      rw [hd, skipframe_patch_trace]
      exact ⟨_, by rw [List.append_assoc]⟩
    · obtain ⟨d, hd⟩ := play_good_trace K o rb context last
        { device := (_adreno_ft_resubmit_rb o ft_stage.skipframe
              (_adreno_ft_skipframe_patch K context s).device rb (some context)
              (_adreno_ft_skipframe_patch K context s).ft_data.bad_rb_buffer
              (_adreno_ft_skipframe_patch K context s).ft_data.bad_rb_size).2.1,
          ft_data := { (_adreno_ft_skipframe_patch K context s).ft_data with status := 0 },
          trace := (_adreno_ft_skipframe_patch K context s).trace ++
            (_adreno_ft_resubmit_rb o ft_stage.skipframe
              (_adreno_ft_skipframe_patch K context s).device rb (some context)
              (_adreno_ft_skipframe_patch K context s).ft_data.bad_rb_buffer
              (_adreno_ft_skipframe_patch K context s).ft_data.bad_rb_size).2.2 }
      rw [hd, skipframe_patch_trace]
      exact ⟨_, by rw [List.append_assoc]⟩
  · obtain ⟨d, hd⟩ := play_good_trace K o rb context last s
    exact ⟨_, hd⟩

theorem skipib_trace_found (K : ft_consts) (o : ft_oracle) (rb : rb_ptr)
    (context : kgsl_context) (last : Option Nat) (s : ft_state)
    (hpol : s.ft_data.ft_policy &&& K.KGSL_FT_SKIPIB ≠ 0)
    (hfound : ¬ ((skipib_loop K s.ft_data.ib1 s.ft_data.bad_rb_size 0
        s.ft_data.bad_rb_buffer).1 = s.ft_data.bad_rb_size ∨ s.ft_data.ib1 = 0)) :
    ∃ t, (_adreno_ft_skipib K o rb context last s).trace =
      s.trace ++ (_adreno_ft_resubmit_rb o ft_stage.skipib s.device rb (some context)
        (skipib_loop K s.ft_data.ib1 s.ft_data.bad_rb_size 0 s.ft_data.bad_rb_buffer).2
        s.ft_data.bad_rb_size).2.2 ++ t := by
  unfold _adreno_ft_skipib
  rw [if_pos hpol]
  simp only []
  rw [if_neg hfound]
  split
  · exact skipframe_trace_ext K o rb context last _
  · obtain ⟨d, hd⟩ := play_good_trace K o rb context last
      { device := (_adreno_ft_resubmit_rb o ft_stage.skipib s.device rb (some context)
          (skipib_loop K s.ft_data.ib1 s.ft_data.bad_rb_size 0 s.ft_data.bad_rb_buffer).2
          s.ft_data.bad_rb_size).2.1,
        ft_data := { s.ft_data with
          bad_rb_buffer :=
            (skipib_loop K s.ft_data.ib1 s.ft_data.bad_rb_size 0 s.ft_data.bad_rb_buffer).2,
          status := 0 },
        trace := s.trace ++ (_adreno_ft_resubmit_rb o ft_stage.skipib s.device rb
          (some context)
          (skipib_loop K s.ft_data.ib1 s.ft_data.bad_rb_size 0 s.ft_data.bad_rb_buffer).2
          s.ft_data.bad_rb_size).2.2 }
    exact ⟨_, hd⟩

/-- C4: the SKIP_IB patch of `_adreno_ft`. When the SKIP_IB block is reached
with SKIP_IB enabled and the bad segment holds exactly one index `i` with
`bad_rb_buffer[i] == CP_HDR_INDIRECT_BUFFER_PFD` and
`bad_rb_buffer[i+1] == ib1` (`ib1` non-zero, `i + 2 < bad_rb_size`), the loop
stops at `i`, the patched buffer has `cp_nop_packet(2)`,
`KGSL_NOP_IB_IDENTIFIER`, `KGSL_NOP_IB_IDENTIFIER` at `i`, `i+1`, `i+2`, every
other word is unchanged, and this patched buffer is the one resubmitted. -/
theorem C4_skipib_patch (K : ft_consts) (o : ft_oracle) (rb : rb_ptr)
    (context : kgsl_context) (last : Option Nat) (s : ft_state) (i : Nat)
    (hpol : s.ft_data.ft_policy &&& K.KGSL_FT_SKIPIB ≠ 0)
    (hib : s.ft_data.ib1 ≠ 0) (hi : i + 2 < s.ft_data.bad_rb_size)
    (h1 : s.ft_data.bad_rb_buffer i = K.CP_HDR_INDIRECT_BUFFER_PFD)
    (h2 : s.ft_data.bad_rb_buffer (i + 1) = s.ft_data.ib1)
    (huniq : ∀ j, j < s.ft_data.bad_rb_size →
      s.ft_data.bad_rb_buffer j = K.CP_HDR_INDIRECT_BUFFER_PFD →
      s.ft_data.bad_rb_buffer (j + 1) = s.ft_data.ib1 → j = i) :
    (skipib_loop K s.ft_data.ib1 s.ft_data.bad_rb_size 0 s.ft_data.bad_rb_buffer).1 = i ∧
    (skipib_loop K s.ft_data.ib1 s.ft_data.bad_rb_size 0 s.ft_data.bad_rb_buffer).2 i
      = K.cp_nop_packet 2 ∧
    (skipib_loop K s.ft_data.ib1 s.ft_data.bad_rb_size 0 s.ft_data.bad_rb_buffer).2 (i + 1)
      = K.KGSL_NOP_IB_IDENTIFIER ∧
    (skipib_loop K s.ft_data.ib1 s.ft_data.bad_rb_size 0 s.ft_data.bad_rb_buffer).2 (i + 2)
      = K.KGSL_NOP_IB_IDENTIFIER ∧
    (∀ j, j ≠ i → j ≠ i + 1 → j ≠ i + 2 →
      (skipib_loop K s.ft_data.ib1 s.ft_data.bad_rb_size 0 s.ft_data.bad_rb_buffer).2 j
        = s.ft_data.bad_rb_buffer j) ∧
    ft_event.resubmit ft_stage.skipib rb
        (skipib_loop K s.ft_data.ib1 s.ft_data.bad_rb_size 0 s.ft_data.bad_rb_buffer).2
        s.ft_data.bad_rb_size
        (resubmit_ret o ft_stage.skipib (some context) s.ft_data.bad_rb_size) ∈
      (_adreno_ft_skipib K o rb context last s).trace := by
  have hloop := skipib_loop_first K s.ft_data.ib1 s.ft_data.bad_rb_buffer i ⟨h1, h2⟩
    s.ft_data.bad_rb_size 0 (Nat.zero_le _) (by omega)
    (fun j _ hj hm => by
      have := huniq j (by omega) hm.1 hm.2
      omega)
  have hfound : ¬ ((skipib_loop K s.ft_data.ib1 s.ft_data.bad_rb_size 0
      s.ft_data.bad_rb_buffer).1 = s.ft_data.bad_rb_size ∨ s.ft_data.ib1 = 0) := by
    rw [hloop]
    simp only [not_or]
    exact ⟨by omega, hib⟩
  obtain ⟨t, ht⟩ := skipib_trace_found K o rb context last s hpol hfound
  refine ⟨by rw [hloop], ?_, ?_, ?_, ?_, ?_⟩
  · rw [hloop]; simp [Function.update]
  · rw [hloop]; simp [Function.update]
  · rw [hloop]; simp [Function.update]
  · intro j hj0 hj1 hj2
    rw [hloop]; simp [Function.update, hj0, hj1, hj2]
  · rw [ht]
    exact List.mem_append_left _ (List.mem_append_right _ (resubmit_rb_mem _ _ _ _ _ _ _))

theorem skipframe_patch_no_eof (K : ft_consts) (context : kgsl_context) (s : ft_state)
    (hno : ∀ j, j < s.ft_data.bad_rb_size →
      s.ft_data.bad_rb_buffer j ≠ K.KGSL_END_OF_FRAME_IDENTIFIER) :
    _adreno_ft_skipframe_patch K context s =
      { s with
        device := ctx_set_flags s.device context.id
          (fun flags => flags ||| K.CTXT_FLAGS_SKIP_EOF)
        ft_data := { s.ft_data with
          bad_rb_buffer := Function.update s.ft_data.bad_rb_buffer 0
            (K.cp_nop_packet s.ft_data.bad_rb_size) } } := by
  have hloop := skipframe_loop_none K s.ft_data.bad_rb_buffer s.ft_data.bad_rb_size 0
    (fun j _ hj => hno j (by omega))
  unfold _adreno_ft_skipframe_patch
  simp only [hloop, Nat.zero_add, if_true]

theorem skipframe_trace_enabled (K : ft_consts) (o : ft_oracle) (rb : rb_ptr)
    (context : kgsl_context) (last : Option Nat) (s : ft_state)
    (hpol : s.ft_data.ft_policy &&& K.KGSL_FT_SKIPFRAME ≠ 0) :
    (∃ t, (_adreno_ft_skipframe K o rb context last s).trace =
      s.trace ++ (_adreno_ft_resubmit_rb o ft_stage.skipframe
        (_adreno_ft_skipframe_patch K context s).device rb (some context)
        (_adreno_ft_skipframe_patch K context s).ft_data.bad_rb_buffer
        (_adreno_ft_skipframe_patch K context s).ft_data.bad_rb_size).2.2 ++ t) ∧
    (_adreno_ft_skipframe K o rb context last s).ft_data.bad_rb_buffer =
      (_adreno_ft_skipframe_patch K context s).ft_data.bad_rb_buffer := by
  unfold _adreno_ft_skipframe
  rw [if_pos hpol]
  simp only []
  split
  · refine ⟨?_, by rw [play_good_ft_data]⟩
    obtain ⟨d, hd⟩ := play_good_trace K o rb context last
      { device := (_adreno_ft_resubmit_rb o ft_stage.skipframe
            (_adreno_ft_skipframe_patch K context s).device rb (some context)
            (_adreno_ft_skipframe_patch K context s).ft_data.bad_rb_buffer
            (_adreno_ft_skipframe_patch K context s).ft_data.bad_rb_size).2.1,
        ft_data := { (_adreno_ft_skipframe_patch K context s).ft_data with status := 1 },
        trace := (_adreno_ft_skipframe_patch K context s).trace ++
          (_adreno_ft_resubmit_rb o ft_stage.skipframe
            (_adreno_ft_skipframe_patch K context s).device rb (some context)
            (_adreno_ft_skipframe_patch K context s).ft_data.bad_rb_buffer
            (_adreno_ft_skipframe_patch K context s).ft_data.bad_rb_size).2.2 }
    rw [hd, skipframe_patch_trace]
    exact ⟨_, rfl⟩
  · refine ⟨?_, by rw [play_good_ft_data]⟩
    obtain ⟨d, hd⟩ := play_good_trace K o rb context last
      { device := (_adreno_ft_resubmit_rb o ft_stage.skipframe
            (_adreno_ft_skipframe_patch K context s).device rb (some context)
            (_adreno_ft_skipframe_patch K context s).ft_data.bad_rb_buffer
            (_adreno_ft_skipframe_patch K context s).ft_data.bad_rb_size).2.1,
        ft_data := { (_adreno_ft_skipframe_patch K context s).ft_data with status := 0 },
        trace := (_adreno_ft_skipframe_patch K context s).trace ++
          (_adreno_ft_resubmit_rb o ft_stage.skipframe
            (_adreno_ft_skipframe_patch K context s).device rb (some context)
            (_adreno_ft_skipframe_patch K context s).ft_data.bad_rb_buffer
            (_adreno_ft_skipframe_patch K context s).ft_data.bad_rb_size).2.2 }
    rw [hd, skipframe_patch_trace]
    exact ⟨_, rfl⟩

/-- C7: SKIP_FRAME with no end-of-frame sentinel. Whenever `_adreno_ft`
reaches the SKIP_FRAME block with SKIP_FRAME enabled and no word of the bad
segment equals `KGSL_END_OF_FRAME_IDENTIFIER` (for every `bad_rb_size`,
0 included), the offending context (flags `f` before) gets
`CTXT_FLAGS_SKIP_EOF` set, word 0 of the bad segment becomes
`cp_nop_packet(bad_rb_size)`, no other word changes, the patched segment is
passed to `_adreno_ft_resubmit_rb`, and it is the bad segment the function
returns with. -/
theorem C7_skipframe_no_eof (K : ft_consts) (o : ft_oracle) (rb : rb_ptr)
    (context : kgsl_context) (last : Option Nat) (s : ft_state) (f : Nat)
    (hpol : s.ft_data.ft_policy &&& K.KGSL_FT_SKIPFRAME ≠ 0)
    (hno : ∀ j, j < s.ft_data.bad_rb_size →
      s.ft_data.bad_rb_buffer j ≠ K.KGSL_END_OF_FRAME_IDENTIFIER)
    (hctx : ctx_flags s.device context.id = some f) :
    ctx_flags (_adreno_ft_skipframe_patch K context s).device context.id
      = some (f ||| K.CTXT_FLAGS_SKIP_EOF) ∧
    (_adreno_ft_skipframe_patch K context s).ft_data.bad_rb_buffer 0
      = K.cp_nop_packet s.ft_data.bad_rb_size ∧
    (∀ j, j ≠ 0 → (_adreno_ft_skipframe_patch K context s).ft_data.bad_rb_buffer j
      = s.ft_data.bad_rb_buffer j) ∧
    ft_event.resubmit ft_stage.skipframe rb
        (_adreno_ft_skipframe_patch K context s).ft_data.bad_rb_buffer
        s.ft_data.bad_rb_size
        (resubmit_ret o ft_stage.skipframe (some context) s.ft_data.bad_rb_size) ∈
      (_adreno_ft_skipframe K o rb context last s).trace ∧
    (_adreno_ft_skipframe K o rb context last s).ft_data.bad_rb_buffer =
      (_adreno_ft_skipframe_patch K context s).ft_data.bad_rb_buffer := by
  have hp := skipframe_patch_no_eof K context s hno
  obtain ⟨⟨t, ht⟩, hbuf⟩ := skipframe_trace_enabled K o rb context last s hpol
  refine ⟨?_, ?_, ?_, ?_, hbuf⟩
  · rw [hp]
    simp only []
    rw [ctx_flags_set_flags, hctx]
    rfl
  · rw [hp]; simp [Function.update]
  · intro j hj
    rw [hp]; simp [Function.update, hj]
  · rw [ht]
    have hsz : (_adreno_ft_skipframe_patch K context s).ft_data.bad_rb_size
        = s.ft_data.bad_rb_size := by rw [hp]
    have := resubmit_rb_mem o ft_stage.skipframe (_adreno_ft_skipframe_patch K context s).device
      rb (some context) (_adreno_ft_skipframe_patch K context s).ft_data.bad_rb_buffer
      (_adreno_ft_skipframe_patch K context s).ft_data.bad_rb_size
    rw [hsz] at this
    rw [hsz]
    exact List.mem_append_left _ (List.mem_append_right _ this)

/-- C9 (as amended): when the SKIP_IB block of `_adreno_ft` is reached with
SKIP_IB enabled and the faulting IB call is not found in the bad segment or
`ib1` is 0, the status is set to failed and the function goes straight to the
good-segment replay: the only resubmission that follows is the one of the
good segment, whether or not SKIP_FRAME is enabled. -/
theorem C9_skipib_skipped (K : ft_consts) (o : ft_oracle) (rb : rb_ptr)
    (context : kgsl_context) (last : Option Nat) (s : ft_state)
    (hpol : s.ft_data.ft_policy &&& K.KGSL_FT_SKIPIB ≠ 0)
    (hskip : (skipib_loop K s.ft_data.ib1 s.ft_data.bad_rb_size 0
        s.ft_data.bad_rb_buffer).1 = s.ft_data.bad_rb_size ∨ s.ft_data.ib1 = 0) :
    (_adreno_ft_skipib K o rb context last s).ft_data.status = 1 ∧
    resubmits (_adreno_ft_skipib K o rb context last s).trace =
      resubmits s.trace ++
        [(ft_stage.good,
          resubmit_ret o ft_stage.good (some context) s.ft_data.good_rb_size)] := by
  unfold _adreno_ft_skipib
  rw [if_pos hpol]
  simp only []
  rw [if_pos hskip]
  exact ⟨by rw [play_good_ft_data], by rw [play_good_resubmits]⟩

/-- C9, counterexample: context 1 is live and has not opted out, no long IB
and no MMU fault is pending, the policy enables SKIP_IB and SKIP_FRAME (and
not DISABLE), and `ib1` is 0, so SKIP_IB is skipped. The only resubmission of
the run is the good-segment replay: SKIP_FRAME is not attempted. -/
theorem C9_skipframe_not_attempted :
    ft_data_no_ib.ft_policy &&& msm_consts.KGSL_FT_SKIPIB ≠ 0 ∧
    ft_data_no_ib.ft_policy &&& msm_consts.KGSL_FT_SKIPFRAME ≠ 0 ∧
    ft_data_no_ib.ib1 = 0 ∧
    resubmits (_adreno_ft msm_consts oracle_all_ok dev_two_contexts ft_data_no_ib).trace
      = [(ft_stage.good, 0)] ∧
    (_adreno_ft msm_consts oracle_all_ok dev_two_contexts ft_data_no_ib).ft_data.status = 1 := by
  decide

/-- C9, witness: the SKIP_IB block entered with `ib1 = 0`. -/
theorem C9_skipib_skipped_witness :
    ladder_state_no_ib.ft_data.ft_policy &&& msm_consts.KGSL_FT_SKIPIB ≠ 0 ∧
    ((_adreno_ft_skipib msm_consts oracle_all_ok rb_ptr.null ctx_clean none
        ladder_state_no_ib).ft_data.status = 1 ∧
    resubmits (_adreno_ft_skipib msm_consts oracle_all_ok rb_ptr.null ctx_clean none
        ladder_state_no_ib).trace =
      resubmits ladder_state_no_ib.trace ++
        [(ft_stage.good, resubmit_ret oracle_all_ok ft_stage.good (some ctx_clean)
          ladder_state_no_ib.ft_data.good_rb_size)]) :=
  ⟨by decide, C9_skipib_skipped msm_consts oracle_all_ok rb_ptr.null ctx_clean none
    ladder_state_no_ib (by decide) (Or.inr rfl)⟩

/-- C4, witness: the bad segment of `ladder_state` calls the faulting IB at
word 0. -/
theorem C4_skipib_patch_witness :
    (ladder_state.ft_data.ft_policy &&& msm_consts.KGSL_FT_SKIPIB ≠ 0 ∧
      ladder_state.ft_data.ib1 ≠ 0 ∧ 0 + 2 < ladder_state.ft_data.bad_rb_size) ∧
    (skipib_loop msm_consts ladder_state.ft_data.ib1 ladder_state.ft_data.bad_rb_size 0
        ladder_state.ft_data.bad_rb_buffer).2 0 = msm_consts.cp_nop_packet 2 :=
  ⟨by decide, (C4_skipib_patch msm_consts oracle_all_ok rb_ptr.null ctx_clean none
    ladder_state 0 (by decide) (by decide) (by decide) (by decide) (by decide)
    (by decide)).2.1⟩

/-- C7, witness: the bad segment of `ladder_state` has no end-of-frame word. -/
theorem C7_skipframe_no_eof_witness :
    (ladder_state.ft_data.ft_policy &&& msm_consts.KGSL_FT_SKIPFRAME ≠ 0 ∧
      ctx_flags ladder_state.device ctx_clean.id = some 0) ∧
    ctx_flags (_adreno_ft_skipframe_patch msm_consts ctx_clean ladder_state).device ctx_clean.id
      = some (0 ||| msm_consts.CTXT_FLAGS_SKIP_EOF) :=
  ⟨by decide, (C7_skipframe_no_eof msm_consts oracle_all_ok rb_ptr.null ctx_clean none
    ladder_state 0 (by decide) (by decide) (by decide)).1⟩

/-! ### Rule 1 and the failure of every strategy -/

theorem adreno_ft_eq_live (K : ft_consts) (o : ft_oracle) (device : kgsl_device)
    (ft_data : adreno_ft_data) (c : kgsl_context) (a : adreno_context)
    (hget : kgsl_context_get device ft_data.context_id = some c) (hdev : c.devctxt = some a) :
    _adreno_ft K o device ft_data = _adreno_ft_live K o device ft_data c a := by
  unfold _adreno_ft
  rw [hget]
  simp only [hdev]

/-- C8: recovery rule 1 of `_adreno_ft`. If the offending context (live, with
a device context) has `CTXT_FLAGS_NO_FAULT_TOLERANCE`, or `device->mmu.fault`
is set, or the policy contains `KGSL_FT_DISABLE`, then whatever the other
policy bits are there is no resubmission of the bad segment, the bad segment
is not patched (it is the one of the snapshot when the context opted out,
else the one the extraction stored), and unless the episode is dismissed as a
long-IB false positive (then nothing is resubmitted) the only resubmission is
the single good-segment replay. -/
theorem C8_rule1_good_only (K : ft_consts) (o : ft_oracle) (device : kgsl_device)
    (ft_data : adreno_ft_data) (c : kgsl_context) (a : adreno_context)
    (hget : kgsl_context_get device ft_data.context_id = some c) (hdev : c.devctxt = some a)
    (hcase : a.flags &&& K.CTXT_FLAGS_NO_FAULT_TOLERANCE ≠ 0 ∨ device.mmu_fault ≠ 0 ∨
      ft_data.ft_policy &&& K.KGSL_FT_DISABLE ≠ 0) :
    bad_resubmits (_adreno_ft K o device ft_data).trace = [] ∧
    (_adreno_ft K o device ft_data).ft_data.bad_rb_buffer =
      (if (a.flags ||| K.CTXT_FLAGS_GPU_HANG) &&& K.CTXT_FLAGS_NO_FAULT_TOLERANCE ≠ 0
        then ft_data.bad_rb_buffer else o.extract.bad_rb_buffer) ∧
    (long_ib_dismissed K device a → resubmits (_adreno_ft K o device ft_data).trace = []) ∧
    (¬ long_ib_dismissed K device a →
      resubmits (_adreno_ft K o device ft_data).trace =
        [(ft_stage.good, resubmit_ret o ft_stage.good (some c)
          (if (a.flags ||| K.CTXT_FLAGS_GPU_HANG) &&& K.CTXT_FLAGS_NO_FAULT_TOLERANCE ≠ 0
            then ft_data.good_rb_size else o.extract.good_rb_size))]) := by
  rw [adreno_ft_eq_live K o device ft_data c a hget hdev]
  unfold _adreno_ft_live long_ib_dismissed
  simp only []
  by_cases hn : (a.flags ||| K.CTXT_FLAGS_GPU_HANG) &&& K.CTXT_FLAGS_NO_FAULT_TOLERANCE ≠ 0
  · rw [if_pos hn, if_pos hn, if_pos hn]
    refine ⟨by rw [play_good_bad_resubmits]; rfl, by rw [play_good_ft_data], ?_, ?_⟩
    · intro hd; exact absurd hd.1 hn
    · intro _; rw [play_good_resubmits]; rfl
  · have hn0 : a.flags &&& K.CTXT_FLAGS_NO_FAULT_TOLERANCE = 0 := by
      by_contra h
      exact hn (and_ne_zero_or _ _ _ h)
    have hcase2 : device.mmu_fault ≠ 0 ∨ ft_data.ft_policy &&& K.KGSL_FT_DISABLE ≠ 0 := by
      rcases hcase with h | h
      · exact absurd hn0 h
      · exact h
    rw [if_neg hn, if_neg hn, if_neg hn]
    have hl : (ft_mark_hung K device c).long_ib = device.long_ib := rfl
    have hm : (ft_mark_hung K device c).mmu_fault = device.mmu_fault := rfl
    have hp : (ft_apply_extract ft_data o.extract).ft_policy = ft_data.ft_policy := rfl
    simp only [hl, hm, hp]
    by_cases hlong : device.long_ib ≠ 0
    · rw [if_pos hlong]
      unfold _adreno_check_long_ib
      simp only []
      have hms : (ft_mark_hung K device c).memstore = device.memstore := rfl
      have hts : (ft_mark_hung K device c).long_ib_ts = device.long_ib_ts := rfl
      simp only [hms, hts]
      by_cases hts2 : device.memstore K.KGSL_MEMSTORE_GLOBAL memstore_field.eoptimestamp
          = device.long_ib_ts
      · simp only [hts2, if_true]
        refine ⟨by rw [if_pos (by decide), play_good_bad_resubmits]; rfl,
          by rw [if_pos (by decide), play_good_ft_data]; rfl, ?_, ?_⟩
        · intro hd; exact absurd rfl hd.2.2
        · intro _; rw [if_pos (by decide), play_good_resubmits]; rfl
      · simp only [hts2, if_false]
        refine ⟨by rw [if_neg (by decide)]; rfl, by rw [if_neg (by decide)]; rfl, ?_, ?_⟩
        · intro _; rw [if_neg (by decide)]; rfl
        · intro hd
          exact absurd ⟨not_not.mp hn, hlong, hts2⟩ hd
    · rw [if_neg hlong]
      have hnd : ¬ ((a.flags ||| K.CTXT_FLAGS_GPU_HANG) &&& K.CTXT_FLAGS_NO_FAULT_TOLERANCE = 0 ∧
          device.long_ib ≠ 0 ∧
          device.memstore K.KGSL_MEMSTORE_GLOBAL memstore_field.eoptimestamp
            ≠ device.long_ib_ts) := fun hd => hlong hd.2.1
      by_cases hmmu : device.mmu_fault ≠ 0
      · rw [if_pos hmmu]
        refine ⟨by rw [play_good_bad_resubmits]; rfl, by rw [play_good_ft_data]; rfl, ?_, ?_⟩
        · intro hd; exact absurd hd hnd
        · intro _; rw [play_good_resubmits]; rfl
      · have hdis : ft_data.ft_policy &&& K.KGSL_FT_DISABLE ≠ 0 := by
          rcases hcase2 with h | h
          · exact absurd h hmmu
          · exact h
        rw [if_neg hmmu, if_pos hdis]
        refine ⟨by rw [play_good_bad_resubmits]; rfl, by rw [play_good_ft_data]; rfl, ?_, ?_⟩
        · intro hd; exact absurd hd hnd
        · intro _; rw [play_good_resubmits]; rfl

theorem play_good_context_idr_failed (K : ft_consts) (o : ft_oracle) (rb : rb_ptr)
    (context : kgsl_context) (last : Option Nat) (s : ft_state)
    (hst : s.ft_data.status ≠ 0) :
    (_adreno_ft_play_good_cmds K o rb context last s).device.context_idr =
      s.device.context_idr := by
  unfold _adreno_ft_play_good_cmds
  simp only [hst, ne_eq, not_false_eq_true, if_true, resubmit_rb_device]
  split
  · rfl
  · split
    · split <;> rfl
    · rfl

theorem play_good_failed (K : ft_consts) (o : ft_oracle) (rb : rb_ptr)
    (context : kgsl_context) (last : Option Nat) (s : ft_state) (v : Nat)
    (hst : s.ft_data.status = 1) (hP : hung_with_ft_bits K v s.device context.id) :
    (_adreno_ft_play_good_cmds K o rb context last s).ft_data.status = 1 ∧
    hung_with_ft_bits K v (_adreno_ft_play_good_cmds K o rb context last s).device context.id ∧
    ∃ l g, resubmits (_adreno_ft_play_good_cmds K o rb context last s).trace =
      l ++ [(ft_stage.good, g)] := by
  refine ⟨by rw [play_good_ft_data, hst], ?_, ⟨_, _, play_good_resubmits K o rb context last s⟩⟩
  unfold hung_with_ft_bits
  rw [ctx_flags_congr _ s.device _
    (play_good_context_idr_failed K o rb context last s (by rw [hst]; decide))]
  exact hP

theorem resubmit_rb_flags (o : ft_oracle) (stage : ft_stage) (device : kgsl_device)
    (rb : rb_ptr) (context : Option kgsl_context) (buff : Nat → Nat) (size : Nat) (id : Nat) :
    ctx_flags (_adreno_ft_resubmit_rb o stage device rb context buff size).2.1 id =
      ctx_flags device id := by
  rw [resubmit_rb_device]
  exact ctx_flags_congr _ _ _ rfl

theorem skipframe_patch_hung (K : ft_consts) (context : kgsl_context) (s : ft_state) (v : Nat)
    (hK : K.CTXT_FLAGS_SKIP_EOF &&& K.CTXT_FLAGS_GPU_HANG_FT = 0)
    (hP : hung_with_ft_bits K v s.device context.id) :
    hung_with_ft_bits K v (_adreno_ft_skipframe_patch K context s).device context.id := by
  unfold _adreno_ft_skipframe_patch
  simp only []
  split
  · obtain ⟨f, hf, h1, h2⟩ := hP
    refine ⟨f ||| K.CTXT_FLAGS_SKIP_EOF, ?_, or_and_keep _ _ _ h1, ?_⟩
    · simp only []
      rw [ctx_flags_set_flags, hf]
      rfl
    · rw [or_and_disjoint _ _ _ hK, h2]
  · exact hP

theorem skipframe_failed (K : ft_consts) (o : ft_oracle) (rb : rb_ptr)
    (context : kgsl_context) (last : Option Nat) (s : ft_state) (v : Nat)
    (hK : K.CTXT_FLAGS_SKIP_EOF &&& K.CTXT_FLAGS_GPU_HANG_FT = 0)
    (h : s.ft_data.status = 1 ∨ s.ft_data.ft_policy &&& K.KGSL_FT_SKIPFRAME ≠ 0)
    (hfail : ∀ x ∈ resubmits (_adreno_ft_skipframe K o rb context last s).trace,
      x.1 ≠ ft_stage.good → x.2 ≠ 0)
    (hP : hung_with_ft_bits K v s.device context.id) :
    (_adreno_ft_skipframe K o rb context last s).ft_data.status = 1 ∧
    hung_with_ft_bits K v (_adreno_ft_skipframe K o rb context last s).device context.id ∧
    ∃ l g, resubmits (_adreno_ft_skipframe K o rb context last s).trace =
      l ++ [(ft_stage.good, g)] := by
  by_cases hpol : s.ft_data.ft_policy &&& K.KGSL_FT_SKIPFRAME ≠ 0
  · have hne : (_adreno_ft_resubmit_rb o ft_stage.skipframe
          (_adreno_ft_skipframe_patch K context s).device rb (some context)
          (_adreno_ft_skipframe_patch K context s).ft_data.bad_rb_buffer
          (_adreno_ft_skipframe_patch K context s).ft_data.bad_rb_size).1 ≠ 0 := by
      obtain ⟨⟨t, ht⟩, _⟩ := skipframe_trace_enabled K o rb context last s hpol
      rw [resubmit_rb_ret]
      refine hfail (ft_stage.skipframe, _) ?_ (by intro h; cases h)
      rw [ht, resubmits_append, resubmits_append, resubmit_rb_resubmits]
      exact List.mem_append_left _ (List.mem_append_right _ (List.mem_singleton.mpr rfl))
    unfold _adreno_ft_skipframe
    rw [if_pos hpol]
    simp only []
    rw [if_pos hne]
    apply play_good_failed _ _ _ _ _ _ v rfl
    unfold hung_with_ft_bits
    simp only []
    rw [resubmit_rb_flags]
    exact skipframe_patch_hung K context s v hK hP
  · have hst : s.ft_data.status = 1 := by
      rcases h with h | h
      · exact h
      · exact absurd h hpol
    unfold _adreno_ft_skipframe
    rw [if_neg hpol]
    exact play_good_failed _ _ _ _ _ _ v hst hP

theorem skipib_failed (K : ft_consts) (o : ft_oracle) (rb : rb_ptr)
    (context : kgsl_context) (last : Option Nat) (s : ft_state) (v : Nat)
    (hK : K.CTXT_FLAGS_SKIP_EOF &&& K.CTXT_FLAGS_GPU_HANG_FT = 0)
    (h : s.ft_data.status = 1 ∨ s.ft_data.ft_policy &&& K.KGSL_FT_SKIPIB ≠ 0 ∨
      s.ft_data.ft_policy &&& K.KGSL_FT_SKIPFRAME ≠ 0)
    (hfail : ∀ x ∈ resubmits (_adreno_ft_skipib K o rb context last s).trace,
      x.1 ≠ ft_stage.good → x.2 ≠ 0)
    (hP : hung_with_ft_bits K v s.device context.id) :
    (_adreno_ft_skipib K o rb context last s).ft_data.status = 1 ∧
    hung_with_ft_bits K v (_adreno_ft_skipib K o rb context last s).device context.id ∧
    ∃ l g, resubmits (_adreno_ft_skipib K o rb context last s).trace =
      l ++ [(ft_stage.good, g)] := by
  by_cases hpol : s.ft_data.ft_policy &&& K.KGSL_FT_SKIPIB ≠ 0
  · by_cases hskip : (skipib_loop K s.ft_data.ib1 s.ft_data.bad_rb_size 0
        s.ft_data.bad_rb_buffer).1 = s.ft_data.bad_rb_size ∨ s.ft_data.ib1 = 0
    · unfold _adreno_ft_skipib
      rw [if_pos hpol]
      simp only []
      rw [if_pos hskip]
      exact play_good_failed _ _ _ _ _ _ v rfl hP
    · have hne : (_adreno_ft_resubmit_rb o ft_stage.skipib s.device rb (some context)
          (skipib_loop K s.ft_data.ib1 s.ft_data.bad_rb_size 0 s.ft_data.bad_rb_buffer).2
          s.ft_data.bad_rb_size).1 ≠ 0 := by
        obtain ⟨t, ht⟩ := skipib_trace_found K o rb context last s hpol hskip
        rw [resubmit_rb_ret]
        refine hfail (ft_stage.skipib, _) ?_ (by intro h; cases h)
        rw [ht, resubmits_append, resubmits_append, resubmit_rb_resubmits]
        exact List.mem_append_left _ (List.mem_append_right _ (List.mem_singleton.mpr rfl))
      unfold _adreno_ft_skipib at hfail ⊢
      rw [if_pos hpol] at hfail ⊢
      simp only [] at hfail ⊢
      rw [if_neg hskip] at hfail ⊢
      rw [if_pos hne] at hfail ⊢
      apply skipframe_failed _ _ _ _ _ _ v hK (Or.inl rfl) hfail
      unfold hung_with_ft_bits
      simp only []
      rw [resubmit_rb_flags]
      exact hP
  · have h2 : s.ft_data.status = 1 ∨ s.ft_data.ft_policy &&& K.KGSL_FT_SKIPFRAME ≠ 0 := by
      rcases h with h | h | h
      · exact Or.inl h
      · exact absurd h hpol
      · exact Or.inr h
    unfold _adreno_ft_skipib at hfail ⊢
    rw [if_neg hpol] at hfail ⊢
    exact skipframe_failed _ _ _ _ _ _ v hK h2 hfail hP

theorem skipib_trace_ext (K : ft_consts) (o : ft_oracle) (rb : rb_ptr)
    (context : kgsl_context) (last : Option Nat) (s : ft_state) :
    ∃ t, (_adreno_ft_skipib K o rb context last s).trace = s.trace ++ t := by
  by_cases hpol : s.ft_data.ft_policy &&& K.KGSL_FT_SKIPIB ≠ 0
  · by_cases hskip : (skipib_loop K s.ft_data.ib1 s.ft_data.bad_rb_size 0
        s.ft_data.bad_rb_buffer).1 = s.ft_data.bad_rb_size ∨ s.ft_data.ib1 = 0
    · unfold _adreno_ft_skipib
      rw [if_pos hpol]
      simp only []
      rw [if_pos hskip]
      obtain ⟨d, hd⟩ := play_good_trace K o rb context last
        { s with ft_data := { s.ft_data with
            bad_rb_buffer :=
              (skipib_loop K s.ft_data.ib1 s.ft_data.bad_rb_size 0 s.ft_data.bad_rb_buffer).2,
            status := 1 } }
      exact ⟨_, hd⟩
    · obtain ⟨t, ht⟩ := skipib_trace_found K o rb context last s hpol hskip
      exact ⟨_, by rw [ht, List.append_assoc]⟩
  · unfold _adreno_ft_skipib
    rw [if_neg hpol]
    exact skipframe_trace_ext K o rb context last s

theorem replay_failed (K : ft_consts) (o : ft_oracle) (rb : rb_ptr)
    (context : kgsl_context) (last : Option Nat) (s : ft_state) (v : Nat)
    (hK : K.CTXT_FLAGS_SKIP_EOF &&& K.CTXT_FLAGS_GPU_HANG_FT = 0)
    (h : s.ft_data.ft_policy &&& K.KGSL_FT_REPLAY ≠ 0 ∨
      s.ft_data.ft_policy &&& K.KGSL_FT_SKIPIB ≠ 0 ∨
      s.ft_data.ft_policy &&& K.KGSL_FT_SKIPFRAME ≠ 0)
    (hfail : ∀ x ∈ resubmits (_adreno_ft_replay K o rb context last s).trace,
      x.1 ≠ ft_stage.good → x.2 ≠ 0)
    (hP : hung_with_ft_bits K v s.device context.id) :
    (_adreno_ft_replay K o rb context last s).ft_data.status = 1 ∧
    hung_with_ft_bits K v (_adreno_ft_replay K o rb context last s).device context.id ∧
    ∃ l g, resubmits (_adreno_ft_replay K o rb context last s).trace =
      l ++ [(ft_stage.good, g)] := by
  by_cases hpol : s.ft_data.ft_policy &&& K.KGSL_FT_REPLAY ≠ 0
  · have hne : (_adreno_ft_resubmit_rb o ft_stage.replay s.device rb (some context)
        s.ft_data.bad_rb_buffer s.ft_data.bad_rb_size).1 ≠ 0 := by
      have hex : ∃ t, (_adreno_ft_replay K o rb context last s).trace =
          s.trace ++ (_adreno_ft_resubmit_rb o ft_stage.replay s.device rb (some context)
            s.ft_data.bad_rb_buffer s.ft_data.bad_rb_size).2.2 ++ t := by
        unfold _adreno_ft_replay
        rw [if_pos hpol]
        simp only []
        split
        · exact skipib_trace_ext K o rb context last _
        · obtain ⟨d, hd⟩ := play_good_trace K o rb context last
            { device := (_adreno_ft_resubmit_rb o ft_stage.replay s.device rb (some context)
                s.ft_data.bad_rb_buffer s.ft_data.bad_rb_size).2.1,
              ft_data := s.ft_data,
              trace := s.trace ++ (_adreno_ft_resubmit_rb o ft_stage.replay s.device rb
                (some context) s.ft_data.bad_rb_buffer s.ft_data.bad_rb_size).2.2 }
          exact ⟨_, hd⟩
      obtain ⟨t, ht⟩ := hex
      rw [resubmit_rb_ret]
      refine hfail (ft_stage.replay, _) ?_ (by intro h; cases h)
      rw [ht, resubmits_append, resubmits_append, resubmit_rb_resubmits]
      exact List.mem_append_left _ (List.mem_append_right _ (List.mem_singleton.mpr rfl))
    unfold _adreno_ft_replay at hfail ⊢
    rw [if_pos hpol] at hfail ⊢
    simp only [] at hfail ⊢
    rw [if_pos hne] at hfail ⊢
    apply skipib_failed _ _ _ _ _ _ v hK (Or.inl rfl) hfail
    unfold hung_with_ft_bits
    simp only []
    rw [resubmit_rb_flags]
    exact hP
  · have h2 : s.ft_data.status = 1 ∨ s.ft_data.ft_policy &&& K.KGSL_FT_SKIPIB ≠ 0 ∨
        s.ft_data.ft_policy &&& K.KGSL_FT_SKIPFRAME ≠ 0 := by
      rcases h with h | h
      · exact absurd h hpol
      · exact Or.inr h
    unfold _adreno_ft_replay at hfail ⊢
    rw [if_neg hpol] at hfail ⊢
    exact skipib_failed _ _ _ _ _ _ v hK h2 hfail hP

/-- C10: if the ladder of `_adreno_ft` is entered (live offending context
that has not opted out, no long IB, no MMU fault, no `KGSL_FT_DISABLE`) with
at least one strategy enabled, and every attempted resubmission of the bad
segment returns non-zero, then the snapshot's status ends as failed
(`ft_data->status == 1`), the offending context keeps `CTXT_FLAGS_GPU_HANG`
and its `CTXT_FLAGS_GPU_HANG_FT` bits are the ones it had before the call,
and the last resubmission of the run is the good-segment replay. -/
theorem C10_all_strategies_fail (K : ft_consts) (o : ft_oracle) (device : kgsl_device)
    (ft_data : adreno_ft_data) (c : kgsl_context) (a : adreno_context)
    (hK : flags_disjoint K)
    (hget : kgsl_context_get device ft_data.context_id = some c) (hdev : c.devctxt = some a)
    (hnoft : a.flags &&& K.CTXT_FLAGS_NO_FAULT_TOLERANCE = 0)
    (hlong : device.long_ib = 0) (hmmu : device.mmu_fault = 0)
    (hdis : ft_data.ft_policy &&& K.KGSL_FT_DISABLE = 0)
    (hen : ft_data.ft_policy &&& K.KGSL_FT_REPLAY ≠ 0 ∨
      ft_data.ft_policy &&& K.KGSL_FT_SKIPIB ≠ 0 ∨
      ft_data.ft_policy &&& K.KGSL_FT_SKIPFRAME ≠ 0)
    (hfail : ∀ x ∈ bad_resubmits (_adreno_ft K o device ft_data).trace, x.2 ≠ 0) :
    (_adreno_ft K o device ft_data).ft_data.status = 1 ∧
    (∃ f, ctx_flags (_adreno_ft K o device ft_data).device c.id = some f ∧
      f &&& K.CTXT_FLAGS_GPU_HANG = K.CTXT_FLAGS_GPU_HANG ∧
      f &&& K.CTXT_FLAGS_GPU_HANG_FT = a.flags &&& K.CTXT_FLAGS_GPU_HANG_FT) ∧
    ∃ l g, resubmits (_adreno_ft K o device ft_data).trace = l ++ [(ft_stage.good, g)] := by
  obtain ⟨hK1, hK2, hK3, _⟩ := hK
  have hfail2 : ∀ x ∈ resubmits (_adreno_ft K o device ft_data).trace,
      x.1 ≠ ft_stage.good → x.2 ≠ 0 := by
    intro x hx hg
    apply hfail x
    unfold bad_resubmits
    rw [List.mem_filter]
    exact ⟨hx, by simpa using hg⟩
  have hn : ¬ ((a.flags ||| K.CTXT_FLAGS_GPU_HANG) &&& K.CTXT_FLAGS_NO_FAULT_TOLERANCE ≠ 0) := by
    rw [or_and_disjoint _ _ _ hK1, hnoft]
    simp
  have hlive : _adreno_ft K o device ft_data =
      _adreno_ft_replay K o rb_ptr.null c none
        { device := ft_mark_hung K device c, ft_data := ft_apply_extract ft_data o.extract,
          trace := [ft_event.extract rb_ptr.null] } := by
    rw [adreno_ft_eq_live K o device ft_data c a hget hdev]
    unfold _adreno_ft_live
    simp only []
    rw [if_neg hn]
    have hl : (ft_mark_hung K device c).long_ib = device.long_ib := rfl
    have hm : (ft_mark_hung K device c).mmu_fault = device.mmu_fault := rfl
    have hp : (ft_apply_extract ft_data o.extract).ft_policy = ft_data.ft_policy := rfl
    simp only [hl, hm, hp, hlong, hmmu, hdis, ne_eq, not_true_eq_false, if_false]
  rw [hlive] at hfail2 ⊢
  apply replay_failed K o rb_ptr.null c none _ (a.flags &&& K.CTXT_FLAGS_GPU_HANG_FT) hK3 hen
    hfail2
  refine ⟨a.flags ||| K.CTXT_FLAGS_GPU_HANG, ?_, or_and_self_mask _ _, or_and_disjoint _ _ _ hK2⟩
  simp only []
  rw [ctx_flags_mark_hung, ctx_flags_of_get device ft_data.context_id c a hget hdev]
  rfl

/-- C8, witness: the policy of `ft_data_disable` holds `KGSL_FT_DISABLE`
together with REPLAY, SKIP_IB and SKIP_FRAME. -/
theorem C8_rule1_good_only_witness :
    (kgsl_context_get dev_two_contexts ft_data_disable.context_id = some ctx_clean ∧
      ft_data_disable.ft_policy &&& msm_consts.KGSL_FT_DISABLE ≠ 0) ∧
    bad_resubmits (_adreno_ft msm_consts oracle_all_ok dev_two_contexts ft_data_disable).trace
      = [] :=
  ⟨⟨rfl, by decide⟩, (C8_rule1_good_only msm_consts oracle_all_ok dev_two_contexts
    ft_data_disable ctx_clean { flags := 0, timestamp := 5 } rfl rfl
    (Or.inr (Or.inr (by decide)))).1⟩

/-- C10, witness: default policy, faulting IB present, every idle wait after a
resubmission of the bad segment times out. -/
theorem C10_all_strategies_fail_witness :
    (flags_disjoint msm_consts ∧
      kgsl_context_get dev_two_contexts ft_data_default.context_id = some ctx_clean ∧
      resubmits (_adreno_ft msm_consts oracle_bad_fails dev_two_contexts ft_data_default).trace
        = [(ft_stage.replay, -110), (ft_stage.skipib, -110), (ft_stage.skipframe, -110),
            (ft_stage.good, 0)]) ∧
    (_adreno_ft msm_consts oracle_bad_fails dev_two_contexts ft_data_default).ft_data.status
      = 1 :=
  ⟨⟨by unfold flags_disjoint; decide, rfl, by decide⟩,
    (C10_all_strategies_fail msm_consts oracle_bad_fails dev_two_contexts ft_data_default
      ctx_clean { flags := 0, timestamp := 5 } (by unfold flags_disjoint; decide) rfl rfl
      (by decide) (by decide) (by decide) (by decide) (by decide) (by decide)).1⟩

/-! ### Timestamp reconciliation at the end of `adreno_ft` -/

theorem idr_update_ids (l : List kgsl_context) (id : Nat) (g : kgsl_context → kgsl_context)
    (hg : ∀ c, (g c).id = c.id) :
    (idr_update l id g).map (fun c => c.id) = l.map (fun c => c.id) := by
  induction l with
  | nil => rfl
  | cons c cs ih =>
    unfold idr_update
    split
    · simp [hg]
    · simp [ih]

theorem ctx_set_flags_ids (device : kgsl_device) (id : Nat) (f : Nat → Nat) :
    context_ids (ctx_set_flags device id f) = context_ids device := by
  unfold context_ids ctx_set_flags
  exact idr_update_ids _ _ _ (fun _ => rfl)

theorem ft_mark_hung_ids (K : ft_consts) (device : kgsl_device) (c : kgsl_context) :
    context_ids (ft_mark_hung K device c) = context_ids device := by
  unfold context_ids ft_mark_hung
  exact idr_update_ids _ _ _ (fun _ => rfl)

theorem resubmit_rb_ids (o : ft_oracle) (stage : ft_stage) (device : kgsl_device)
    (rb : rb_ptr) (context : Option kgsl_context) (buff : Nat → Nat) (size : Nat) :
    context_ids (_adreno_ft_resubmit_rb o stage device rb context buff size).2.1 =
      context_ids device := by
  rw [resubmit_rb_device]
  rfl

theorem play_good_ids (K : ft_consts) (o : ft_oracle) (rb : rb_ptr)
    (context : kgsl_context) (last : Option Nat) (s : ft_state) :
    context_ids (_adreno_ft_play_good_cmds K o rb context last s).device =
      context_ids s.device := by
  have h1 : ∀ d : kgsl_device, context_ids
      (if s.ft_data.last_valid_ctx_id ≠ 0 then
        match kgsl_context_get d s.ft_data.last_valid_ctx_id with
        | some last_ctx =>
          { d with
            drawctxt_active := if last_ctx.devctxt.isSome then some last_ctx.id else none }
        | none => d
      else d) = context_ids d := by
    intro d
    split
    · split <;> rfl
    · rfl
  have h2 := ctx_set_flags_ids s.device context.id
    (fun flags => (flags &&& bnot32 K.CTXT_FLAGS_GPU_HANG) ||| K.CTXT_FLAGS_GPU_HANG_FT)
  unfold _adreno_ft_play_good_cmds
  simp only []
  split <;> split
  · exact resubmit_rb_ids _ _ _ _ _ _ _
  · exact Eq.trans (h1 _) (resubmit_rb_ids _ _ _ _ _ _ _)
  · exact Eq.trans (resubmit_rb_ids _ _ _ _ _ _ _) (Eq.trans rfl h2)
  · exact Eq.trans (h1 _) (Eq.trans (resubmit_rb_ids _ _ _ _ _ _ _) (Eq.trans rfl h2))

theorem skipframe_patch_ids (K : ft_consts) (context : kgsl_context) (s : ft_state) :
    context_ids (_adreno_ft_skipframe_patch K context s).device = context_ids s.device := by
  unfold _adreno_ft_skipframe_patch
  simp only []
  split
  · exact ctx_set_flags_ids _ _ _
  · rfl

theorem skipframe_ids (K : ft_consts) (o : ft_oracle) (rb : rb_ptr)
    (context : kgsl_context) (last : Option Nat) (s : ft_state) :
    context_ids (_adreno_ft_skipframe K o rb context last s).device = context_ids s.device := by
  unfold _adreno_ft_skipframe
  split
  · simp only []
    split <;> rw [play_good_ids] <;> simp only [] <;> rw [resubmit_rb_ids, skipframe_patch_ids]
  · exact play_good_ids _ _ _ _ _ _

theorem skipib_ids (K : ft_consts) (o : ft_oracle) (rb : rb_ptr)
    (context : kgsl_context) (last : Option Nat) (s : ft_state) :
    context_ids (_adreno_ft_skipib K o rb context last s).device = context_ids s.device := by
  unfold _adreno_ft_skipib
  split
  · simp only []
    split
    · rw [play_good_ids]
    · split
      · rw [skipframe_ids]; simp only []; rw [resubmit_rb_ids]
      · rw [play_good_ids]; simp only []; rw [resubmit_rb_ids]
  · exact skipframe_ids _ _ _ _ _ _

theorem replay_ids (K : ft_consts) (o : ft_oracle) (rb : rb_ptr)
    (context : kgsl_context) (last : Option Nat) (s : ft_state) :
    context_ids (_adreno_ft_replay K o rb context last s).device = context_ids s.device := by
  unfold _adreno_ft_replay
  split
  · simp only []
    split
    · rw [skipib_ids]; simp only []; rw [resubmit_rb_ids]
    · rw [play_good_ids]; simp only []; rw [resubmit_rb_ids]
  · exact skipib_ids _ _ _ _ _ _

theorem check_long_ib_ids (K : ft_consts) (device : kgsl_device) :
    context_ids (_adreno_check_long_ib K device).2 = context_ids device := by
  unfold _adreno_check_long_ib
  simp only []
  split <;> rfl

theorem adreno_ft_live_ids (K : ft_consts) (o : ft_oracle) (device : kgsl_device)
    (ft_data : adreno_ft_data) (c : kgsl_context) (a : adreno_context) :
    context_ids (_adreno_ft_live K o device ft_data c a).device = context_ids device := by
  have hm := ft_mark_hung_ids K device c
  have hc := check_long_ib_ids K (ft_mark_hung K device c)
  unfold _adreno_ft_live
  simp only []
  split
  · exact Eq.trans (play_good_ids _ _ _ _ _ _) hm
  · split
    · split
      · exact Eq.trans (play_good_ids _ _ _ _ _ _) (Eq.trans hc hm)
      · exact Eq.trans (ctx_set_flags_ids _ _ _) (Eq.trans hc hm)
    · split
      · exact Eq.trans (play_good_ids _ _ _ _ _ _) hm
      · split
        · exact Eq.trans (play_good_ids _ _ _ _ _ _) hm
        · exact Eq.trans (replay_ids _ _ _ _ _ _) hm

theorem adreno_ft_run_ids (K : ft_consts) (o : ft_oracle) (device : kgsl_device)
    (ft_data : adreno_ft_data) :
    context_ids (_adreno_ft K o device ft_data).device = context_ids device := by
  unfold _adreno_ft
  split
  · rfl
  · split
    · rfl
    · exact adreno_ft_live_ids _ _ _ _ _ _

theorem setup_ft_data_ids (K : ft_consts) (fuel : Nat) (al : alloc_oracle)
    (device : kgsl_device) (ret : Int) (d : kgsl_device) (ft : adreno_ft_data)
    (h : adreno_setup_ft_data K fuel al device = some (ret, d, ft)) :
    context_ids d = context_ids device := by
  unfold adreno_setup_ft_data at h
  simp only [] at h
  repeat' split at h
  all_goals first
    | (simp only [Option.some.injEq, Prod.mk.injEq] at h
       obtain ⟨_, h2, _⟩ := h
       subst h2
       rfl)
    | simp at h

theorem adreno_ft_loop_ids (K : ft_consts) (F : Nat) (w : ft_world) :
    ∀ (fuel k : Nat) (device : kgsl_device) (ft_data : adreno_ft_data) (trace : List ft_event)
      (r : ft_result), adreno_ft_loop K F w fuel k device ft_data trace = some r →
      context_ids r.device = context_ids device := by
  intro fuel
  induction fuel with
  | zero => intro k device ft_data trace r h; simp [adreno_ft_loop] at h
  | succ n ih =>
    intro k device ft_data trace r h
    unfold adreno_ft_loop at h
    simp only [] at h
    split at h
    · split at h
      · simp at h
      · next ret d ft hsetup =>
        have hd := setup_ft_data_ids K F (w.alloc k) _ ret d ft hsetup
        split at h
        · simp only [Option.some.injEq] at h
          subst h
          simp only []
          rw [hd, adreno_ft_run_ids]
        · rw [ih _ _ _ _ _ h, hd, adreno_ft_run_ids]
    · simp only [Option.some.injEq] at h
      subst h
      simp only []
      exact adreno_ft_run_ids _ _ _ _

theorem memstore_writel_other (m : Nat → memstore_field → Nat) (c : Nat) (f : memstore_field)
    (v : Nat) (c2 : Nat) (f2 : memstore_field) (h : c2 ≠ c) :
    memstore_writel m c f v c2 f2 = m c2 f2 := by
  unfold memstore_writel
  simp [h]

theorem set_max_ts_loop_frame (K : ft_consts) :
    ∀ (l : List kgsl_context) (m m2 : Nat → memstore_field → Nat),
      set_max_ts_loop K l m = some m2 →
      ∀ (id : Nat) (f : memstore_field), id ∉ l.map (fun c => c.id) → m2 id f = m id f := by
  intro l
  induction l with
  | nil =>
    intro m m2 h id f _
    simp only [set_max_ts_loop, Option.some.injEq] at h
    rw [h]
  | cons c cs ih =>
    intro m m2 h id f hid
    have hne : id ≠ c.id := by
      intro e; apply hid; simp [e]
    have hcs : id ∉ cs.map (fun c => c.id) := by
      intro e; apply hid; simp only [List.map_cons, List.mem_cons]; exact Or.inr e
    unfold set_max_ts_loop at h
    split at h
    · simp at h
    · split at h
      · rw [ih _ _ h id f hcs, memstore_writel_other _ _ _ _ _ _ hne,
          memstore_writel_other _ _ _ _ _ _ hne]
      · exact ih _ _ h id f hcs

theorem set_max_ts_loop_hung (K : ft_consts) :
    ∀ (l : List kgsl_context) (m m2 : Nat → memstore_field → Nat),
      set_max_ts_loop K l m = some m2 → (l.map (fun c => c.id)).Nodup →
      ∀ c ∈ l, ∀ a, c.devctxt = some a → a.flags &&& K.CTXT_FLAGS_GPU_HANG ≠ 0 →
        m2 c.id memstore_field.soptimestamp = a.timestamp ∧
        m2 c.id memstore_field.eoptimestamp = a.timestamp := by
  intro l
  induction l with
  | nil => intro m m2 _ _ c hc; simp at hc
  | cons c0 cs ih =>
    intro m m2 h hnd c hc a ha hh
    rw [List.map_cons, List.nodup_cons] at hnd
    rcases List.mem_cons.mp hc with e | e
    · subst e
      unfold set_max_ts_loop at h
      rw [ha] at h
      simp only [hh, ne_eq, not_false_eq_true, if_true] at h
      rw [set_max_ts_loop_frame K cs _ m2 h c.id _ hnd.1,
        set_max_ts_loop_frame K cs _ m2 h c.id _ hnd.1]
      simp [memstore_writel]
    · unfold set_max_ts_loop at h
      split at h
      · simp at h
      · split at h
        · exact ih _ _ h hnd.2 c e a ha hh
        · exact ih _ _ h hnd.2 c e a ha hh

theorem mark_context_zero_devctxt (K : ft_consts) (c : kgsl_context) :
    (mark_context K 0 c).devctxt = c.devctxt := by
  unfold mark_context
  simp only [ne_eq, not_true_eq_false, if_false]
  split
  · split
    · split <;> rfl
    · rfl
  · rfl

theorem reconcile_hung (K : ft_consts) (F fuel : Nat) (w : ft_world) (device : kgsl_device)
    (ft_data : adreno_ft_data) (r0 : ft_result) (hid : (context_ids device).Nodup)
    (h : adreno_ft_reconcile K F fuel w device ft_data = some r0) :
    ∀ c ∈ r0.device.context_idr, ∀ a, c.devctxt = some a →
      a.flags &&& K.CTXT_FLAGS_GPU_HANG ≠ 0 →
      r0.device.memstore c.id memstore_field.soptimestamp = a.timestamp ∧
      r0.device.memstore c.id memstore_field.eoptimestamp = a.timestamp := by
  unfold adreno_ft_reconcile at h
  split at h
  · simp at h
  · next rl hl =>
    have hids := adreno_ft_loop_ids K F w fuel 0 device ft_data [] rl hl
    simp only [] at h
    split at h
    · simp at h
    · next d hd =>
      simp only [Option.some.injEq] at h
      subst h
      simp only []
      unfold adreno_set_max_ts_for_bad_ctxs at hd
      split at hd
      · simp at hd
      · next m hm =>
        simp only [Option.some.injEq] at hd
        subst hd
        have hidr : ∀ (d1 : kgsl_device × List ft_event),
            d1.1.context_idr = rl.device.context_idr →
            set_max_ts_loop K d1.1.context_idr d1.1.memstore = some m →
            ∀ c ∈ d1.1.context_idr, ∀ a, c.devctxt = some a →
              a.flags &&& K.CTXT_FLAGS_GPU_HANG ≠ 0 →
              m c.id memstore_field.soptimestamp = a.timestamp ∧
              m c.id memstore_field.eoptimestamp = a.timestamp := by
          intro d1 he hm2
          apply set_max_ts_loop_hung K _ _ _ hm2
          rw [he]
          have : context_ids rl.device = rl.device.context_idr.map (fun c => c.id) := rfl
          rw [← this, hids]
          exact hid
        apply hidr _ _ hm
        split
        · rfl
        · split <;> rfl

theorem set_max_ts_loop_not_hung (K : ft_consts) :
    ∀ (l : List kgsl_context) (m m2 : Nat → memstore_field → Nat),
      set_max_ts_loop K l m = some m2 → (l.map (fun c => c.id)).Nodup →
      ∀ c ∈ l, ∀ a, c.devctxt = some a → a.flags &&& K.CTXT_FLAGS_GPU_HANG = 0 →
        ∀ f, m2 c.id f = m c.id f := by
  intro l
  induction l with
  | nil => intro m m2 _ _ c hc; simp at hc
  | cons c0 cs ih =>
    intro m m2 h hnd c hc a ha hh f
    rw [List.map_cons, List.nodup_cons] at hnd
    rcases List.mem_cons.mp hc with e | e
    · subst e
      unfold set_max_ts_loop at h
      rw [ha] at h
      simp only [hh, ne_eq, not_true_eq_false, if_false] at h
      exact set_max_ts_loop_frame K cs _ m2 h c.id f hnd.1
    · have hne : c.id ≠ c0.id := by
        intro e2
        apply hnd.1
        rw [← e2]
        exact List.mem_map_of_mem (fun c => c.id) e
      unfold set_max_ts_loop at h
      split at h
      · simp at h
      · split at h
        · rw [ih _ _ h hnd.2 c e a ha hh f, memstore_writel_other _ _ _ _ _ _ hne,
            memstore_writel_other _ _ _ _ _ _ hne]
        · exact ih _ _ h hnd.2 c e a ha hh f

theorem reconcile_not_hung (K : ft_consts) (F fuel : Nat) (w : ft_world) (device : kgsl_device)
    (ft_data : adreno_ft_data) (r0 : ft_result) (hid : (context_ids device).Nodup)
    (h : adreno_ft_reconcile K F fuel w device ft_data = some r0) (hret : r0.ret ≠ 0) :
    ∃ rl, adreno_ft_loop K F w fuel 0 device ft_data [] = some rl ∧
      r0.device.context_idr = rl.device.context_idr ∧
      ∀ c ∈ r0.device.context_idr, ∀ a, c.devctxt = some a →
        a.flags &&& K.CTXT_FLAGS_GPU_HANG = 0 →
        ∀ f, r0.device.memstore c.id f = rl.device.memstore c.id f := by
  unfold adreno_ft_reconcile at h
  cases hl : adreno_ft_loop K F w fuel 0 device ft_data [] with
  | none => rw [hl] at h; simp at h
  | some rl =>
    rw [hl] at h
    simp only [] at h
    have hids := adreno_ft_loop_ids K F w fuel 0 device ft_data [] rl hl
    by_cases hr : rl.ret ≠ 0
    · simp only [hr, ne_eq, not_false_eq_true, if_true] at h
      unfold adreno_set_max_ts_for_bad_ctxs at h
      cases hm : set_max_ts_loop K rl.device.context_idr rl.device.memstore with
      | none => rw [hm] at h; simp at h
      | some m =>
        rw [hm] at h
        simp only [Option.some.injEq] at h
        subst h
        refine ⟨rl, rfl, rfl, ?_⟩
        intro c hc a ha hh f
        apply set_max_ts_loop_not_hung K _ _ _ hm _ c hc a ha hh f
        have : context_ids rl.device = rl.device.context_idr.map (fun c => c.id) := rfl
        rw [← this, hids]
        exact hid
    · exfalso
      have hr0 : rl.ret = 0 := not_not.mp hr
      simp only [hr0, ne_eq, not_true_eq_false, if_false] at h
      split at h
      · simp at h
      · simp only [Option.some.injEq] at h
        subst h
        exact hret rfl

/-- C2 (as amended): after `adreno_ft` returns, with pairwise distinct context
ids in the table, every context that carried `CTXT_FLAGS_GPU_HANG` when
`adreno_set_max_ts_for_bad_ctxs` ran (the state `r0` before the final blame
pass) has its `soptimestamp` and `eoptimestamp` slots of the memstore equal to
its own last-submitted timestamp; when the return value is 0 these are all
the contexts that carry the flag at return. When the return value is not 0
the blame pass sets the flag on every context after the slots were written,
and the slots of the contexts that did not carry it before are as the retry
loop left them. -/
theorem C2_hung_timestamps (K : ft_consts) (F fuel : Nat) (w : ft_world)
    (device : kgsl_device) (ft_data : adreno_ft_data) (r : ft_result)
    (hid : (context_ids device).Nodup)
    (h : adreno_ft K F fuel w device ft_data = some r) :
    ∃ r0, adreno_ft_reconcile K F fuel w device ft_data = some r0 ∧
      r.device = adreno_mark_context_status K r0.device r.ret ∧
      (∀ c ∈ r0.device.context_idr, ∀ a, c.devctxt = some a →
        a.flags &&& K.CTXT_FLAGS_GPU_HANG ≠ 0 →
        r.device.memstore c.id memstore_field.soptimestamp = a.timestamp ∧
        r.device.memstore c.id memstore_field.eoptimestamp = a.timestamp) ∧
      (r.ret = 0 → ∀ c ∈ r.device.context_idr, ∀ a, c.devctxt = some a →
        a.flags &&& K.CTXT_FLAGS_GPU_HANG ≠ 0 →
        r.device.memstore c.id memstore_field.soptimestamp = a.timestamp ∧
        r.device.memstore c.id memstore_field.eoptimestamp = a.timestamp) ∧
      (r.ret ≠ 0 →
        (∀ c ∈ r.device.context_idr, ∀ a, c.devctxt = some a →
          a.flags &&& K.CTXT_FLAGS_GPU_HANG = K.CTXT_FLAGS_GPU_HANG) ∧
        ∃ rl, adreno_ft_loop K F w fuel 0 device ft_data [] = some rl ∧
          r0.device.context_idr = rl.device.context_idr ∧
          ∀ c ∈ r0.device.context_idr, ∀ a, c.devctxt = some a →
            a.flags &&& K.CTXT_FLAGS_GPU_HANG = 0 →
            ∀ f, r.device.memstore c.id f = rl.device.memstore c.id f) := by
  unfold adreno_ft at h
  split at h
  · simp at h
  · next r0 hr0 =>
    simp only [Option.some.injEq] at h
    subst h
    have hh := reconcile_hung K F fuel w device ft_data r0 hid hr0
    refine ⟨r0, hr0, rfl, hh, ?_, ?_⟩
    · intro hret c hc a ha hf
      simp only [] at hret hc ⊢
      rw [hret] at hc
      unfold adreno_mark_context_status at hc
      simp only [List.mem_map] at hc
      obtain ⟨c0, hc0, e⟩ := hc
      subst e
      rw [mark_context_zero_devctxt] at ha
      rw [mark_context_id]
      exact hh c0 hc0 a ha hf
    · intro hret
      simp only [] at hret
      refine ⟨?_, reconcile_not_hung K F fuel w device ft_data r0 hid hr0 hret⟩
      intro c hc a ha
      simp only [] at hc
      unfold adreno_mark_context_status at hc
      simp only [List.mem_map] at hc
      obtain ⟨c0, _, e⟩ := hc
      subst e
      unfold mark_context at ha
      rw [if_pos hret] at ha
      cases hd : c0.devctxt with
      | none => rw [hd] at ha; simp at ha
      | some a0 =>
        rw [hd] at ha
        simp only [Option.map_some', Option.some.injEq] at ha
        subst ha
        exact or_and_self_mask _ _

/-- C2, counterexample: the bad segment is replayed successfully, the
good-segment replay fails (`-EAGAIN`) and the rebuild of the snapshot fails
with `-ENOMEM`, so `adreno_ft` returns `-ENOMEM`. At return both contexts
carry `CTXT_FLAGS_GPU_HANG` (0x100), their last-submitted timestamps are 5 and
7, and their `soptimestamp` and `eoptimestamp` slots still hold 0. -/
theorem C2_failed_episode_counterexample :
    (adreno_ft msm_consts 8 8 world_good_fails_nomem dev_two_contexts ft_data_default).map
      (fun r => (r.ret, timestamp_report r.device)) =
    some (-12, [(1, some 0x40100, some 5, 0, 0), (2, some 0x100, some 7, 0, 0)]) := by
  rfl

/-- C2, witness. First run: every resubmission of the bad segment fails and
the good-segment replay succeeds, `adreno_ft` returns 0; context 1 carries
`CTXT_FLAGS_GPU_HANG` (flags 0x10100) when `adreno_set_max_ts_for_bad_ctxs`
runs and at return, and both its slots hold its timestamp 5, while the slots
of context 2 hold 0. Second run: the episode of the counterexample, which
returns `-ENOMEM`; before the blame pass no context carries the flag (flags
0x40000 and 0) and the slots are as the retry loop left them. -/
theorem C2_hung_timestamps_witness :
    (context_ids dev_two_contexts).Nodup ∧
    (adreno_ft_reconcile msm_consts 8 8 world_bad_fails dev_two_contexts ft_data_default).map
      (fun r0 => (r0.ret, timestamp_report r0.device)) =
      some (0, [(1, some 0x10100, some 5, 5, 5), (2, some 0, some 7, 0, 0)]) ∧
    (adreno_ft msm_consts 8 8 world_bad_fails dev_two_contexts ft_data_default).map
      (fun r => (r.ret, timestamp_report r.device)) =
      some (0, [(1, some 0x10100, some 5, 5, 5), (2, some 0, some 7, 0, 0)]) ∧
    (adreno_ft_reconcile msm_consts 8 8 world_good_fails_nomem dev_two_contexts
        ft_data_default).map (fun r0 => (r0.ret, timestamp_report r0.device)) =
      some (-12, [(1, some 0x40000, some 5, 0, 0), (2, some 0, some 7, 0, 0)]) ∧
    (∃ r, adreno_ft msm_consts 8 8 world_bad_fails dev_two_contexts ft_data_default = some r ∧
      ∃ r0, adreno_ft_reconcile msm_consts 8 8 world_bad_fails dev_two_contexts ft_data_default
          = some r0 ∧
        ∀ c ∈ r0.device.context_idr, ∀ a, c.devctxt = some a →
          a.flags &&& msm_consts.CTXT_FLAGS_GPU_HANG ≠ 0 →
          r.device.memstore c.id memstore_field.soptimestamp = a.timestamp ∧
          r.device.memstore c.id memstore_field.eoptimestamp = a.timestamp) ∧
    (∃ r, adreno_ft msm_consts 8 8 world_good_fails_nomem dev_two_contexts ft_data_default
        = some r ∧ r.ret ≠ 0 ∧
      (∀ c ∈ r.device.context_idr, ∀ a, c.devctxt = some a →
        a.flags &&& msm_consts.CTXT_FLAGS_GPU_HANG = msm_consts.CTXT_FLAGS_GPU_HANG) ∧
      ∃ r0 rl, adreno_ft_reconcile msm_consts 8 8 world_good_fails_nomem dev_two_contexts
          ft_data_default = some r0 ∧
        adreno_ft_loop msm_consts 8 world_good_fails_nomem 8 0 dev_two_contexts
          ft_data_default [] = some rl ∧
        ∀ c ∈ r0.device.context_idr, ∀ a, c.devctxt = some a →
          a.flags &&& msm_consts.CTXT_FLAGS_GPU_HANG = 0 →
          ∀ f, r.device.memstore c.id f = rl.device.memstore c.id f) := by
  refine ⟨by decide, rfl, rfl, rfl, ?_, ?_⟩
  · obtain ⟨r0, h0, _, h1, _⟩ := C2_hung_timestamps msm_consts 8 8 world_bad_fails
      dev_two_contexts ft_data_default _ (by decide) rfl
    exact ⟨_, rfl, r0, h0, h1⟩
  · obtain ⟨r0, h0, _, _, _, h3⟩ := C2_hung_timestamps msm_consts 8 8 world_good_fails_nomem
      dev_two_contexts ft_data_default _ (by decide) rfl
    obtain ⟨h4, rl, h5, _, h6⟩ := h3 (by decide)
    exact ⟨_, rfl, by decide, h4, r0, rl, h0, h5, h6⟩

/-! ### The return value of `_adreno_ft` and the retry loop -/

theorem play_good_ret (K : ft_consts) (o : ft_oracle) (rb : rb_ptr)
    (context : kgsl_context) (last : Option Nat) (s : ft_state) :
    (_adreno_ft_play_good_cmds K o rb context last s).ret =
      (if resubmit_ret o ft_stage.good (some context) s.ft_data.good_rb_size ≠ 0
        then -EAGAIN else 0) := by
  unfold _adreno_ft_play_good_cmds
  simp only [resubmit_rb_ret]
  split <;> rfl

theorem play_good_last (K : ft_consts) (o : ft_oracle) (rb : rb_ptr)
    (context : kgsl_context) (last : Option Nat) (s : ft_state) :
    good_replay_last o context (resubmits s.trace)
      (_adreno_ft_play_good_cmds K o rb context last s) := by
  refine ⟨[], ?_, ?_, ?_⟩
  · rw [play_good_resubmits, play_good_ft_data, List.append_nil]
  · intro x hx; simp at hx
  · rw [play_good_ret, play_good_ft_data]

theorem good_replay_last_prepend (o : ft_oracle) (context : kgsl_context)
    (pre l0 : List (ft_stage × Int)) (r : ft_result)
    (h : good_replay_last o context (pre ++ l0) r) (h0 : ∀ x ∈ l0, x.1 ≠ ft_stage.good) :
    good_replay_last o context pre r := by
  obtain ⟨l, h1, h2, h3⟩ := h
  refine ⟨l0 ++ l, ?_, ?_, h3⟩
  · rw [h1]; simp [List.append_assoc]
  · intro x hx
    rcases List.mem_append.mp hx with hx | hx
    · exact h0 x hx
    · exact h2 x hx

theorem skipframe_last (K : ft_consts) (o : ft_oracle) (rb : rb_ptr)
    (context : kgsl_context) (last : Option Nat) (s : ft_state) :
    good_replay_last o context (resubmits s.trace)
      (_adreno_ft_skipframe K o rb context last s) := by
  unfold _adreno_ft_skipframe
  split
  · simp only []
    split
    · apply good_replay_last_prepend o context _
        [(ft_stage.skipframe, resubmit_ret o ft_stage.skipframe (some context)
          (_adreno_ft_skipframe_patch K context s).ft_data.bad_rb_size)]
      · have := play_good_last K o rb context last
          { device := (_adreno_ft_resubmit_rb o ft_stage.skipframe
                (_adreno_ft_skipframe_patch K context s).device rb (some context)
                (_adreno_ft_skipframe_patch K context s).ft_data.bad_rb_buffer
                (_adreno_ft_skipframe_patch K context s).ft_data.bad_rb_size).2.1,
            ft_data := { (_adreno_ft_skipframe_patch K context s).ft_data with status := 1 },
            trace := (_adreno_ft_skipframe_patch K context s).trace ++
              (_adreno_ft_resubmit_rb o ft_stage.skipframe
                (_adreno_ft_skipframe_patch K context s).device rb (some context)
                (_adreno_ft_skipframe_patch K context s).ft_data.bad_rb_buffer
                (_adreno_ft_skipframe_patch K context s).ft_data.bad_rb_size).2.2 }
        simpa only [resubmits_append, resubmit_rb_resubmits, skipframe_patch_trace] using this
      · intro x hx
        rw [List.mem_singleton.mp hx]
        intro h; cases h
    · apply good_replay_last_prepend o context _
        [(ft_stage.skipframe, resubmit_ret o ft_stage.skipframe (some context)
          (_adreno_ft_skipframe_patch K context s).ft_data.bad_rb_size)]
      · have := play_good_last K o rb context last
          { device := (_adreno_ft_resubmit_rb o ft_stage.skipframe
                (_adreno_ft_skipframe_patch K context s).device rb (some context)
                (_adreno_ft_skipframe_patch K context s).ft_data.bad_rb_buffer
                (_adreno_ft_skipframe_patch K context s).ft_data.bad_rb_size).2.1,
            ft_data := { (_adreno_ft_skipframe_patch K context s).ft_data with status := 0 },
            trace := (_adreno_ft_skipframe_patch K context s).trace ++
              (_adreno_ft_resubmit_rb o ft_stage.skipframe
                (_adreno_ft_skipframe_patch K context s).device rb (some context)
                (_adreno_ft_skipframe_patch K context s).ft_data.bad_rb_buffer
                (_adreno_ft_skipframe_patch K context s).ft_data.bad_rb_size).2.2 }
        simpa only [resubmits_append, resubmit_rb_resubmits, skipframe_patch_trace] using this
      · intro x hx
        rw [List.mem_singleton.mp hx]
        intro h; cases h
  · exact play_good_last K o rb context last s

theorem skipib_last (K : ft_consts) (o : ft_oracle) (rb : rb_ptr)
    (context : kgsl_context) (last : Option Nat) (s : ft_state) :
    good_replay_last o context (resubmits s.trace)
      (_adreno_ft_skipib K o rb context last s) := by
  unfold _adreno_ft_skipib
  split
  · simp only []
    split
    · exact play_good_last K o rb context last _
    · split
      · apply good_replay_last_prepend o context _
          [(ft_stage.skipib, resubmit_ret o ft_stage.skipib (some context)
            s.ft_data.bad_rb_size)]
        · have := skipframe_last K o rb context last
            { device := (_adreno_ft_resubmit_rb o ft_stage.skipib s.device rb (some context)
                (skipib_loop K s.ft_data.ib1 s.ft_data.bad_rb_size 0 s.ft_data.bad_rb_buffer).2
                s.ft_data.bad_rb_size).2.1,
              ft_data := { s.ft_data with
                bad_rb_buffer :=
                  (skipib_loop K s.ft_data.ib1 s.ft_data.bad_rb_size 0
                    s.ft_data.bad_rb_buffer).2,
                status := 1 },
              trace := s.trace ++ (_adreno_ft_resubmit_rb o ft_stage.skipib s.device rb
                (some context)
                (skipib_loop K s.ft_data.ib1 s.ft_data.bad_rb_size 0 s.ft_data.bad_rb_buffer).2
                s.ft_data.bad_rb_size).2.2 }
          simpa only [resubmits_append, resubmit_rb_resubmits] using this
        · intro x hx
          rw [List.mem_singleton.mp hx]
          intro h; cases h
      · apply good_replay_last_prepend o context _
          [(ft_stage.skipib, resubmit_ret o ft_stage.skipib (some context)
            s.ft_data.bad_rb_size)]
        · have := play_good_last K o rb context last
            { device := (_adreno_ft_resubmit_rb o ft_stage.skipib s.device rb (some context)
                (skipib_loop K s.ft_data.ib1 s.ft_data.bad_rb_size 0 s.ft_data.bad_rb_buffer).2
                s.ft_data.bad_rb_size).2.1,
              ft_data := { s.ft_data with
                bad_rb_buffer :=
                  (skipib_loop K s.ft_data.ib1 s.ft_data.bad_rb_size 0
                    s.ft_data.bad_rb_buffer).2,
                status := 0 },
              trace := s.trace ++ (_adreno_ft_resubmit_rb o ft_stage.skipib s.device rb
                (some context)
                (skipib_loop K s.ft_data.ib1 s.ft_data.bad_rb_size 0 s.ft_data.bad_rb_buffer).2
                s.ft_data.bad_rb_size).2.2 }
          simpa only [resubmits_append, resubmit_rb_resubmits] using this
        · intro x hx
          rw [List.mem_singleton.mp hx]
          intro h; cases h
  · exact skipframe_last K o rb context last s

theorem replay_last (K : ft_consts) (o : ft_oracle) (rb : rb_ptr)
    (context : kgsl_context) (last : Option Nat) (s : ft_state) :
    good_replay_last o context (resubmits s.trace)
      (_adreno_ft_replay K o rb context last s) := by
  unfold _adreno_ft_replay
  split
  · simp only []
    split
    · apply good_replay_last_prepend o context _
        [(ft_stage.replay, resubmit_ret o ft_stage.replay (some context)
          s.ft_data.bad_rb_size)]
      · have := skipib_last K o rb context last
          { device := (_adreno_ft_resubmit_rb o ft_stage.replay s.device rb (some context)
              s.ft_data.bad_rb_buffer s.ft_data.bad_rb_size).2.1,
            ft_data := { s.ft_data with status := 1 },
            trace := s.trace ++ (_adreno_ft_resubmit_rb o ft_stage.replay s.device rb
              (some context) s.ft_data.bad_rb_buffer s.ft_data.bad_rb_size).2.2 }
        simpa only [resubmits_append, resubmit_rb_resubmits] using this
      · intro x hx
        rw [List.mem_singleton.mp hx]
        intro h; cases h
    · apply good_replay_last_prepend o context _
        [(ft_stage.replay, resubmit_ret o ft_stage.replay (some context)
          s.ft_data.bad_rb_size)]
      · have := play_good_last K o rb context last
          { device := (_adreno_ft_resubmit_rb o ft_stage.replay s.device rb (some context)
              s.ft_data.bad_rb_buffer s.ft_data.bad_rb_size).2.1,
            ft_data := s.ft_data,
            trace := s.trace ++ (_adreno_ft_resubmit_rb o ft_stage.replay s.device rb
              (some context) s.ft_data.bad_rb_buffer s.ft_data.bad_rb_size).2.2 }
        simpa only [resubmits_append, resubmit_rb_resubmits] using this
      · intro x hx
        rw [List.mem_singleton.mp hx]
        intro h; cases h
  · exact skipib_last K o rb context last s

theorem live_last (K : ft_consts) (o : ft_oracle) (device : kgsl_device)
    (ft_data : adreno_ft_data) (c : kgsl_context) (a : adreno_context) :
    ((_adreno_ft_live K o device ft_data c a).ret = 0 ∧
      resubmits (_adreno_ft_live K o device ft_data c a).trace = []) ∨
    good_replay_last o c [] (_adreno_ft_live K o device ft_data c a) := by
  unfold _adreno_ft_live
  simp only []
  split
  · exact Or.inr (play_good_last K o _ c _ _)
  · split
    · split
      · exact Or.inr (play_good_last K o _ c _ _)
      · exact Or.inl ⟨rfl, rfl⟩
    · split
      · exact Or.inr (play_good_last K o _ c _ _)
      · split
        · exact Or.inr (play_good_last K o _ c _ _)
        · exact Or.inr (replay_last K o _ c _ _)

theorem adreno_ft_last (K : ft_consts) (o : ft_oracle) (device : kgsl_device)
    (ft_data : adreno_ft_data) :
    ((_adreno_ft K o device ft_data).ret ≠ -EAGAIN ∧
      resubmits (_adreno_ft K o device ft_data).trace = []) ∨
    ∃ c, good_replay_last o c [] (_adreno_ft K o device ft_data) := by
  have hne : (-EINVAL : Int) ≠ -EAGAIN := by decide
  unfold _adreno_ft
  split
  · exact Or.inl ⟨hne, rfl⟩
  · split
    · exact Or.inl ⟨hne, rfl⟩
    · rcases live_last K o device ft_data _ _ with h | h
      · exact Or.inl ⟨by rw [h.1]; decide, h.2⟩
      · exact Or.inr ⟨_, h⟩

theorem resubmit_ret_ne_zero (o : ft_oracle) (stage : ft_stage) (c : kgsl_context)
    (size : Nat) :
    resubmit_ret o stage (some c) size ≠ 0 ↔
      (o.restart_fails stage = true ∨ (size ≠ 0 ∧ o.idle_ret stage ≠ 0)) := by
  unfold resubmit_ret _adreno_ft_restart_device
  cases h : o.restart_fails stage
  · by_cases hs : size = 0 <;> simp [hs]
  · simp

/-- C11: `_adreno_ft` returns `-EAGAIN` exactly when its trace holds a
good-segment resubmission that returned non-zero, and such a resubmission
returns non-zero exactly when the device restart fails or (the segment is not
empty and) the idle wait fails; so when every good-segment resubmission
returned 0 the function does not return `-EAGAIN`, whatever the bad-segment
attempts returned. The loop of `adreno_ft` ends with the result of the run
when the run did not return `-EAGAIN`, ends with the error of
`adreno_setup_ft_data` when the rebuild fails, and runs `_adreno_ft` again on
the rebuilt snapshot exactly when the run returned `-EAGAIN` and the rebuild
returned 0. -/
theorem C11_eagain_and_retry (K : ft_consts) (o : ft_oracle) (device : kgsl_device)
    (ft_data : adreno_ft_data) (F : Nat) (w : ft_world) (fuel k : Nat)
    (trace : List ft_event) :
    ((_adreno_ft K o device ft_data).ret = -EAGAIN ↔
      ∃ g, g ≠ 0 ∧ (ft_stage.good, g) ∈ resubmits (_adreno_ft K o device ft_data).trace) ∧
    (∀ g, (ft_stage.good, g) ∈ resubmits (_adreno_ft K o device ft_data).trace →
      (g ≠ 0 ↔ (o.restart_fails ft_stage.good = true ∨
        ((_adreno_ft K o device ft_data).ft_data.good_rb_size ≠ 0 ∧
          o.idle_ret ft_stage.good ≠ 0)))) ∧
    ((∀ x ∈ resubmits (_adreno_ft K o device ft_data).trace, x.1 = ft_stage.good → x.2 = 0) →
      (_adreno_ft K o device ft_data).ret ≠ -EAGAIN) ∧
    ((_adreno_ft K (w.run k) device ft_data).ret ≠ -EAGAIN →
      adreno_ft_loop K F w (fuel + 1) k device ft_data trace =
        some { _adreno_ft K (w.run k) device ft_data with
          trace := trace ++ (_adreno_ft K (w.run k) device ft_data).trace }) ∧
    ((_adreno_ft K (w.run k) device ft_data).ret = -EAGAIN →
      ∀ ret d ft, adreno_setup_ft_data K F (w.alloc k)
          (_adreno_ft K (w.run k) device ft_data).device = some (ret, d, ft) →
        (ret ≠ 0 → adreno_ft_loop K F w (fuel + 1) k device ft_data trace =
          some { ret := ret, device := d, ft_data := ft,
                 trace := trace ++ (_adreno_ft K (w.run k) device ft_data).trace }) ∧
        (ret = 0 → adreno_ft_loop K F w (fuel + 1) k device ft_data trace =
          adreno_ft_loop K F w fuel (k + 1) d ft
            (trace ++ (_adreno_ft K (w.run k) device ft_data).trace))) := by
  have hmem : ∀ (c : kgsl_context), good_replay_last o c [] (_adreno_ft K o device ft_data) →
      ∀ g, (ft_stage.good, g) ∈ resubmits (_adreno_ft K o device ft_data).trace →
        g = resubmit_ret o ft_stage.good (some c)
          (_adreno_ft K o device ft_data).ft_data.good_rb_size := by
    intro c hc g hg
    obtain ⟨l, h1, h2, _⟩ := hc
    rw [h1] at hg
    simp only [List.nil_append, List.mem_append, List.mem_singleton, Prod.mk.injEq,
      true_and] at hg
    rcases hg with hg | hg
    · exact absurd rfl (h2 _ hg)
    · exact hg
  have hA : (_adreno_ft K o device ft_data).ret = -EAGAIN ↔
      ∃ g, g ≠ 0 ∧ (ft_stage.good, g) ∈ resubmits (_adreno_ft K o device ft_data).trace := by
    rcases adreno_ft_last K o device ft_data with h | ⟨c, h⟩
    · constructor
      · intro e; exact absurd e h.1
      · rintro ⟨g, _, hg⟩
        rw [h.2] at hg
        simp at hg
    · have hm := hmem c h
      obtain ⟨l, h1, h2, h3⟩ := h
      constructor
      · intro e
        refine ⟨resubmit_ret o ft_stage.good (some c)
          (_adreno_ft K o device ft_data).ft_data.good_rb_size, ?_, by rw [h1]; simp⟩
        intro h0
        rw [h3, if_neg (by rw [h0]; simp)] at e
        exact absurd e (by decide)
      · rintro ⟨g, hg0, hg⟩
        rw [h3, if_pos (by rw [← hm g hg]; exact hg0)]
  refine ⟨hA, ?_, ?_, ?_, ?_⟩
  · intro g hg
    rcases adreno_ft_last K o device ft_data with h | ⟨c, h⟩
    · rw [h.2] at hg
      simp at hg
    · rw [hmem c h g hg]
      exact resubmit_ret_ne_zero o ft_stage.good c _
  · intro hall e
    obtain ⟨g, hg0, hg⟩ := hA.mp e
    exact hg0 (hall _ hg rfl)
  · intro hne
    unfold adreno_ft_loop
    simp only []
    rw [if_neg hne]
  · intro he ret d ft hs
    constructor
    · intro hr
      unfold adreno_ft_loop
      simp only []
      rw [if_pos he, hs]
      simp only []
      rw [if_pos hr]
    · intro hr
      subst hr
      conv_lhs => unfold adreno_ft_loop
      simp only []
      rw [if_pos he, hs]
      simp

/-! ### Success through SKIP_IB and through REPLAY -/

theorem and_bnot32_or_clear (f H T : Nat) (hH : H < 2 ^ 32) (h : T &&& H = 0) :
    ((f &&& bnot32 H) ||| T) &&& H = 0 := by
  unfold bnot32
  apply Nat.eq_of_testBit_eq; intro i
  have := congrArg (fun x => x.testBit i) h
  have e : (0xFFFFFFFF : Nat) = 2 ^ 32 - 1 := by norm_num
  simp only [Nat.testBit_and, Nat.testBit_or, Nat.testBit_xor, Nat.zero_testBit, e,
    Nat.testBit_two_pow_sub_one] at this ⊢
  by_cases hi : i < 32
  · revert this
    cases f.testBit i <;> cases H.testBit i <;> cases T.testBit i <;> simp [hi]
  · have hb : H.testBit i = false :=
      Nat.testBit_lt_two_pow (lt_of_lt_of_le hH (Nat.pow_le_pow_right (by norm_num) (by omega)))
    simp [hb]

theorem play_good_context_idr_ok (K : ft_consts) (o : ft_oracle) (rb : rb_ptr)
    (context : kgsl_context) (last : Option Nat) (s : ft_state)
    (hst : s.ft_data.status = 0) :
    (_adreno_ft_play_good_cmds K o rb context last s).device.context_idr =
      (ctx_set_flags s.device context.id
        (fun flags => (flags &&& bnot32 K.CTXT_FLAGS_GPU_HANG) |||
          K.CTXT_FLAGS_GPU_HANG_FT)).context_idr := by
  unfold _adreno_ft_play_good_cmds
  simp only [hst, ne_eq, not_true_eq_false, if_false, resubmit_rb_device]
  split
  · rfl
  · split
    · split <;> rfl
    · rfl

theorem adreno_ft_eq_replay (K : ft_consts) (o : ft_oracle) (device : kgsl_device)
    (ft_data : adreno_ft_data) (c : kgsl_context) (a : adreno_context)
    (hget : kgsl_context_get device ft_data.context_id = some c) (hdev : c.devctxt = some a)
    (hn : (a.flags ||| K.CTXT_FLAGS_GPU_HANG) &&& K.CTXT_FLAGS_NO_FAULT_TOLERANCE = 0)
    (hlong : device.long_ib = 0) (hmmu : device.mmu_fault = 0)
    (hdis : ft_data.ft_policy &&& K.KGSL_FT_DISABLE = 0) :
    _adreno_ft K o device ft_data =
      _adreno_ft_replay K o rb_ptr.null c none
        { device := ft_mark_hung K device c, ft_data := ft_apply_extract ft_data o.extract,
          trace := [ft_event.extract rb_ptr.null] } := by
  rw [adreno_ft_eq_live K o device ft_data c a hget hdev]
  unfold _adreno_ft_live
  simp only []
  rw [if_neg (by rw [hn]; simp)]
  have hl : (ft_mark_hung K device c).long_ib = device.long_ib := rfl
  have hm : (ft_mark_hung K device c).mmu_fault = device.mmu_fault := rfl
  have hp : (ft_apply_extract ft_data o.extract).ft_policy = ft_data.ft_policy := rfl
  simp only [hl, hm, hp, hlong, hmmu, hdis, ne_eq, not_true_eq_false, if_false]

/-- C13: success through SKIP_IB. In a run of `_adreno_ft` that enters the
ladder (live offending context that has not opted out, no long IB, no MMU
fault, no `KGSL_FT_DISABLE`), if REPLAY is enabled and its resubmission
returns non-zero, SKIP_IB is enabled, `ib1` is not 0, the loop finds the
faulting IB call and the resubmission of the patched segment returns 0, then
the status ends 0 (REPLAY had set it to 1), the resubmissions of the run are
REPLAY, SKIP_IB and the good segment (SKIP_FRAME is not attempted), and the
offending context ends with `CTXT_FLAGS_GPU_HANG` cleared and
`CTXT_FLAGS_GPU_HANG_FT` set. -/
theorem C13_success_via_skipib (K : ft_consts) (o : ft_oracle) (device : kgsl_device)
    (ft_data : adreno_ft_data) (c : kgsl_context) (a : adreno_context)
    (hK : flags_disjoint K) (hH : K.CTXT_FLAGS_GPU_HANG < 2 ^ 32)
    (hget : kgsl_context_get device ft_data.context_id = some c) (hdev : c.devctxt = some a)
    (hnoft : a.flags &&& K.CTXT_FLAGS_NO_FAULT_TOLERANCE = 0)
    (hlong : device.long_ib = 0) (hmmu : device.mmu_fault = 0)
    (hdis : ft_data.ft_policy &&& K.KGSL_FT_DISABLE = 0)
    (hrp : ft_data.ft_policy &&& K.KGSL_FT_REPLAY ≠ 0)
    (hrpf : resubmit_ret o ft_stage.replay (some c) o.extract.bad_rb_size ≠ 0)
    (hsi : ft_data.ft_policy &&& K.KGSL_FT_SKIPIB ≠ 0)
    (hib : ft_data.ib1 ≠ 0)
    (hfound : (skipib_loop K ft_data.ib1 o.extract.bad_rb_size 0 o.extract.bad_rb_buffer).1
      ≠ o.extract.bad_rb_size)
    (hsis : resubmit_ret o ft_stage.skipib (some c) o.extract.bad_rb_size = 0) :
    (_adreno_ft K o device ft_data).ft_data.status = 0 ∧
    resubmits (_adreno_ft K o device ft_data).trace =
      [(ft_stage.replay, resubmit_ret o ft_stage.replay (some c) o.extract.bad_rb_size),
       (ft_stage.skipib, 0),
       (ft_stage.good, resubmit_ret o ft_stage.good (some c) o.extract.good_rb_size)] ∧
    (∃ f, ctx_flags (_adreno_ft K o device ft_data).device c.id = some f ∧
      f &&& K.CTXT_FLAGS_GPU_HANG = 0 ∧
      f &&& K.CTXT_FLAGS_GPU_HANG_FT = K.CTXT_FLAGS_GPU_HANG_FT) := by
  obtain ⟨hK1, hK2, _, _⟩ := hK
  have hn : (a.flags ||| K.CTXT_FLAGS_GPU_HANG) &&& K.CTXT_FLAGS_NO_FAULT_TOLERANCE = 0 := by
    rw [or_and_disjoint _ _ _ hK1, hnoft]
  have hK2s : K.CTXT_FLAGS_GPU_HANG_FT &&& K.CTXT_FLAGS_GPU_HANG = 0 := by
    rw [Nat.and_comm]; exact hK2
  rw [adreno_ft_eq_replay K o device ft_data c a hget hdev hn hlong hmmu hdis]
  unfold _adreno_ft_replay
  have hp : (ft_apply_extract ft_data o.extract).ft_policy = ft_data.ft_policy := rfl
  have hi : (ft_apply_extract ft_data o.extract).ib1 = ft_data.ib1 := rfl
  have hb : (ft_apply_extract ft_data o.extract).bad_rb_buffer = o.extract.bad_rb_buffer := rfl
  have hz : (ft_apply_extract ft_data o.extract).bad_rb_size = o.extract.bad_rb_size := rfl
  simp only [hp, hb, hz]
  rw [if_pos hrp, if_pos (by rw [resubmit_rb_ret]; exact hrpf)]
  unfold _adreno_ft_skipib
  simp only [hp, hb, hz, hi]
  rw [if_pos hsi, if_neg (by simp only [not_or]; exact ⟨hfound, hib⟩),
    if_neg (by rw [resubmit_rb_ret, hsis]; simp)]
  refine ⟨by rw [play_good_ft_data], ?_, ?_⟩
  · have he : resubmits [ft_event.extract rb_ptr.null] = [] := rfl
    rw [play_good_resubmits]
    simp only [resubmits_append, resubmit_rb_resubmits, he, hsis, List.nil_append]
    rfl
  · refine ⟨((a.flags ||| K.CTXT_FLAGS_GPU_HANG) &&& bnot32 K.CTXT_FLAGS_GPU_HANG) |||
      K.CTXT_FLAGS_GPU_HANG_FT, ?_, and_bnot32_or_clear _ _ _ hH hK2s, or_and_self_mask _ _⟩
    rw [ctx_flags_congr _ _ _ (play_good_context_idr_ok K o _ c _ _ rfl)]
    rw [ctx_flags_set_flags]
    simp only []
    rw [resubmit_rb_flags, resubmit_rb_flags, ctx_flags_mark_hung,
      ctx_flags_of_get device ft_data.context_id c a hget hdev]
    rfl
theorem or_and_or_ne_zero (y M N : Nat) (hM : M ≠ 0) : (y ||| M) &&& (N ||| M) ≠ 0 := by
  intro h
  apply hM
  apply Nat.eq_of_testBit_eq; intro i
  have := congrArg (fun x => x.testBit i) h
  simp only [Nat.testBit_and, Nat.testBit_or, Nat.zero_testBit] at this ⊢
  revert this
  cases y.testBit i <;> cases M.testBit i <;> cases N.testBit i <;> simp

theorem or_and_or_ne_zero_left (y M N : Nat) (hM : M ≠ 0) : (y ||| M) &&& (M ||| N) ≠ 0 := by
  rw [Nat.or_comm M N]
  exact or_and_or_ne_zero y M N hM

theorem idr_update_eq_map (l : List kgsl_context) (id : Nat) (g : kgsl_context → kgsl_context)
    (hnd : (l.map (fun c => c.id)).Nodup) :
    idr_update l id g = l.map (fun c => if c.id = id then g c else c) := by
  induction l with
  | nil => rfl
  | cons c cs ih =>
    rw [List.map_cons, List.nodup_cons] at hnd
    unfold idr_update
    by_cases h : c.id = id
    · have hcs : ∀ x ∈ cs, (if x.id = id then g x else x) = x := by
        intro x hx
        rw [if_neg]
        intro e
        apply hnd.1
        rw [h, ← e]
        exact List.mem_map_of_mem _ hx
      have hmap : cs.map (fun c => if c.id = id then g c else c) = cs := by
        conv_rhs => rw [← List.map_id cs]
        exact List.map_congr_left hcs
      simp only [h, beq_self_eq_true, if_true, List.map_cons, hmap]
    · simp [h, ih hnd.2]

theorem set_max_ts_loop_some (K : ft_consts) :
    ∀ (l : List kgsl_context) (m : Nat → memstore_field → Nat),
      (∀ c ∈ l, c.devctxt ≠ none) → ∃ m2, set_max_ts_loop K l m = some m2 := by
  intro l
  induction l with
  | nil => intro m _; exact ⟨m, rfl⟩
  | cons c cs ih =>
    intro m h
    have hc := h c (List.mem_cons_self _ _)
    have hcs : ∀ x ∈ cs, x.devctxt ≠ none := fun x hx => h x (List.mem_cons_of_mem _ hx)
    unfold set_max_ts_loop
    cases hd : c.devctxt with
    | none => exact absurd hd hc
    | some a =>
      simp only []
      split
      · exact ih _ hcs
      · exact ih _ hcs

theorem reconcile_success (K : ft_consts) (F fuel : Nat) (w : ft_world) (device : kgsl_device)
    (ft_data : adreno_ft_data) (rl : ft_result)
    (hl : adreno_ft_loop K F w fuel 0 device ft_data [] = some rl) (hret : rl.ret = 0)
    (hdev : ∀ c ∈ rl.device.context_idr, c.devctxt ≠ none) :
    ∃ r, adreno_ft_reconcile K F fuel w device ft_data = some r ∧ r.ret = 0 ∧
      r.device.context_idr = rl.device.context_idr := by
  obtain ⟨m2, hm2⟩ := set_max_ts_loop_some K rl.device.context_idr
    (memstore_writel rl.device.memstore K.KGSL_MEMSTORE_GLOBAL
      memstore_field.eoptimestamp rl.device.ringbuffer.global_ts) hdev
  unfold adreno_ft_reconcile
  rw [hl]
  simp only [hret, ne_eq, not_true_eq_false, if_false]
  unfold adreno_set_max_ts_for_bad_ctxs
  by_cases ha : rl.device.drawctxt_active = none
  · simp only [ha, not_true_eq_false, if_false, hm2]
    exact ⟨_, rfl, rfl, rfl⟩
  · simp only [ha, not_false_eq_true, if_true, hm2]
    exact ⟨_, rfl, rfl, rfl⟩

theorem adreno_ft_success (K : ft_consts) (F fuel : Nat) (w : ft_world) (device : kgsl_device)
    (ft_data : adreno_ft_data)
    (hret : (_adreno_ft K (w.run 0) device ft_data).ret = 0)
    (hdev : ∀ c ∈ (_adreno_ft K (w.run 0) device ft_data).device.context_idr,
      c.devctxt ≠ none) :
    ∃ r, adreno_ft K F (fuel + 1) w device ft_data = some r ∧ r.ret = 0 ∧
      r.device.context_idr =
        (_adreno_ft K (w.run 0) device ft_data).device.context_idr.map (mark_context K 0) := by
  have hloop : adreno_ft_loop K F w (fuel + 1) 0 device ft_data [] =
      some { _adreno_ft K (w.run 0) device ft_data with
        trace := [] ++ (_adreno_ft K (w.run 0) device ft_data).trace } := by
    unfold adreno_ft_loop
    simp only []
    rw [if_neg (by rw [hret]; decide)]
  obtain ⟨r, hr, hr0, hidr⟩ := reconcile_success K F (fuel + 1) w device ft_data _ hloop hret hdev
  unfold adreno_ft
  rw [hr]
  refine ⟨_, rfl, hr0, ?_⟩
  simp only [adreno_mark_context_status, hr0, hidr]

theorem idr_update_char (l : List kgsl_context) (id : Nat) (g : kgsl_context → kgsl_context)
    (hnd : (l.map (fun c => c.id)).Nodup) (x : kgsl_context) (hx : x ∈ idr_update l id g) :
    ∃ x0 ∈ l, (x0.id ≠ id ∧ x = x0) ∨ (x0.id = id ∧ x = g x0) := by
  rw [idr_update_eq_map l id g hnd] at hx
  obtain ⟨x0, hx0, he⟩ := List.mem_map.mp hx
  refine ⟨x0, hx0, ?_⟩
  by_cases h : x0.id = id
  · right
    rw [if_pos h] at he
    exact ⟨h, he.symm⟩
  · left
    rw [if_neg h] at he
    exact ⟨h, he.symm⟩

theorem mark_zero_innocent (K : ft_consts) (x : kgsl_context) (b : adreno_context)
    (hr : x.reset_status ≠ K.KGSL_CTX_STAT_GUILTY_CONTEXT_RESET_EXT)
    (hb : x.devctxt = some b)
    (hf : b.flags &&& (K.CTXT_FLAGS_GPU_HANG ||| K.CTXT_FLAGS_GPU_HANG_FT) = 0) :
    (mark_context K 0 x).reset_status = K.KGSL_CTX_STAT_INNOCENT_CONTEXT_RESET_EXT := by
  unfold mark_context
  rw [if_neg (by simp), if_pos (fun e => hr e.symm)]
  simp only [hb]
  rw [if_neg (by rw [hf]; simp)]

theorem mark_zero_guilty (K : ft_consts) (x : kgsl_context) (b : adreno_context)
    (hb : x.devctxt = some b)
    (hf : b.flags &&& (K.CTXT_FLAGS_GPU_HANG ||| K.CTXT_FLAGS_GPU_HANG_FT) ≠ 0) :
    (mark_context K 0 x).reset_status = K.KGSL_CTX_STAT_GUILTY_CONTEXT_RESET_EXT := by
  unfold mark_context
  rw [if_neg (by simp)]
  by_cases hr : K.KGSL_CTX_STAT_GUILTY_CONTEXT_RESET_EXT = x.reset_status
  · rw [if_neg (by simp [hr])]
    exact hr.symm
  · rw [if_pos hr]
    simp only [hb]
    rw [if_pos hf]

theorem replay_success_run (K : ft_consts) (o : ft_oracle) (device : kgsl_device)
    (ft_data : adreno_ft_data) (c : kgsl_context) (a : adreno_context)
    (hget : kgsl_context_get device ft_data.context_id = some c) (hdev : c.devctxt = some a)
    (hn : (a.flags ||| K.CTXT_FLAGS_GPU_HANG) &&& K.CTXT_FLAGS_NO_FAULT_TOLERANCE = 0)
    (hlong : device.long_ib = 0) (hmmu : device.mmu_fault = 0)
    (hdis : ft_data.ft_policy &&& K.KGSL_FT_DISABLE = 0)
    (hrp : ft_data.ft_policy &&& K.KGSL_FT_REPLAY ≠ 0)
    (hrps : resubmit_ret o ft_stage.replay (some c) o.extract.bad_rb_size = 0) :
    ∃ s : ft_state,
      _adreno_ft K o device ft_data = _adreno_ft_play_good_cmds K o rb_ptr.null c none s ∧
      s.device.context_idr = (ft_mark_hung K device c).context_idr ∧
      s.ft_data = ft_apply_extract ft_data o.extract ∧
      resubmits s.trace = [(ft_stage.replay, 0)] := by
  rw [adreno_ft_eq_replay K o device ft_data c a hget hdev hn hlong hmmu hdis]
  unfold _adreno_ft_replay
  have hp : (ft_apply_extract ft_data o.extract).ft_policy = ft_data.ft_policy := rfl
  have hb : (ft_apply_extract ft_data o.extract).bad_rb_buffer = o.extract.bad_rb_buffer := rfl
  have hz : (ft_apply_extract ft_data o.extract).bad_rb_size = o.extract.bad_rb_size := rfl
  simp only [hp, hb, hz]
  rw [if_pos hrp, if_neg (by rw [resubmit_rb_ret, hrps]; simp)]
  refine ⟨_, rfl, ?_, rfl, ?_⟩
  · simp only [resubmit_rb_device]
    rfl
  · have he : resubmits [ft_event.extract rb_ptr.null] = [] := rfl
    simp only [resubmits_append, resubmit_rb_resubmits, he, hrps, List.nil_append]

theorem replay_success_table (K : ft_consts) (o : ft_oracle) (device : kgsl_device)
    (c : kgsl_context) (s : ft_state)
    (hH : K.CTXT_FLAGS_GPU_HANG ≠ 0) (hFT : K.CTXT_FLAGS_GPU_HANG_FT ≠ 0)
    (hnd : (context_ids device).Nodup)
    (hall : ∀ x ∈ device.context_idr, x.devctxt ≠ none)
    (hsd : s.device.context_idr = (ft_mark_hung K device c).context_idr) :
    ∀ x ∈ (_adreno_ft_play_good_cmds K o rb_ptr.null c none s).device.context_idr,
      ∃ x0 ∈ device.context_idr, x.id = x0.id ∧ x.reset_status = x0.reset_status ∧
        (x0.id ≠ c.id → x.devctxt = x0.devctxt) ∧
        (x0.id = c.id → ∃ b, x.devctxt = some b ∧
          b.flags &&& (K.CTXT_FLAGS_GPU_HANG ||| K.CTXT_FLAGS_GPU_HANG_FT) ≠ 0) := by
  intro x hx
  have hnd1 : ((ft_mark_hung K device c).context_idr.map (fun c => c.id)).Nodup := by
    have := ft_mark_hung_ids K device c
    unfold context_ids at this hnd
    rw [this]; exact hnd
  by_cases hst : s.ft_data.status = 0
  · rw [play_good_context_idr_ok K o _ c _ s hst] at hx
    unfold ctx_set_flags at hx
    simp only [hsd] at hx
    obtain ⟨x1, hx1, h1⟩ := idr_update_char _ _ _ hnd1 x hx
    unfold ft_mark_hung at hx1
    obtain ⟨x0, hx0, h0⟩ := idr_update_char _ _ _ hnd x1 hx1
    refine ⟨x0, hx0, ?_⟩
    rcases h0 with ⟨hne, rfl⟩ | ⟨he, rfl⟩
    · rcases h1 with ⟨_, rfl⟩ | ⟨he1, _⟩
      · exact ⟨rfl, rfl, fun _ => rfl, fun e => absurd e hne⟩
      · exact absurd he1 hne
    · rcases h1 with ⟨hne1, _⟩ | ⟨_, rfl⟩
      · exact absurd he hne1
      · refine ⟨rfl, rfl, fun e => absurd he e, fun _ => ?_⟩
        cases hd : x0.devctxt with
        | none => exact absurd hd (hall x0 hx0)
        | some b0 =>
          refine ⟨_, by simp only [hd, Option.map_some']; rfl, ?_⟩
          exact or_and_or_ne_zero _ _ _ hFT
  · rw [play_good_context_idr_failed K o _ c _ s hst, hsd] at hx
    unfold ft_mark_hung at hx
    obtain ⟨x0, hx0, h0⟩ := idr_update_char _ _ _ hnd x hx
    refine ⟨x0, hx0, ?_⟩
    rcases h0 with ⟨hne, rfl⟩ | ⟨he, rfl⟩
    · exact ⟨rfl, rfl, fun _ => rfl, fun e => absurd e hne⟩
    · refine ⟨rfl, rfl, fun e => absurd he e, fun _ => ?_⟩
      cases hd : x0.devctxt with
      | none => exact absurd hd (hall x0 hx0)
      | some b0 =>
        refine ⟨_, by simp only [hd, Option.map_some']; rfl, ?_⟩
        exact or_and_or_ne_zero_left _ _ _ hH

/-- C12: a successful REPLAY episode blames only the offender. If the context
ids of the table are pairwise distinct (idr keys), every context has a device
context, is not marked guilty and carries neither `CTXT_FLAGS_GPU_HANG` nor
`CTXT_FLAGS_GPU_HANG_FT`, the offending context is live and has not opted out,
no long IB and no MMU fault is pending, the policy has `KGSL_FT_REPLAY` and
not `KGSL_FT_DISABLE`, and the resubmissions of REPLAY and of the good segment
return 0 in the first run, then `adreno_ft` returns, its return value is 0,
the table holds the same ids, the offending context's `reset_status` is
`KGSL_CTX_STAT_GUILTY_CONTEXT_RESET_EXT` and every other context's is
`KGSL_CTX_STAT_INNOCENT_CONTEXT_RESET_EXT`. -/
theorem C12_replay_success_blame (K : ft_consts) (F fuel : Nat) (w : ft_world)
    (device : kgsl_device) (ft_data : adreno_ft_data) (c : kgsl_context) (a : adreno_context)
    (hK : flags_disjoint K)
    (hH : K.CTXT_FLAGS_GPU_HANG ≠ 0) (hFT : K.CTXT_FLAGS_GPU_HANG_FT ≠ 0)
    (hnd : (context_ids device).Nodup)
    (hclean : ∀ x ∈ device.context_idr,
      x.reset_status ≠ K.KGSL_CTX_STAT_GUILTY_CONTEXT_RESET_EXT ∧
      ∃ b, x.devctxt = some b ∧
        b.flags &&& (K.CTXT_FLAGS_GPU_HANG ||| K.CTXT_FLAGS_GPU_HANG_FT) = 0)
    (hget : kgsl_context_get device ft_data.context_id = some c) (hdev : c.devctxt = some a)
    (hnoft : a.flags &&& K.CTXT_FLAGS_NO_FAULT_TOLERANCE = 0)
    (hlong : device.long_ib = 0) (hmmu : device.mmu_fault = 0)
    (hdis : ft_data.ft_policy &&& K.KGSL_FT_DISABLE = 0)
    (hrp : ft_data.ft_policy &&& K.KGSL_FT_REPLAY ≠ 0)
    (hrps : resubmit_ret (w.run 0) ft_stage.replay (some c) (w.run 0).extract.bad_rb_size = 0)
    (hgs : resubmit_ret (w.run 0) ft_stage.good (some c) (w.run 0).extract.good_rb_size = 0) :
    ∃ r, adreno_ft K F (fuel + 1) w device ft_data = some r ∧ r.ret = 0 ∧
      context_ids r.device = context_ids device ∧
      ∀ x ∈ r.device.context_idr,
        (x.id = ft_data.context_id →
          x.reset_status = K.KGSL_CTX_STAT_GUILTY_CONTEXT_RESET_EXT) ∧
        (x.id ≠ ft_data.context_id →
          x.reset_status = K.KGSL_CTX_STAT_INNOCENT_CONTEXT_RESET_EXT) := by
  obtain ⟨hK1, _, _, _⟩ := hK
  have hn : (a.flags ||| K.CTXT_FLAGS_GPU_HANG) &&& K.CTXT_FLAGS_NO_FAULT_TOLERANCE = 0 := by
    rw [or_and_disjoint _ _ _ hK1, hnoft]
  have hcid : c.id = ft_data.context_id := (kgsl_context_get_find _ _ _ hget).2
  have hall : ∀ x ∈ device.context_idr, x.devctxt ≠ none := by
    intro x hx e
    obtain ⟨_, b, hb, _⟩ := hclean x hx
    rw [hb] at e
    cases e
  obtain ⟨s, hs, hsd, hsf, _⟩ :=
    replay_success_run K (w.run 0) device ft_data c a hget hdev hn hlong hmmu hdis hrp hrps
  have htab := replay_success_table K (w.run 0) device c s hH hFT hnd hall hsd
  rw [← hs] at htab
  have hret : (_adreno_ft K (w.run 0) device ft_data).ret = 0 := by
    have hg : s.ft_data.good_rb_size = (w.run 0).extract.good_rb_size := by rw [hsf]; rfl
    rw [hs, play_good_ret, hg, hgs]
    rfl
  have hdv : ∀ x ∈ (_adreno_ft K (w.run 0) device ft_data).device.context_idr,
      x.devctxt ≠ none := by
    intro x hx
    obtain ⟨x0, hx0, _, _, h1, h2⟩ := htab x hx
    by_cases he : x0.id = c.id
    · obtain ⟨b, hb, _⟩ := h2 he
      rw [hb]; simp
    · rw [h1 he]; exact hall x0 hx0
  obtain ⟨r, hr, hr0, hidr⟩ := adreno_ft_success K F fuel w device ft_data hret hdv
  refine ⟨r, hr, hr0, ?_, ?_⟩
  · unfold context_ids
    rw [hidr, List.map_map]
    have hm : ((fun c => c.id) ∘ mark_context K 0) = (fun c : kgsl_context => c.id) := by
      funext y
      exact mark_context_id K 0 y
    rw [hm]
    exact adreno_ft_run_ids K (w.run 0) device ft_data
  · intro x hx
    rw [hidr] at hx
    obtain ⟨y, hy, rfl⟩ := List.mem_map.mp hx
    obtain ⟨x0, hx0, hid, hrs, h1, h2⟩ := htab y hy
    obtain ⟨hg0, b0, hb0, hf0⟩ := hclean x0 hx0
    rw [mark_context_id, hid, ← hcid]
    constructor
    · intro he
      obtain ⟨b, hb, hf⟩ := h2 he
      exact mark_zero_guilty K y b hb hf
    · intro he
      exact mark_zero_innocent K y b0 (by rw [hrs]; exact hg0) (by rw [h1 he]; exact hb0) hf0

/-- C12, witness: contexts 1 and 3 clean, context 1 hangs, REPLAY succeeds. -/
theorem C12_replay_success_blame_witness :
    (kgsl_context_get dev_clean_contexts ft_data_default.context_id = some ctx_clean ∧
      ft_data_default.ft_policy &&& msm_consts.KGSL_FT_REPLAY ≠ 0) ∧
    ∃ r, adreno_ft msm_consts 8 1 world_all_ok dev_clean_contexts ft_data_default = some r ∧
      r.ret = 0 ∧
      context_ids r.device = context_ids dev_clean_contexts ∧
      ∀ x ∈ r.device.context_idr,
        (x.id = ft_data_default.context_id →
          x.reset_status = msm_consts.KGSL_CTX_STAT_GUILTY_CONTEXT_RESET_EXT) ∧
        (x.id ≠ ft_data_default.context_id →
          x.reset_status = msm_consts.KGSL_CTX_STAT_INNOCENT_CONTEXT_RESET_EXT) :=
  ⟨⟨rfl, by decide⟩,
    C12_replay_success_blame msm_consts 8 0 world_all_ok dev_clean_contexts ft_data_default
      ctx_clean { flags := 0, timestamp := 5 } (by unfold flags_disjoint; decide)
      (by decide) (by decide) (by decide)
      (by
        intro x hx
        simp only [dev_clean_contexts, List.mem_cons, List.mem_singleton, List.not_mem_nil,
          or_false] at hx
        rcases hx with rfl | rfl
        · exact ⟨by decide, _, rfl, by decide⟩
        · exact ⟨by decide, _, rfl, by decide⟩)
      rfl rfl (by decide) rfl rfl (by decide) (by decide) (by decide) (by decide)⟩

/-- C13, witness: the idle wait after REPLAY times out, SKIP_IB finds the call
of the IB at `0x5000` at word 0 and its resubmission succeeds. -/
theorem C13_success_via_skipib_witness :
    (resubmit_ret oracle_replay_fails ft_stage.replay (some ctx_clean)
        oracle_replay_fails.extract.bad_rb_size ≠ 0 ∧
      (skipib_loop msm_consts ft_data_default.ib1 oracle_replay_fails.extract.bad_rb_size 0
        oracle_replay_fails.extract.bad_rb_buffer).1 = 0) ∧
    (_adreno_ft msm_consts oracle_replay_fails dev_two_contexts ft_data_default).ft_data.status
      = 0 ∧
    resubmits (_adreno_ft msm_consts oracle_replay_fails dev_two_contexts ft_data_default).trace
      = [(ft_stage.replay, -110), (ft_stage.skipib, 0), (ft_stage.good, 0)] ∧
    ctx_flags (_adreno_ft msm_consts oracle_replay_fails dev_two_contexts ft_data_default).device
      ctx_clean.id = some 0x40000 :=
  ⟨⟨by decide, by decide⟩,
    (C13_success_via_skipib msm_consts oracle_replay_fails dev_two_contexts ft_data_default
      ctx_clean { flags := 0, timestamp := 5 } (by unfold flags_disjoint; decide) (by decide)
      rfl rfl (by decide) rfl rfl (by decide) (by decide) (by decide) (by decide) (by decide)
      (by decide) (by decide)).1,
    by decide, by decide⟩


/-! ### Snapshot construction -/

theorem find_start_loop_status (K : ft_consts) (rb : adreno_ringbuffer) (inc : Bool)
    (ptr0 : Nat) :
    ∀ (fuel p : Nat) (r : Int × Nat), find_start_of_cmd_seq_loop K rb inc ptr0 fuel p = some r →
      r.1 = 0 ∨ r.1 = -EINVAL := by
  intro fuel
  induction fuel with
  | zero =>
    intro p r h
    unfold find_start_of_cmd_seq_loop at h
    split at h
    · simp at h
    · simp only [Option.some.injEq] at h
      subst h; right; rfl
  | succ n ih =>
    intro p r h
    unfold find_start_of_cmd_seq_loop at h
    split at h
    · have hstep : (if inc = true then adreno_ringbuffer_inc_wrapped p rb.size
          else adreno_ringbuffer_dec_wrapped p rb.size) = rb_step inc rb.size p := rfl
      simp only [hstep] at h
      split at h
      · simp only [Option.some.injEq] at h
        subst h; left; rfl
      · exact ih _ r h
    · simp only [Option.some.injEq] at h
      subst h; right; rfl

theorem find_start_loop_wf (K : ft_consts) (rb : adreno_ringbuffer) (inc : Bool)
    (ptr0 : Nat) (hs : rb.size % 4 = 0) (hw : rb.wptr < rb.size / 4) :
    ∀ (fuel p q : Nat), p < rb.size → p % 4 = 0 →
      find_start_of_cmd_seq_loop K rb inc ptr0 fuel p = some (0, q) →
      q < rb.size ∧ q % 4 = 0 := by
  intro fuel
  induction fuel with
  | zero =>
    intro p q _ _ h
    unfold find_start_of_cmd_seq_loop at h
    split at h
    · simp at h
    · simp [EINVAL] at h
  | succ n ih =>
    intro p q hp h4 h
    unfold find_start_of_cmd_seq_loop at h
    split at h
    · next hpw =>
      have hstep : (if inc = true then adreno_ringbuffer_inc_wrapped p rb.size
          else adreno_ringbuffer_dec_wrapped p rb.size) = rb_step inc rb.size p := rfl
      simp only [hstep] at h
      obtain ⟨h1, h2, _⟩ := rb_step_wf inc rb.size rb.wptr p hp h4 hs hw hpw
      split at h
      · simp only [Option.some.injEq, Prod.mk.injEq, true_and] at h
        subst h
        split
        · next hne =>
          obtain ⟨h3, h4, _⟩ := rb_step_wf false rb.size rb.wptr _ h1 h2 hs hw hne
          exact ⟨h3, h4⟩
        · exact ⟨h1, h2⟩
      · exact ih _ q h1 h2 h
    · simp [EINVAL] at h

theorem eop_loop_terminates (K : ft_consts) (rb : adreno_ringbuffer) (global_eop : Nat)
    (hs : rb.size % 4 = 0) (hw : rb.wptr < rb.size / 4) :
    ∀ (fuel p : Nat) (val : Nat → Nat) (i : Nat) (check : Bool),
      p < rb.size → p % 4 = 0 →
      (if 4 * rb.wptr < p then p - 4 * rb.wptr else p + rb.size - 4 * rb.wptr) ≤ 4 * fuel →
      ∃ r, find_cmd_seq_after_eop_ts_loop K rb global_eop false fuel p val i check = some r ∧
        (r.1 = 0 ∨ r.1 = -EINVAL) ∧ r.2 < rb.size ∧ r.2 % 4 = 0 := by
  intro fuel
  induction fuel with
  | zero =>
    intro p val i check hp h4 hd
    split at hd <;> omega
  | succ n ih =>
    intro p val i check hp h4 hd
    have hdec := dec_wrapped_eq p rb.size hp h4 hs
    have hq : adreno_ringbuffer_dec_wrapped p rb.size < rb.size ∧
        adreno_ringbuffer_dec_wrapped p rb.size % 4 = 0 := by
      rw [hdec]; split <;> omega
    unfold find_cmd_seq_after_eop_ts_loop
    simp only [Bool.not_false, if_true, Bool.false_eq_true, if_false]
    split
    · exact ⟨_, rfl, Or.inl rfl, hq.1, hq.2⟩
    · split
      · next hne =>
        apply ih _ _ _ _ hq.1 hq.2
        rw [hdec] at hne ⊢
        split_ifs at hd hne ⊢ <;> omega
      · exact ⟨_, rfl, Or.inr rfl, hq.1, hq.2⟩

theorem rb_dist_lt_size (inc : Bool) (size w p : Nat) (hp : p < size) (hw : w < size / 4) :
    rb_dist inc size w p < size := by
  unfold rb_dist
  cases inc
  · simp only [Bool.false_eq_true, if_false]
    split <;> omega
  · simp only [if_true]
    split <;> omega

theorem find_cmd_seq_after_eop_ts_returns (K : ft_consts) (fuel : Nat)
    (rb : adreno_ringbuffer) (rb_rptr global_eop : Nat)
    (hs : rb.size % 4 = 0) (hw : rb.wptr < rb.size / 4) (hfuel : rb.size ≤ 4 * fuel)
    (hp : rb_rptr < rb.size) (h4 : rb_rptr % 4 = 0) :
    ∃ r, _find_cmd_seq_after_eop_ts K fuel rb rb_rptr global_eop false = some r ∧
      (r.1 = 0 ∨ r.1 = -EINVAL) ∧ r.2 < rb.size ∧ r.2 % 4 = 0 := by
  have hd : (if 4 * rb.wptr < rb_rptr then rb_rptr - 4 * rb.wptr
      else rb_rptr + rb.size - 4 * rb.wptr) ≤ 4 * fuel := by
    split <;> omega
  obtain ⟨r, hr, hst, hr1, hr2⟩ :=
    eop_loop_terminates K rb global_eop hs hw fuel rb_rptr (fun _ => 0) 0 false hp h4 hd
  unfold _find_cmd_seq_after_eop_ts
  rw [if_neg (by simp), hr]
  obtain ⟨st, q⟩ := r
  simp only []
  by_cases h0 : st = 0
  · rw [if_pos h0]
    have hdq : rb_dist false rb.size rb.wptr q ≤ 4 * fuel :=
      le_of_lt (lt_of_lt_of_le (rb_dist_lt_size false rb.size rb.wptr q hr1 hw) hfuel)
    obtain ⟨⟨r2, hr2e⟩, _⟩ :=
      find_start_loop_terminates K rb false q hs hw fuel q hr1 hr2 hdq
    unfold _find_start_of_cmd_seq
    rw [hr2e]
    obtain ⟨st2, q2⟩ := r2
    simp only []
    by_cases h2 : st2 = 0
    · rw [if_pos h2]
      subst h2
      obtain ⟨hq1, hq2⟩ := find_start_loop_wf K rb false q hs hw fuel q q2 hr1 hr2 hr2e
      exact ⟨_, rfl, Or.inl rfl, hq1, hq2⟩
    · rw [if_neg h2]
      refine ⟨_, rfl, ?_, hp, h4⟩
      rcases find_start_loop_status K rb false q fuel q _ hr2e with h | h
      · exact absurd h h2
      · exact Or.inr h
  · rw [if_neg h0]
    exact ⟨_, rfl, hst, hp, h4⟩

theorem hanging_ib_loop_terminates (K : ft_consts) (F : Nat) (rb : adreno_ringbuffer)
    (ib1 : Nat) (hs : rb.size % 4 = 0) (hw : rb.wptr < rb.size / 4) (hF : rb.size ≤ 4 * F) :
    ∀ (fuel p : Nat) (val : Nat → Nat) (i : Nat) (check ctx_switch : Bool),
      p < rb.size → p % 4 = 0 → rb_dist true rb.size rb.wptr p ≤ 4 * fuel →
      ∃ r, find_hanging_ib_sequence_loop K F rb ib1 fuel p val i check ctx_switch = some r := by
  intro fuel
  induction fuel with
  | zero =>
    intro p val i check ctx_switch hp h4 hd
    have hpw : p / 4 = rb.wptr := by
      unfold rb_dist at hd
      simp only [if_true] at hd
      split at hd <;> omega
    unfold find_hanging_ib_sequence_loop
    simp [hpw]
  | succ n ih =>
    intro p val i check ctx_switch hp h4 hd
    by_cases hpw : p / 4 = rb.wptr
    · unfold find_hanging_ib_sequence_loop
      simp [hpw]
    · obtain ⟨h1, h2, h3⟩ := rb_step_wf true rb.size rb.wptr p hp h4 hs hw hpw
      have hd2 : rb_dist true rb.size rb.wptr (rb_step true rb.size p) ≤ 4 * n := by omega
      have hstep : adreno_ringbuffer_inc_wrapped p rb.size = rb_step true rb.size p := rfl
      have hdq : rb_dist false rb.size rb.wptr p ≤ 4 * F :=
        le_of_lt (lt_of_lt_of_le (rb_dist_lt_size false rb.size rb.wptr p hp hw) hF)
      have hfs : ∃ r, _find_start_of_cmd_seq K F rb p false = some r :=
        (find_start_loop_terminates K rb false p hs hw F p hp h4 hdq).1
      unfold find_hanging_ib_sequence_loop
      simp only [hpw, ne_eq, not_false_eq_true, if_true, hstep]
      have key : ∀ (c1 c2 : Prop) [Decidable c1] [Decidable c2] (A B C : Option (Int × Nat)),
          (∃ r, A = some r) → (∃ r, B = some r) → (∃ r, C = some r) →
          ∃ r, (if c1 then A else if c2 then B else C) = some r := by
        intro c1 c2 _ _ A B C hA hB hC
        split_ifs <;> assumption
      exact key _ _ _ _ _ hfs ⟨_, rfl⟩ (ih _ _ _ _ _ h1 h2 hd2)

theorem find_hanging_ib_sequence_returns (K : ft_consts) (fuel : Nat)
    (rb : adreno_ringbuffer) (rb_rptr ib1 : Nat)
    (hs : rb.size % 4 = 0) (hw : rb.wptr < rb.size / 4) (hfuel : rb.size ≤ 4 * fuel)
    (hp : rb_rptr < rb.size) (h4 : rb_rptr % 4 = 0) :
    ∃ r, _find_hanging_ib_sequence K fuel rb rb_rptr ib1 = some r := by
  have hd : rb_dist true rb.size rb.wptr rb_rptr ≤ 4 * fuel :=
    le_of_lt (lt_of_lt_of_le (rb_dist_lt_size true rb.size rb.wptr rb_rptr hp hw) hfuel)
  obtain ⟨r, hr⟩ := hanging_ib_loop_terminates K fuel rb ib1 hs hw hfuel fuel rb_rptr
    (fun _ => 0) 0 false false hp h4 hd
  unfold _find_hanging_ib_sequence
  rw [hr]
  obtain ⟨st, q⟩ := r
  simp only []
  split <;> exact ⟨_, rfl⟩

/-- C19: best-effort snapshot. In `adreno_setup_ft_data`, when the three
allocations succeed, the offending context is in the table and its device
context has `CTXT_FLAGS_PREAMBLE`, `ib1` is not 0, the post-completion locator
`_find_cmd_seq_after_eop_ts` returns 0 with offset `p` and
`_find_hanging_ib_sequence` returns a non-zero status, the function returns 0,
`start_of_replay_cmds` is `p`, `replay_for_snapshot` is still `0xFFFFFFFF` and
the three capture buffers are the allocated ones, none freed. -/
theorem C19_best_effort_snapshot (K : ft_consts) (fuel : Nat) (al : alloc_oracle)
    (device : kgsl_device) (b1 b2 b3 : Nat → Nat) (context : kgsl_context)
    (a : adreno_context) (p : Nat) (e : Int) (q : Nat)
    (h1 : al.rb_buffer = some b1) (h2 : al.bad_rb_buffer = some b2)
    (h3 : al.good_rb_buffer = some b3)
    (hctx : idr_find device.context_idr
      (device.memstore K.KGSL_MEMSTORE_GLOBAL memstore_field.current_context) = some context)
    (hdev : context.devctxt = some a)
    (hpre : a.flags &&& K.CTXT_FLAGS_PREAMBLE ≠ 0)
    (hib : device.cp_ib1_base ≠ 0)
    (hpost : _find_cmd_seq_after_eop_ts K fuel device.ringbuffer
      ((device.ringbuffer.wptr * 4) % 2 ^ 32)
      ((device.memstore K.KGSL_MEMSTORE_GLOBAL memstore_field.eoptimestamp + 1) % 2 ^ 32)
      false = some (0, p))
    (hhang : _find_hanging_ib_sequence K fuel device.ringbuffer p device.cp_ib1_base
      = some (e, q))
    (he : e ≠ 0) :
    ∃ d ft, adreno_setup_ft_data K fuel al device = some (0, d, ft) ∧
      ft.start_of_replay_cmds = p ∧ ft.replay_for_snapshot = 0xFFFFFFFF ∧
      ft.rb_buffer_alloc = true ∧ ft.bad_rb_buffer_alloc = true ∧
      ft.good_rb_buffer_alloc = true ∧
      ft.rb_buffer = b1 ∧ ft.bad_rb_buffer = b2 ∧ ft.good_rb_buffer = b3 := by
  unfold adreno_setup_ft_data
  simp only [h1, h2, h3, hctx, hpost, hdev, hhang, ne_eq, not_true_eq_false, if_false, hpre,
    hib, not_false_eq_true, and_self, if_true, he]
  exact ⟨_, _, rfl, rfl, rfl, rfl, rfl, rfl, rfl, rfl, rfl⟩

/-- C20: the error returns of `adreno_setup_ft_data`. For a ring buffer whose
byte size is a multiple of 4 and at most `2^32`, with the write pointer below
`size/4`, enough fuel for one lap of each locator, and a device context behind
the offending context when the table has it, the function returns; the return
value is `-ENOMEM` exactly when one of the three allocations fails, `-EINVAL`
exactly when the allocations succeed, the context id read from the memstore is
in the table and `_find_cmd_seq_after_eop_ts` (for `global_eop + 1`, backward
from the write pointer) returns non-zero, and 0 in every other case, also when
the context id is not in the table. On a non-zero return no capture buffer is
left allocated; on a zero return all three are. -/
theorem C20_setup_ft_data_errors (K : ft_consts) (fuel : Nat) (al : alloc_oracle)
    (device : kgsl_device)
    (hs : device.ringbuffer.size % 4 = 0)
    (hw : device.ringbuffer.wptr < device.ringbuffer.size / 4)
    (hsz : device.ringbuffer.size ≤ 2 ^ 32)
    (hfuel : device.ringbuffer.size ≤ 4 * fuel)
    (hdev : ∀ c, idr_find device.context_idr
        (device.memstore K.KGSL_MEMSTORE_GLOBAL memstore_field.current_context) = some c →
      c.devctxt ≠ none) :
    ∃ ret d ft, adreno_setup_ft_data K fuel al device = some (ret, d, ft) ∧
      (ret = -ENOMEM ↔
        (al.rb_buffer = none ∨ al.bad_rb_buffer = none ∨ al.good_rb_buffer = none)) ∧
      (ret = -EINVAL ↔
        (al.rb_buffer ≠ none ∧ al.bad_rb_buffer ≠ none ∧ al.good_rb_buffer ≠ none ∧
          idr_find device.context_idr
            (device.memstore K.KGSL_MEMSTORE_GLOBAL memstore_field.current_context) ≠ none ∧
          ∃ e q, _find_cmd_seq_after_eop_ts K fuel device.ringbuffer
              ((device.ringbuffer.wptr * 4) % 2 ^ 32)
              ((device.memstore K.KGSL_MEMSTORE_GLOBAL memstore_field.eoptimestamp + 1) % 2 ^ 32)
              false = some (e, q) ∧ e ≠ 0)) ∧
      (ret = 0 ∨ ret = -ENOMEM ∨ ret = -EINVAL) ∧
      (al.rb_buffer ≠ none → al.bad_rb_buffer ≠ none → al.good_rb_buffer ≠ none →
        idr_find device.context_idr
          (device.memstore K.KGSL_MEMSTORE_GLOBAL memstore_field.current_context) = none →
        ret = 0) ∧
      (ret ≠ 0 → ft.rb_buffer_alloc = false ∧ ft.bad_rb_buffer_alloc = false ∧
        ft.good_rb_buffer_alloc = false) ∧
      (ret = 0 → ft.rb_buffer_alloc = true ∧ ft.bad_rb_buffer_alloc = true ∧
        ft.good_rb_buffer_alloc = true) := by
  have hne1 : (-ENOMEM : Int) ≠ -EINVAL := by decide
  have hne2 : (-ENOMEM : Int) ≠ 0 := by decide
  have hne3 : (-EINVAL : Int) ≠ 0 := by decide
  have hne4 : (-EINVAL : Int) ≠ -ENOMEM := by decide
  have hne5 : (0 : Int) ≠ -ENOMEM := by decide
  have hne6 : (0 : Int) ≠ -EINVAL := by decide
  cases h1 : al.rb_buffer with
  | none =>
    refine ⟨-ENOMEM, _, _, by unfold adreno_setup_ft_data; simp only [h1]; rfl, ?_⟩
    simp [hne1, hne2]
  | some b1 =>
  cases h2 : al.bad_rb_buffer with
  | none =>
    refine ⟨-ENOMEM, _, _, by unfold adreno_setup_ft_data; simp only [h1, h2]; rfl, ?_⟩
    simp [hne1, hne2, adreno_destroy_ft_data]
  | some b2 =>
  cases h3 : al.good_rb_buffer with
  | none =>
    refine ⟨-ENOMEM, _, _, by unfold adreno_setup_ft_data; simp only [h1, h2, h3]; rfl, ?_⟩
    simp [hne1, hne2, adreno_destroy_ft_data]
  | some b3 =>
  cases hfind : idr_find device.context_idr
      (device.memstore K.KGSL_MEMSTORE_GLOBAL memstore_field.current_context) with
  | none =>
    refine ⟨0, _, _, by unfold adreno_setup_ft_data; simp only [h1, h2, h3, hfind]; rfl, ?_⟩
    simp [hne5, hne6]
  | some c =>
  have hp : device.ringbuffer.wptr * 4 % 2 ^ 32 < device.ringbuffer.size ∧
      device.ringbuffer.wptr * 4 % 2 ^ 32 % 4 = 0 := by
    have : device.ringbuffer.wptr * 4 < 2 ^ 32 := by omega
    rw [Nat.mod_eq_of_lt this]
    omega
  obtain ⟨r, hr, hst, hr1, hr2⟩ := find_cmd_seq_after_eop_ts_returns K fuel device.ringbuffer
    (device.ringbuffer.wptr * 4 % 2 ^ 32)
    ((device.memstore K.KGSL_MEMSTORE_GLOBAL memstore_field.eoptimestamp + 1) % 2 ^ 32)
    hs hw hfuel hp.1 hp.2
  obtain ⟨st, q⟩ := r
  simp only [] at hst hr1 hr2
  rcases hst with hst | hst
  · subst hst
    cases hd : c.devctxt with
    | none => exact absurd hd (hdev c hfind)
    | some a =>
      by_cases hpre : a.flags &&& K.CTXT_FLAGS_PREAMBLE ≠ 0 ∧ device.cp_ib1_base ≠ 0
      · obtain ⟨r2, hr2e⟩ := find_hanging_ib_sequence_returns K fuel device.ringbuffer q
          device.cp_ib1_base hs hw hfuel hr1 hr2
        obtain ⟨e, q2⟩ := r2
        by_cases he : e ≠ 0
        · refine ⟨0, _, _, by
            unfold adreno_setup_ft_data
            simp only [h1, h2, h3, hfind, hr, hd, ne_eq, not_true_eq_false, if_false]
            rw [if_pos hpre]
            simp only [hr2e]
            rw [if_pos he], ?_⟩
          simp only [hr, Option.some.injEq, Prod.mk.injEq]
          simp [hne5, hne6]
        · refine ⟨0, _, _, by
            unfold adreno_setup_ft_data
            simp only [h1, h2, h3, hfind, hr, hd, ne_eq, not_true_eq_false, if_false]
            rw [if_pos hpre]
            simp only [hr2e]
            rw [if_neg he], ?_⟩
          simp only [hr, Option.some.injEq, Prod.mk.injEq]
          simp [hne5, hne6]
      · refine ⟨0, _, _, by
          unfold adreno_setup_ft_data
          simp only [h1, h2, h3, hfind, hr, hd, ne_eq, not_true_eq_false, if_false]
          rw [if_neg hpre], ?_⟩
        simp only [hr, Option.some.injEq, Prod.mk.injEq]
        simp [hne5, hne6]
  · subst hst
    refine ⟨-EINVAL, _, _, by
      unfold adreno_setup_ft_data
      simp only [h1, h2, h3, hfind, hr]
      rw [if_pos hne3], ?_⟩
    simp only [hr, Option.some.injEq, Prod.mk.injEq]
    simp [hne3, hne4, adreno_destroy_ft_data]

/-- C19, witness: the end-of-pipe write of timestamp 42 and a command marker
are in the ring buffer, the IB at `0x5000` is not. -/
theorem C19_best_effort_snapshot_witness :
    (_find_cmd_seq_after_eop_ts msm_consts 8 dev_preamble.ringbuffer 0 42 false = some (0, 8) ∧
      _find_hanging_ib_sequence msm_consts 8 dev_preamble.ringbuffer 8 0x5000
        = some (-EINVAL, 8)) ∧
    ∃ d ft, adreno_setup_ft_data msm_consts 8 (world_all_ok.alloc 0) dev_preamble
        = some (0, d, ft) ∧
      ft.start_of_replay_cmds = 8 ∧ ft.replay_for_snapshot = 0xFFFFFFFF ∧
      ft.rb_buffer_alloc = true ∧ ft.bad_rb_buffer_alloc = true ∧
      ft.good_rb_buffer_alloc = true ∧
      ft.rb_buffer = (fun _ => 0) ∧ ft.bad_rb_buffer = (fun _ => 0) ∧
      ft.good_rb_buffer = (fun _ => 0) :=
  ⟨⟨rfl, rfl⟩,
    C19_best_effort_snapshot msm_consts 8 (world_all_ok.alloc 0) dev_preamble
      (fun _ => 0) (fun _ => 0) (fun _ => 0) ctx_preamble { flags := 0x20, timestamp := 5 }
      8 (-EINVAL) 8 rfl rfl rfl rfl rfl (by decide) (by decide) rfl rfl (by decide)⟩

/-- C20, witness: the device with the end-of-pipe write in its ring buffer,
with the second allocation failing. -/
theorem C20_setup_ft_data_errors_witness :
    (adreno_setup_ft_data msm_consts 8
        { rb_buffer := some (fun _ => 0), bad_rb_buffer := none, good_rb_buffer := none }
        dev_preamble).map (fun r => (r.1, r.2.2.rb_buffer_alloc)) = some (-ENOMEM, false) ∧
    ∃ ret d ft, adreno_setup_ft_data msm_consts 8
        { rb_buffer := some (fun _ => 0), bad_rb_buffer := none, good_rb_buffer := none }
        dev_preamble = some (ret, d, ft) ∧
      (ret = 0 ∨ ret = -ENOMEM ∨ ret = -EINVAL) ∧
      (ret ≠ 0 → ft.rb_buffer_alloc = false ∧ ft.bad_rb_buffer_alloc = false ∧
        ft.good_rb_buffer_alloc = false) := by
  refine ⟨rfl, ?_⟩
  obtain ⟨ret, d, ft, h, _, _, h3, _, h5, _⟩ := C20_setup_ft_data_errors msm_consts 8
    { rb_buffer := some (fun _ => 0), bad_rb_buffer := none, good_rb_buffer := none }
    dev_preamble (by decide) (by decide) (by decide) (by decide)
    (by
      intro c hc
      have : c = ctx_preamble := by
        have h0 : idr_find dev_preamble.context_idr
          (dev_preamble.memstore msm_consts.KGSL_MEMSTORE_GLOBAL
            memstore_field.current_context) = some ctx_preamble := rfl
        rw [h0] at hc
        exact (Option.some.inj hc).symm
      subst this
      intro h
      cases h)
  exact ⟨ret, d, ft, h, h3, h5⟩


/-! ### Hang detection -/

theorem devctxt_of_update (device : kgsl_device) (id : Nat)
    (f : adreno_context → adreno_context) :
    devctxt_of (devctxt_update device id f) id = (devctxt_of device id).map f := by
  unfold devctxt_of devctxt_update
  simp only []
  rw [idr_find_update]
  · cases idr_find device.context_idr id with
    | none => rfl
    | some c => rfl
  · intro c; rfl

theorem compare_loop_fst (curr prev : Nat → Nat) :
    ∀ (l : List Nat) (s : Bool × Bool),
      (detect_compare_loop curr prev l s).1 = (s.1 && l.all (fun i => decide (curr i = prev i))) := by
  intro l
  induction l with
  | nil => intro s; simp [detect_compare_loop]
  | cons i rest ih =>
    intro s
    unfold detect_compare_loop
    by_cases h : curr i = prev i
    · simp [h, ih]
    · simp [h, ih]

theorem compare_loop_snd (curr prev : Nat → Nat) :
    ∀ (l : List Nat) (s : Bool × Bool),
      (detect_compare_loop curr prev l s).2 =
        (s.2 && l.all (fun i =>
          decide (LONG_IB_DETECT_REG_INDEX_START ≤ i ∧ i ≤ LONG_IB_DETECT_REG_INDEX_END →
            curr i = prev i))) := by
  intro l
  induction l with
  | nil => intro s; simp [detect_compare_loop]
  | cons i rest ih =>
    intro s
    unfold detect_compare_loop
    by_cases h : curr i = prev i
    · simp [h, ih]
    · by_cases hr : LONG_IB_DETECT_REG_INDEX_START ≤ i ∧ i ≤ LONG_IB_DETECT_REG_INDEX_END
      · simp [h, hr, ih]
      · have hr2 : (!decide (LONG_IB_DETECT_REG_INDEX_START ≤ i) ||
            !decide (i ≤ LONG_IB_DETECT_REG_INDEX_END)) = true := by
          rcases not_and_or.mp hr with h1 | h1 <;> simp [h1]
        simp [h, hr, ih, hr2]

theorem compare_fast_iff (curr prev : Nat → Nat) (s : Bool × Bool) :
    (detect_compare_loop curr prev (List.range ft_detect_regs_count) s).1 = true ↔
      s.1 = true ∧ ∀ i, i < ft_detect_regs_count → curr i = prev i := by
  rw [compare_loop_fst]
  simp [List.all_eq_true]

theorem compare_long_iff (curr prev : Nat → Nat) (s : Bool × Bool) :
    (detect_compare_loop curr prev (List.range ft_detect_regs_count) s).2 = true ↔
      s.2 = true ∧ ∀ i, LONG_IB_DETECT_REG_INDEX_START ≤ i → i ≤ LONG_IB_DETECT_REG_INDEX_END →
        curr i = prev i := by
  rw [compare_loop_snd]
  simp only [Bool.and_eq_true, List.all_eq_true, List.mem_range, decide_eq_true_eq, and_imp]
  constructor
  · rintro ⟨h1, h2⟩
    refine ⟨h1, fun i hi1 hi2 => h2 i ?_ hi1 hi2⟩
    unfold LONG_IB_DETECT_REG_INDEX_END at hi2
    unfold ft_detect_regs_count
    omega
  · rintro ⟨h1, h2⟩
    exact ⟨h1, fun i _ hi1 hi2 => h2 i hi1 hi2⟩

theorem writeback_loop_get (curr : Nat → Nat) :
    ∀ (l : List Nat) (prev : Nat → Nat) (i : Nat),
      detect_writeback_loop curr l prev i = if i ∈ l then curr i else prev i := by
  intro l
  induction l with
  | nil => intro prev i; simp [detect_writeback_loop]
  | cons j rest ih =>
    intro prev i
    unfold detect_writeback_loop
    rw [ih]
    by_cases hi : i ∈ rest
    · simp [hi]
    · by_cases hj : i = j
      · subst hj; simp [hi]
      · simp [hi, hj, Function.update_noteq hj]

theorem fall_through_prev (device : kgsl_device) (st : detect_statics)
    (curr prev : Nat → Nat) (i : Nat) :
    (detect_fall_through device st curr prev).prev_reg_val i =
      if i < ft_detect_regs_count then curr i else prev i := by
  unfold detect_fall_through
  simp only [writeback_loop_get, List.mem_range]

theorem resolve_of_resolved (K : ft_consts) (device : kgsl_device) (st : detect_statics)
    (id : Nat) (a : adreno_context) (base : Nat) (h : detect_resolved K device st id a base) :
    ∃ d1 s1, detect_resolve_context K device st = some (d1, s1) ∧
      s1.curr_context = some id ∧
      devctxt_of d1 id = some { a with ib_gpu_time_used := base } ∧
      d1.long_ib = device.long_ib ∧ d1.long_ib_ts = device.long_ib_ts ∧
      s1.prev_global_ts = st.prev_global_ts ∧
      s1.next_hang_detect_time = st.next_hang_detect_time := by
  rcases h with ⟨hc, ⟨c, hf, hid, hd⟩, hb⟩ | ⟨hc, hcc, hd, hb⟩
  · subst hb
    have hid2 := idr_find_id _ _ _ hf
    refine ⟨devctxt_update device c.id (fun a => { a with ib_gpu_time_used := 0 }),
      { st with context := some c.id, curr_context := some c.id }, ?_, ?_, ?_, rfl, rfl, rfl,
      rfl⟩
    · unfold detect_resolve_context
      rw [if_pos hc]
      simp only [hf, hd]
    · simp only [hid]
    · rw [← hid, devctxt_of_update]
      unfold devctxt_of
      rw [hid2, hf]
      simp only [hd]
      rfl
  · subst hb
    refine ⟨device, st, ?_, hcc, ?_, rfl, rfl, rfl, rfl⟩
    · unfold detect_resolve_context
      rw [if_neg hc]
    · rw [hd]

theorem detect_sampling_eq (K : ft_consts) (D : detect_consts) (e : detect_env)
    (device : kgsl_device) (st : detect_statics) (prev : Nat → Nat)
    (hs : detect_samples D e st)
    (hts : device.memstore K.KGSL_MEMSTORE_GLOBAL memstore_field.eoptimestamp
      = st.prev_global_ts) :
    adreno_ft_detect K D e device st prev =
      detect_stalled K D device
        { st with next_hang_detect_time :=
            (e.jiffies + D.msecs_to_jiffies (D.KGSL_TIMEOUT_PART - 1)) % 2 ^ 32 }
        (detect_sample e) prev
        (device.memstore K.KGSL_MEMSTORE_GLOBAL memstore_field.eoptimestamp)
        (if e.fast_hang_detect = 0 then false else true)
        (if e.long_ib_detect = 0 then false else true) := by
  unfold adreno_ft_detect
  simp only [hs.1, Bool.false_eq_true, if_false]
  rw [if_neg hs.2, if_pos hts]

theorem devctxt_of_congr (d1 d2 : kgsl_device) (id : Nat)
    (h : d1.context_idr = d2.context_idr) : devctxt_of d1 id = devctxt_of d2 id := by
  unfold devctxt_of
  rw [h]

theorem devctxt_update_long_ib_ts (d : kgsl_device) (id : Nat)
    (f : adreno_context → adreno_context) :
    (devctxt_update d id f).long_ib_ts = d.long_ib_ts := rfl

theorem devctxt_of_with_long_ib (d : kgsl_device) (x y id : Nat) :
    devctxt_of { d with long_ib := x, long_ib_ts := y } id = devctxt_of d id := rfl

theorem stalled_body_none (K : ft_consts) (D : detect_consts) (device : kgsl_device)
    (st : detect_statics) (curr prev : Nat → Nat) (ts : Nat) (fast long : Bool)
    (hcc : st.curr_context = none) :
    detect_stalled_body K D device st curr prev ts fast long =
      some (detect_fall_through device st curr prev) := by
  unfold detect_stalled_body
  rw [hcc]

theorem stalled_body_cases (K : ft_consts) (D : detect_consts) (device : kgsl_device)
    (st : detect_statics) (curr prev : Nat → Nat) (ts : Nat) (fast long : Bool)
    (id : Nat) (a : adreno_context)
    (hcc : st.curr_context = some id) (hdv : devctxt_of device id = some a) :
    ∃ r, detect_stalled_body K D device st curr prev ts fast long = some r ∧
      r.statics = st ∧
      (r.site = detect_return.fast_hang ∨ r.site = detect_return.long_ib ∨
        r.site = detect_return.fall_through) ∧
      (r.site = detect_return.fast_hang ↔
        (fast = true ∧ ∀ i, i < ft_detect_regs_count → curr i = prev i)) ∧
      (r.site = detect_return.long_ib ↔
        (¬ (fast = true ∧ ∀ i, i < ft_detect_regs_count → curr i = prev i) ∧
          (long = true ∧ ∀ i, LONG_IB_DETECT_REG_INDEX_START ≤ i →
            i ≤ LONG_IB_DETECT_REG_INDEX_END → curr i = prev i) ∧
          a.flags &&& K.CTXT_FLAGS_NO_FAULT_TOLERANCE = 0 ∧
          ((a.ib_gpu_time_used + D.KGSL_TIMEOUT_PART) % 2 ^ 32 + D.KGSL_TIMEOUT_PART) % 2 ^ 32
            > D.KGSL_TIMEOUT_LONG_IB_DETECTION ∧
          device.long_ib_ts ≠ ts)) ∧
      (r.site = detect_return.fast_hang →
        r.ret = 1 ∧ r.prev_reg_val = prev ∧ r.device.long_ib = device.long_ib ∧
          r.device.long_ib_ts = device.long_ib_ts) ∧
      (r.site = detect_return.long_ib →
        r.ret = 1 ∧ r.prev_reg_val = prev ∧ r.device.long_ib = 1 ∧
          r.device.long_ib_ts = ts ∧
          devctxt_of r.device id = some { a with ib_gpu_time_used := 0 }) ∧
      (r.site = detect_return.fall_through →
        r.ret = 0 ∧
          (∀ i, r.prev_reg_val i = if i < ft_detect_regs_count then curr i else prev i) ∧
          r.device.long_ib = device.long_ib ∧ r.device.long_ib_ts = device.long_ib_ts) := by
  have hfi := compare_fast_iff curr prev (fast, long)
  have hli := compare_long_iff curr prev (fast, long)
  simp only [] at hfi hli
  unfold detect_stalled_body
  rw [hcc]
  simp only [hdv]
  by_cases h1 : (detect_compare_loop curr prev (List.range ft_detect_regs_count)
      (fast, long)).1 = true
  · rw [if_pos h1]
    refine ⟨_, rfl, rfl, Or.inl rfl, ?_, ?_, ?_, ?_, ?_⟩
    · exact ⟨fun _ => hfi.mp h1, fun _ => rfl⟩
    · constructor
      · intro h; cases h
      · intro h; exact absurd (hfi.mp h1) h.1
    · intro _; exact ⟨rfl, rfl, rfl, rfl⟩
    · intro h; cases h
    · intro h; cases h
  · rw [if_neg h1]
    have hnf : ¬ (fast = true ∧ ∀ i, i < ft_detect_regs_count → curr i = prev i) :=
      fun h => h1 (hfi.mpr h)
    by_cases h2 : (detect_compare_loop curr prev (List.range ft_detect_regs_count)
        (fast, long)).2 = true ∧ a.flags &&& K.CTXT_FLAGS_NO_FAULT_TOLERANCE = 0
    · rw [if_pos h2]
      simp only [devctxt_update_long_ib_ts]
      by_cases h3 : ((a.ib_gpu_time_used + D.KGSL_TIMEOUT_PART) % 2 ^ 32
            + D.KGSL_TIMEOUT_PART) % 2 ^ 32 > D.KGSL_TIMEOUT_LONG_IB_DETECTION ∧
          device.long_ib_ts ≠ ts
      · rw [if_pos h3]
        refine ⟨_, rfl, rfl, Or.inr (Or.inl rfl), ?_, ?_, ?_, ?_, ?_⟩
        · constructor
          · intro h; cases h
          · intro h; exact absurd h hnf
        · exact ⟨fun _ => ⟨hnf, hli.mp h2.1, h2.2, h3.1, h3.2⟩, fun _ => rfl⟩
        · intro h; cases h
        · intro _
          refine ⟨rfl, rfl, rfl, rfl, ?_⟩
          rw [devctxt_of_update, devctxt_of_with_long_ib, devctxt_of_update, devctxt_of_update,
            hdv]
          rfl
        · intro h; cases h
      · rw [if_neg h3]
        refine ⟨_, rfl, rfl, Or.inr (Or.inr rfl), ?_, ?_, ?_, ?_, ?_⟩
        · constructor
          · intro h; cases h
          · intro h; exact absurd h hnf
        · constructor
          · intro h; cases h
          · intro h; exact absurd ⟨h.2.2.2.1, h.2.2.2.2⟩ h3
        · intro h; cases h
        · intro h; cases h
        · intro _
          exact ⟨rfl, fun i => fall_through_prev _ _ _ _ i, rfl, rfl⟩
    · rw [if_neg h2]
      refine ⟨_, rfl, rfl, Or.inr (Or.inr rfl), ?_, ?_, ?_, ?_, ?_⟩
      · constructor
        · intro h; cases h
        · intro h; exact absurd h hnf
      · constructor
        · intro h; cases h
        · intro h; exact absurd ⟨hli.mpr h.2.1, h.2.2.1⟩ h2
      · intro h; cases h
      · intro h; cases h
      · intro _
        exact ⟨rfl, fun i => fall_through_prev _ _ _ _ i, rfl, rfl⟩


theorem stalled_of_resolved (K : ft_consts) (D : detect_consts) (device : kgsl_device)
    (st : detect_statics) (curr prev : Nat → Nat) (ts : Nat) (fast long : Bool)
    (id : Nat) (a : adreno_context) (base : Nat) (h : detect_resolved K device st id a base) :
    ∃ d1 s1, detect_stalled K D device st curr prev ts fast long =
        detect_stalled_body K D d1 s1 curr prev ts fast long ∧
      s1.curr_context = some id ∧
      devctxt_of d1 id = some { a with ib_gpu_time_used := base } ∧
      d1.long_ib = device.long_ib ∧ d1.long_ib_ts = device.long_ib_ts := by
  obtain ⟨d1, s1, hr, h1, h2, h3, h4, _, _⟩ := resolve_of_resolved K device st id a base h
  refine ⟨d1, s1, ?_, h1, h2, h3, h4⟩
  unfold detect_stalled
  rw [hr]

theorem resolve_of_pointers_ok (K : ft_consts) (device : kgsl_device) (st : detect_statics)
    (h : detect_pointers_ok K device st) :
    ∃ d1 s1, detect_resolve_context K device st = some (d1, s1) ∧
      (s1.curr_context = none ∨
        ∃ id a, s1.curr_context = some id ∧ devctxt_of d1 id = some a) := by
  obtain ⟨hn, hs⟩ := h
  have hcur : ∀ (d : kgsl_device) (s : detect_statics),
      (∀ id, s.curr_context = some id → devctxt_of d id ≠ none) →
      (s.curr_context = none ∨ ∃ id a, s.curr_context = some id ∧ devctxt_of d id = some a) := by
    intro d s hd
    cases hc : s.curr_context with
    | none => exact Or.inl rfl
    | some id =>
      right
      cases hv : devctxt_of d id with
      | none => exact absurd hv (hd id hc)
      | some a => exact ⟨id, a, rfl, hv⟩
  by_cases hc : st.context = none
  · have hn2 := hn hc
    cases hf : idr_find device.context_idr
        (device.memstore K.KGSL_MEMSTORE_GLOBAL memstore_field.current_context) with
    | none =>
      rw [hf] at hn2
      refine ⟨device, { st with context := none }, ?_,
        hcur device { st with context := none } hn2⟩
      unfold detect_resolve_context
      rw [if_pos hc]
      simp only [hf]
    | some c =>
      rw [hf] at hn2
      simp only [] at hn2
      cases hd : c.devctxt with
      | none => exact absurd hd hn2
      | some a =>
        refine ⟨devctxt_update device c.id (fun a => { a with ib_gpu_time_used := 0 }),
          { st with context := some c.id, curr_context := some c.id }, ?_,
          Or.inr ⟨c.id, { a with ib_gpu_time_used := 0 }, rfl, ?_⟩⟩
        · unfold detect_resolve_context
          rw [if_pos hc]
          simp only [hf, hd]
        rw [devctxt_of_update]
        unfold devctxt_of
        rw [idr_find_id _ _ _ hf, hf]
        simp only [hd]
        rfl
  · unfold detect_resolve_context
    rw [if_neg hc]
    exact ⟨_, _, rfl, hcur device st (hs hc)⟩

theorem resolve_fresh (K : ft_consts) (device : kgsl_device) (st : detect_statics)
    (hc : st.context = none) (hcc : st.curr_context = none)
    (d : kgsl_device) (s : detect_statics) (id : Nat)
    (h : detect_resolve_context K device st = some (d, s)) (hid : s.curr_context = some id) :
    ∃ a, devctxt_of d id = some a ∧ a.ib_gpu_time_used = 0 := by
  unfold detect_resolve_context at h
  rw [if_pos hc] at h
  cases hf : idr_find device.context_idr
      (device.memstore K.KGSL_MEMSTORE_GLOBAL memstore_field.current_context) with
  | none =>
    simp only [hf, Option.some.injEq, Prod.mk.injEq] at h
    obtain ⟨_, h2⟩ := h
    subst h2
    rw [hcc] at hid
    cases hid
  | some c =>
    cases hd : c.devctxt with
    | none => simp only [hf, hd] at h; cases h
    | some a =>
      simp only [hf, hd, Option.some.injEq, Prod.mk.injEq] at h
      obtain ⟨h1, h2⟩ := h
      subst h1 h2
      simp only [Option.some.injEq] at hid
      subst hid
      refine ⟨{ a with ib_gpu_time_used := 0 }, ?_, rfl⟩
      rw [devctxt_of_update]
      unfold devctxt_of
      rw [idr_find_id _ _ _ hf, hf]
      simp only [hd]
      rfl

/-- C14: fast-hang detection in `adreno_ft_detect`. On a call that samples
(status register not idle, rate limit not in force) with fast-hang detection
enabled, when the global end-of-pipe timestamp equals `prev_global_ts` and the
current context is resolved (looked up by this call, or cached), the function
returns; if every one of the `ft_detect_regs_count` sampled values equals the
value in `prev_reg_val` it returns 1 through the fast-hang `return`; if one
of them differs it does not return through the fast-hang `return`, and a
return value of 1 then comes from the long-IB `return` with `long_ib` set. -/
theorem C14_fast_hang_detect (K : ft_consts) (D : detect_consts) (e : detect_env)
    (device : kgsl_device) (st : detect_statics) (prev : Nat → Nat)
    (id : Nat) (a : adreno_context) (base : Nat)
    (hs : detect_samples D e st) (hfast : e.fast_hang_detect ≠ 0)
    (hts : device.memstore K.KGSL_MEMSTORE_GLOBAL memstore_field.eoptimestamp
      = st.prev_global_ts)
    (hres : detect_resolved K device st id a base) :
    ∃ r, adreno_ft_detect K D e device st prev = some r ∧
      ((∀ i, i < ft_detect_regs_count → detect_sample e i = prev i) →
        r.ret = 1 ∧ r.site = detect_return.fast_hang) ∧
      ((∃ i, i < ft_detect_regs_count ∧ detect_sample e i ≠ prev i) →
        r.site ≠ detect_return.fast_hang ∧
        (r.ret = 1 → r.site = detect_return.long_ib ∧ r.device.long_ib = 1)) := by
  rw [detect_sampling_eq K D e device st prev hs hts]
  obtain ⟨d1, s1, heq, hcc, hdv, _, _⟩ := stalled_of_resolved K D device
    { st with next_hang_detect_time :=
        (e.jiffies + D.msecs_to_jiffies (D.KGSL_TIMEOUT_PART - 1)) % 2 ^ 32 }
    (detect_sample e) prev
    (device.memstore K.KGSL_MEMSTORE_GLOBAL memstore_field.eoptimestamp)
    (if e.fast_hang_detect = 0 then false else true)
    (if e.long_ib_detect = 0 then false else true) id a base hres
  rw [heq]
  obtain ⟨r, hr, _, hsite, hf, _, hfr, hlr, hft⟩ := stalled_body_cases K D d1 s1
    (detect_sample e) prev
    (device.memstore K.KGSL_MEMSTORE_GLOBAL memstore_field.eoptimestamp)
    (if e.fast_hang_detect = 0 then false else true)
    (if e.long_ib_detect = 0 then false else true) id _ hcc hdv
  rw [if_neg hfast] at hf
  refine ⟨r, hr, ?_, ?_⟩
  · intro hall
    have hsf := hf.mpr ⟨rfl, hall⟩
    exact ⟨(hfr hsf).1, hsf⟩
  · rintro ⟨i, hi, hne⟩
    have hnf : r.site ≠ detect_return.fast_hang := fun h => hne ((hf.mp h).2 i hi)
    refine ⟨hnf, fun h1 => ?_⟩
    rcases hsite with h | h | h
    · exact absurd h hnf
    · exact ⟨h, (hlr h).2.2.1⟩
    · rw [(hft h).1] at h1
      cases h1

/-- C16: the rate limit of `adreno_ft_detect`. When the status register is
not idle, `next_hang_detect_time` is not 0 and `jiffies` is before it, the
function returns 0 and leaves everything as it was: the device (with the
context table, hence every `ib_gpu_time_used`, and `long_ib`, `long_ib_ts`),
the statics (`next_hang_detect_time`, `prev_global_ts`, the cached context
pointers) and the caller's buffer `prev_reg_val`; no register is written. -/
theorem C16_rate_limit (K : ft_consts) (D : detect_consts) (e : detect_env)
    (device : kgsl_device) (st : detect_statics) (prev : Nat → Nat)
    (hidle : is_adreno_rbbm_status_idle e = false)
    (hnz : st.next_hang_detect_time ≠ 0)
    (hbefore : D.time_before e.jiffies st.next_hang_detect_time = true) :
    adreno_ft_detect K D e device st prev =
      some { ret := 0, site := detect_return.rate_limit, device := device, statics := st,
             prev_reg_val := prev, regwrites := [] } := by
  unfold adreno_ft_detect
  simp only [hidle, Bool.false_eq_true, if_false]
  rw [if_pos ⟨hnz, hbefore⟩]

/-- C17: the progress branch of `adreno_ft_detect`. On a call that samples
and finds the global end-of-pipe timestamp different from `prev_global_ts`,
the function returns 0, clears the cached pointers `context` and
`curr_context`, sets `long_ib` and `long_ib_ts` to 0 and `prev_global_ts` to
the sampled timestamp, and writes the sample to `prev_reg_val`. The context
table is left as it is, so no `ib_gpu_time_used` is reset by this call; with
the pointers cleared, the next call that resolves a context sets that
context's `ib_gpu_time_used` to 0 before it adds to it. -/
theorem C17_progress_branch (K : ft_consts) (D : detect_consts) (e : detect_env)
    (device : kgsl_device) (st : detect_statics) (prev : Nat → Nat)
    (hs : detect_samples D e st)
    (hts : device.memstore K.KGSL_MEMSTORE_GLOBAL memstore_field.eoptimestamp
      ≠ st.prev_global_ts) :
    ∃ r, adreno_ft_detect K D e device st prev = some r ∧
      r.ret = 0 ∧ r.statics.context = none ∧ r.statics.curr_context = none ∧
      r.statics.prev_global_ts =
        device.memstore K.KGSL_MEMSTORE_GLOBAL memstore_field.eoptimestamp ∧
      r.device.long_ib = 0 ∧ r.device.long_ib_ts = 0 ∧
      (∀ i, i < ft_detect_regs_count → r.prev_reg_val i = detect_sample e i) ∧
      r.device.context_idr = device.context_idr ∧
      (∀ (device2 d : kgsl_device) (s : detect_statics) (id : Nat),
        detect_resolve_context K device2 r.statics = some (d, s) →
        s.curr_context = some id →
        ∃ a, devctxt_of d id = some a ∧ a.ib_gpu_time_used = 0) := by
  unfold adreno_ft_detect
  simp only [hs.1, Bool.false_eq_true, if_false]
  rw [if_neg hs.2, if_neg hts]
  refine ⟨_, rfl, rfl, rfl, rfl, rfl, rfl, rfl, ?_, rfl, ?_⟩
  · intro i hi
    rw [fall_through_prev, if_pos hi]
  · intro device2 d s id h hid
    exact resolve_fresh K device2 _ rfl rfl d s id h hid

/-- C15: the write-back of `prev_reg_val`. On a call of `adreno_ft_detect`
that samples, with no `NULL` or stale context pointer in the stalled branch,
the function returns through one of its last three `return` statements, and
returns 0 exactly through the last one. Unless it returns through the long-IB
`return`, the first `ft_detect_regs_count` entries of `prev_reg_val` hold the
values sampled by this call on return; on both `return 1` paths the buffer is
not written, so after the long-IB `return` it holds what it held before. -/
theorem C15_prev_reg_val_writeback (K : ft_consts) (D : detect_consts) (e : detect_env)
    (device : kgsl_device) (st : detect_statics) (prev : Nat → Nat)
    (hs : detect_samples D e st)
    (hptr : device.memstore K.KGSL_MEMSTORE_GLOBAL memstore_field.eoptimestamp
      = st.prev_global_ts → detect_pointers_ok K device st) :
    ∃ r, adreno_ft_detect K D e device st prev = some r ∧
      (r.site = detect_return.fall_through ∨ r.site = detect_return.fast_hang ∨
        r.site = detect_return.long_ib) ∧
      (r.ret = 0 ↔ r.site = detect_return.fall_through) ∧
      (r.site ≠ detect_return.long_ib →
        ∀ i, i < ft_detect_regs_count → r.prev_reg_val i = detect_sample e i) ∧
      (r.site ≠ detect_return.fall_through → r.prev_reg_val = prev) ∧
      (∀ i, ft_detect_regs_count ≤ i → r.prev_reg_val i = prev i) := by
  have hft : ∀ (d : kgsl_device) (s : detect_statics),
      (detect_fall_through d s (detect_sample e) prev).site = detect_return.fall_through ∧
      (detect_fall_through d s (detect_sample e) prev).ret = 0 ∧
      (∀ i, i < ft_detect_regs_count →
        (detect_fall_through d s (detect_sample e) prev).prev_reg_val i = detect_sample e i) ∧
      (∀ i, ft_detect_regs_count ≤ i →
        (detect_fall_through d s (detect_sample e) prev).prev_reg_val i = prev i) := by
    intro d s
    refine ⟨rfl, rfl, fun i hi => ?_, fun i hi => ?_⟩
    · rw [fall_through_prev, if_pos hi]
    · rw [fall_through_prev, if_neg (by omega)]
  by_cases hts : device.memstore K.KGSL_MEMSTORE_GLOBAL memstore_field.eoptimestamp
      = st.prev_global_ts
  · rw [detect_sampling_eq K D e device st prev hs hts]
    obtain ⟨d1, s1, hres, hcur⟩ := resolve_of_pointers_ok K device
      { st with next_hang_detect_time :=
          (e.jiffies + D.msecs_to_jiffies (D.KGSL_TIMEOUT_PART - 1)) % 2 ^ 32 } (hptr hts)
    unfold detect_stalled
    rw [hres]
    simp only []
    rcases hcur with hcc | ⟨id, a, hcc, hdv⟩
    · rw [stalled_body_none K D d1 s1 _ _ _ _ _ hcc]
      obtain ⟨h1, h2, h3, h4⟩ := hft d1 s1
      refine ⟨_, rfl, Or.inl h1, ⟨fun _ => h1, fun _ => h2⟩, fun _ => h3, ?_, h4⟩
      intro h; exact absurd h1 h
    · obtain ⟨r, hr, _, hsite, hf, _, hfr, hlr, hfl⟩ := stalled_body_cases K D d1 s1
        (detect_sample e) prev
        (device.memstore K.KGSL_MEMSTORE_GLOBAL memstore_field.eoptimestamp)
        (if e.fast_hang_detect = 0 then false else true)
        (if e.long_ib_detect = 0 then false else true) id a hcc hdv
      refine ⟨r, hr, ?_, ?_, ?_, ?_, ?_⟩
      · rcases hsite with h | h | h
        · exact Or.inr (Or.inl h)
        · exact Or.inr (Or.inr h)
        · exact Or.inl h
      · constructor
        · intro h0
          rcases hsite with h | h | h
          · rw [(hfr h).1] at h0; cases h0
          · rw [(hlr h).1] at h0; cases h0
          · exact h
        · intro h
          exact (hfl h).1
      · intro hnl i hi
        rcases hsite with h | h | h
        · rw [(hfr h).2.1]
          exact ((hf.mp h).2 i hi).symm
        · exact absurd h hnl
        · rw [(hfl h).2.1 i, if_pos hi]
      · intro hnf
        rcases hsite with h | h | h
        · exact (hfr h).2.1
        · exact (hlr h).2.1
        · exact absurd h hnf
      · intro i hi
        rcases hsite with h | h | h
        · rw [(hfr h).2.1]
        · rw [(hlr h).2.1]
        · rw [(hfl h).2.1 i, if_neg (by omega)]
  · unfold adreno_ft_detect
    simp only [hs.1, Bool.false_eq_true, if_false]
    rw [if_neg hs.2, if_neg hts]
    obtain ⟨h1, h2, h3, h4⟩ := hft { device with long_ib := 0, long_ib_ts := 0 }
      { st with
        next_hang_detect_time :=
          (e.jiffies + D.msecs_to_jiffies (D.KGSL_TIMEOUT_PART - 1)) % 2 ^ 32,
        prev_global_ts := device.memstore K.KGSL_MEMSTORE_GLOBAL memstore_field.eoptimestamp,
        context := none, curr_context := none }
    refine ⟨_, rfl, Or.inl h1, ⟨fun _ => h1, fun _ => h2⟩, fun _ => h3, ?_, h4⟩
    intro h; exact absurd h1 h

/-- C18: the long-IB declaration of `adreno_ft_detect`. On a call that
samples with long-IB detection enabled, the global end-of-pipe timestamp equal
to `prev_global_ts` and a resolved current context without
`CTXT_FLAGS_NO_FAULT_TOLERANCE`, the function returns. If no fast hang is
found (fast-hang detection is off or a sampled register differs from
`prev_reg_val`), the registers at indices `LONG_IB_DETECT_REG_INDEX_START` to
`LONG_IB_DETECT_REG_INDEX_END` are unchanged, the accumulated time after the
two additions of `KGSL_TIMEOUT_PART` this call makes exceeds
`KGSL_TIMEOUT_LONG_IB_DETECTION` and `long_ib_ts` differs from the timestamp,
it returns 1 with `long_ib = 1`, `long_ib_ts` the timestamp and the
accumulated time 0. If a register at one of those indices changed it returns 0
and leaves `long_ib` and `long_ib_ts` as they were. -/
theorem C18_long_ib_declared (K : ft_consts) (D : detect_consts) (e : detect_env)
    (device : kgsl_device) (st : detect_statics) (prev : Nat → Nat)
    (id : Nat) (a : adreno_context) (base : Nat)
    (hs : detect_samples D e st) (hlong : e.long_ib_detect ≠ 0)
    (hts : device.memstore K.KGSL_MEMSTORE_GLOBAL memstore_field.eoptimestamp
      = st.prev_global_ts)
    (hres : detect_resolved K device st id a base)
    (hnoft : a.flags &&& K.CTXT_FLAGS_NO_FAULT_TOLERANCE = 0) :
    ∃ r, adreno_ft_detect K D e device st prev = some r ∧
      ((e.fast_hang_detect = 0 ∨
          ∃ i, i < ft_detect_regs_count ∧ detect_sample e i ≠ prev i) →
        (∀ i, LONG_IB_DETECT_REG_INDEX_START ≤ i → i ≤ LONG_IB_DETECT_REG_INDEX_END →
          detect_sample e i = prev i) →
        ((base + D.KGSL_TIMEOUT_PART) % 2 ^ 32 + D.KGSL_TIMEOUT_PART) % 2 ^ 32
          > D.KGSL_TIMEOUT_LONG_IB_DETECTION →
        device.long_ib_ts ≠
          device.memstore K.KGSL_MEMSTORE_GLOBAL memstore_field.eoptimestamp →
        r.ret = 1 ∧ r.site = detect_return.long_ib ∧ r.device.long_ib = 1 ∧
          r.device.long_ib_ts =
            device.memstore K.KGSL_MEMSTORE_GLOBAL memstore_field.eoptimestamp ∧
          ∃ a2, devctxt_of r.device id = some a2 ∧ a2.ib_gpu_time_used = 0) ∧
      ((∃ i, LONG_IB_DETECT_REG_INDEX_START ≤ i ∧ i ≤ LONG_IB_DETECT_REG_INDEX_END ∧
          detect_sample e i ≠ prev i) →
        r.ret = 0 ∧ r.site = detect_return.fall_through ∧
          r.device.long_ib = device.long_ib ∧ r.device.long_ib_ts = device.long_ib_ts) := by
  rw [detect_sampling_eq K D e device st prev hs hts]
  obtain ⟨d1, s1, heq, hcc, hdv, hl1, hl2⟩ := stalled_of_resolved K D device
    { st with next_hang_detect_time :=
        (e.jiffies + D.msecs_to_jiffies (D.KGSL_TIMEOUT_PART - 1)) % 2 ^ 32 }
    (detect_sample e) prev
    (device.memstore K.KGSL_MEMSTORE_GLOBAL memstore_field.eoptimestamp)
    (if e.fast_hang_detect = 0 then false else true)
    (if e.long_ib_detect = 0 then false else true) id a base hres
  rw [heq]
  obtain ⟨r, hr, _, hsite, hf, hl, hfr, hlr, hft⟩ := stalled_body_cases K D d1 s1
    (detect_sample e) prev
    (device.memstore K.KGSL_MEMSTORE_GLOBAL memstore_field.eoptimestamp)
    (if e.fast_hang_detect = 0 then false else true)
    (if e.long_ib_detect = 0 then false else true) id _ hcc hdv
  rw [if_neg hlong] at hl
  simp only [] at hl
  refine ⟨r, hr, ?_, ?_⟩
  · intro hnofast hsame htime hlts
    have hnf : ¬ ((if e.fast_hang_detect = 0 then false else true) = true ∧
        ∀ i, i < ft_detect_regs_count → detect_sample e i = prev i) := by
      rintro ⟨h1, h2⟩
      rcases hnofast with h0 | ⟨i, hi, hne⟩
      · rw [if_pos h0] at h1; cases h1
      · exact hne (h2 i hi)
    have hsl : r.site = detect_return.long_ib :=
      hl.mpr ⟨hnf, ⟨trivial, hsame⟩, hnoft, htime, by rw [hl2]; exact hlts⟩
    obtain ⟨h1, _, h3, h4, h5⟩ := hlr hsl
    exact ⟨h1, hsl, h3, h4, _, h5, rfl⟩
  · rintro ⟨i, hi1, hi2, hne⟩
    have hi : i < ft_detect_regs_count := by
      unfold LONG_IB_DETECT_REG_INDEX_END at hi2
      unfold ft_detect_regs_count
      omega
    have hsf : r.site = detect_return.fall_through := by
      rcases hsite with h | h | h
      · exact absurd ((hf.mp h).2 i hi) hne
      · exact absurd ((hl.mp h).2.1.2 i hi1 hi2) hne
      · exact h
    obtain ⟨h1, _, h3, h4⟩ := hft hsf
    exact ⟨h1, hsf, by rw [h3, hl1], by rw [h4, hl2]⟩

/-- C15, counterexample: context 1 is cached with 1950 ms accumulated, the
status register moved (index 0: 9 before, 7 now) and the registers 1 to 5 did
not; the call returns 1 through the long-IB `return` and `prev_reg_val[0]`
still holds 9, not the sampled 7. -/
theorem C15_long_ib_counterexample :
    (adreno_ft_detect msm_consts msm_detect_consts env_busy dev_busy (statics_cached 41)
        prev_regs_status_moved).map
      (fun r => (r.ret, r.site, r.prev_reg_val 0, detect_sample env_busy 0)) =
    some (1, detect_return.long_ib, 9, 7) := by
  rfl

/-- C17, counterexample: context 1 is cached with 1950 ms accumulated and the
global timestamp moved from 40 to 41; the call returns 0 through the progress
branch and the accumulated time of context 1 is still 1950. -/
theorem C17_time_not_reset_counterexample :
    (adreno_ft_detect msm_consts msm_detect_consts env_busy dev_busy (statics_cached 40)
        prev_regs_same).map
      (fun r => (r.ret, r.site, r.statics.curr_context,
        (devctxt_of r.device 1).map (fun a => a.ib_gpu_time_used))) =
    some (0, detect_return.fall_through, none, some 1950) := by
  rfl

/-- C14, witness: context 1 cached, timestamp 41 unchanged, all twelve
values unchanged. -/
theorem C14_fast_hang_detect_witness :
    (detect_samples msm_detect_consts env_busy (statics_cached 41) ∧
      ∀ i, i < ft_detect_regs_count → detect_sample env_busy i = prev_regs_same i) ∧
    ∃ r, adreno_ft_detect msm_consts msm_detect_consts env_busy dev_busy (statics_cached 41)
        prev_regs_same = some r ∧ r.ret = 1 ∧ r.site = detect_return.fast_hang := by
  have hall : ∀ i, i < ft_detect_regs_count → detect_sample env_busy i = prev_regs_same i := by
    decide
  have hs : detect_samples msm_detect_consts env_busy (statics_cached 41) :=
    ⟨rfl, fun h => h.1 rfl⟩
  obtain ⟨r, hr, h1, _⟩ := C14_fast_hang_detect msm_consts msm_detect_consts env_busy
    dev_busy (statics_cached 41) prev_regs_same 1
    { flags := 0, timestamp := 5, ib_gpu_time_used := 1950 } 1950 hs (by decide) rfl
    (Or.inr ⟨by decide, rfl, rfl, rfl⟩)
  exact ⟨⟨hs, hall⟩, r, hr, h1 hall⟩

/-- C15, witness: the call of the counterexample; the buffer is unchanged. -/
theorem C15_prev_reg_val_writeback_witness :
    detect_samples msm_detect_consts env_busy (statics_cached 41) ∧
    ∃ r, adreno_ft_detect msm_consts msm_detect_consts env_busy dev_busy (statics_cached 41)
        prev_regs_status_moved = some r ∧
      (r.ret = 0 ↔ r.site = detect_return.fall_through) ∧
      (r.site ≠ detect_return.long_ib →
        ∀ i, i < ft_detect_regs_count → r.prev_reg_val i = detect_sample env_busy i) ∧
      (r.site ≠ detect_return.fall_through → r.prev_reg_val = prev_regs_status_moved) := by
  have hs : detect_samples msm_detect_consts env_busy (statics_cached 41) :=
    ⟨rfl, fun h => h.1 rfl⟩
  have hp : detect_pointers_ok msm_consts dev_busy (statics_cached 41) := by
    refine ⟨fun h => absurd h (by decide), fun _ id hid => ?_⟩
    have h1 : id = 1 := (Option.some.inj hid).symm
    subst h1
    have h2 : devctxt_of dev_busy 1 =
        some { flags := 0, timestamp := 5, ib_gpu_time_used := 1950 } := rfl
    rw [h2]
    simp
  obtain ⟨r, hr, _, h2, h3, h4, _⟩ := C15_prev_reg_val_writeback msm_consts msm_detect_consts
    env_busy dev_busy (statics_cached 41) prev_regs_status_moved hs (fun _ => hp)
  exact ⟨hs, r, hr, h2, h3, h4⟩

/-- C16, witness: the last sample was taken 1 jiffy ago, the next is due in
4 jiffies. -/
theorem C16_rate_limit_witness :
    (is_adreno_rbbm_status_idle env_busy = false ∧
      msm_detect_consts.time_before env_busy.jiffies 1004 = true) ∧
    adreno_ft_detect msm_consts msm_detect_consts env_busy dev_busy
        { prev_global_ts := 41, next_hang_detect_time := 1004 } prev_regs_status_moved =
      some { ret := 0, site := detect_return.rate_limit, device := dev_busy,
             statics := { prev_global_ts := 41, next_hang_detect_time := 1004 },
             prev_reg_val := prev_regs_status_moved, regwrites := [] } :=
  ⟨⟨rfl, by decide⟩,
    C16_rate_limit msm_consts msm_detect_consts env_busy dev_busy
      { prev_global_ts := 41, next_hang_detect_time := 1004 } prev_regs_status_moved
      rfl (by decide) (by decide)⟩

/-- C17, witness: the call of the counterexample. -/
theorem C17_progress_branch_witness :
    detect_samples msm_detect_consts env_busy (statics_cached 40) ∧
    ∃ r, adreno_ft_detect msm_consts msm_detect_consts env_busy dev_busy (statics_cached 40)
        prev_regs_same = some r ∧
      r.ret = 0 ∧ r.statics.context = none ∧ r.statics.curr_context = none ∧
      r.statics.prev_global_ts = 41 ∧ r.device.long_ib = 0 ∧ r.device.long_ib_ts = 0 ∧
      r.device.context_idr = dev_busy.context_idr := by
  have hs : detect_samples msm_detect_consts env_busy (statics_cached 40) :=
    ⟨rfl, fun h => h.1 rfl⟩
  obtain ⟨r, hr, h1, h2, h3, h4, h5, h6, _, h8, _⟩ := C17_progress_branch msm_consts
    msm_detect_consts env_busy dev_busy (statics_cached 40) prev_regs_same hs (by decide)
  exact ⟨hs, r, hr, h1, h2, h3, h4, h5, h6, h8⟩

/-- C18, witness: context 1 cached with 1950 ms, the status register moved,
registers 1 to 5 did not; 1950 + 50 + 50 exceeds 2000. -/
theorem C18_long_ib_declared_witness :
    detect_samples msm_detect_consts env_busy (statics_cached 41) ∧
    ∃ r, adreno_ft_detect msm_consts msm_detect_consts env_busy dev_busy (statics_cached 41)
        prev_regs_status_moved = some r ∧
      r.ret = 1 ∧ r.site = detect_return.long_ib ∧ r.device.long_ib = 1 ∧
      r.device.long_ib_ts = 41 ∧
      ∃ a2, devctxt_of r.device 1 = some a2 ∧ a2.ib_gpu_time_used = 0 := by
  have hs : detect_samples msm_detect_consts env_busy (statics_cached 41) :=
    ⟨rfl, fun h => h.1 rfl⟩
  obtain ⟨r, hr, h1, _⟩ := C18_long_ib_declared msm_consts msm_detect_consts env_busy
    dev_busy (statics_cached 41) prev_regs_status_moved 1
    { flags := 0, timestamp := 5, ib_gpu_time_used := 1950 } 1950 hs (by decide) rfl
    (Or.inr ⟨by decide, rfl, rfl, rfl⟩) (by decide)
  refine ⟨hs, r, hr, h1 (Or.inr ⟨0, by decide, by decide⟩) ?_ (by decide) (by decide)⟩
  intro i hi1 hi2
  simp only [LONG_IB_DETECT_REG_INDEX_START, LONG_IB_DETECT_REG_INDEX_END] at hi1 hi2
  interval_cases i <;> rfl


/-! ### The hanging-IB locator and context switches -/

theorem hanging_loop_step (K : ft_consts) (F : Nat) (rb : adreno_ringbuffer) (ib1 : Nat)
    (fuel p : Nat) (val : Nat → Nat) (i : Nat) (check ctx_switch : Bool)
    (hi : i < 2) (hpw : p / 4 ≠ rb.wptr) :
    find_hanging_ib_sequence_loop K F rb ib1 (fuel + 1) p val i check ctx_switch =
      if check = true ∧ rb_readl rb p = ib1 ∧ K.adreno_cmd_is_ib (val ((i + 1) % 2)) = true then
        _find_start_of_cmd_seq K F rb p false
      else if rb_readl rb p = K.KGSL_CONTEXT_TO_MEM_IDENTIFIER ∧ ctx_switch = true then
        some (-EINVAL, p)
      else
        find_hanging_ib_sequence_loop K F rb ib1 fuel (rb_step true rb.size p)
          (Function.update val i (rb_readl rb p)) ((i + 1) % 2)
          (if (i + 1) % 2 = 1 then true else check)
          (if rb_readl rb p = K.KGSL_CONTEXT_TO_MEM_IDENTIFIER then true else ctx_switch) := by
  have hne : (i + 1) % 2 ≠ i := by omega
  have hii : (i + 1 + 1) % 2 = i := by omega
  have hsel : ∀ b : Bool, (if b = true then (i + 1 + 1) % 2 else i) = i := by
    intro b; rw [hii]; exact ite_self _
  have hsame : Function.update val i (rb_readl rb p) i = rb_readl rb p := Function.update_same _ _ _
  have hoth : Function.update val i (rb_readl rb p) ((i + 1) % 2) = val ((i + 1) % 2) :=
    Function.update_noteq hne _ _
  have hstep : adreno_ringbuffer_inc_wrapped p rb.size = rb_step true rb.size p := rfl
  rw [find_hanging_ib_sequence_loop]
  rw [if_pos hpw]
  show (if ((check && Function.update val i (rb_readl rb p) i == ib1) &&
        K.adreno_cmd_is_ib (Function.update val i (rb_readl rb p) ((i + 1) % 2))) = true then
      _find_start_of_cmd_seq K F rb p false
    else if Function.update val i (rb_readl rb p)
        (if (check && Function.update val i (rb_readl rb p) i == ib1) = true
          then (i + 1 + 1) % 2 else i) = K.KGSL_CONTEXT_TO_MEM_IDENTIFIER ∧ ctx_switch = true then
      some (-EINVAL, p)
    else
      find_hanging_ib_sequence_loop K F rb ib1 fuel (adreno_ringbuffer_inc_wrapped p rb.size)
        (Function.update val i (rb_readl rb p))
        (((if (check && Function.update val i (rb_readl rb p) i == ib1) = true
          then (i + 1 + 1) % 2 else i) + 1) % 2)
        (if ((if (check && Function.update val i (rb_readl rb p) i == ib1) = true
          then (i + 1 + 1) % 2 else i) + 1) % 2 = 1 then true else check)
        (if Function.update val i (rb_readl rb p)
            (if (check && Function.update val i (rb_readl rb p) i == ib1) = true
              then (i + 1 + 1) % 2 else i) = K.KGSL_CONTEXT_TO_MEM_IDENTIFIER
          then true else ctx_switch)) = _
  rw [hsel, hsame, hoth, hstep]
  have hcond : ((check && rb_readl rb p == ib1) && K.adreno_cmd_is_ib (val ((i + 1) % 2))) = true ↔
      (check = true ∧ rb_readl rb p = ib1 ∧ K.adreno_cmd_is_ib (val ((i + 1) % 2)) = true) := by
    simp only [Bool.and_eq_true, beq_iff_eq, and_assoc]
  by_cases hc : check = true ∧ rb_readl rb p = ib1 ∧ K.adreno_cmd_is_ib (val ((i + 1) % 2)) = true
  · rw [if_pos (hcond.mpr hc), if_pos hc]
  · rw [if_neg (fun h => hc (hcond.mp h)), if_neg hc]

theorem hanging_loop_second_marker (K : ft_consts) (F : Nat) (rb : adreno_ringbuffer)
    (ib1 : Nat) :
    ∀ (m fuel p : Nat) (val : Nat → Nat) (i : Nat) (check ctx_switch : Bool),
      i < 2 → m < fuel →
      (∀ j, j ≤ m → rb_walk true rb.size p j / 4 ≠ rb.wptr) →
      ¬ (check = true ∧ rb_readl rb p = ib1 ∧ K.adreno_cmd_is_ib (val ((i + 1) % 2)) = true) →
      (∀ j, 1 ≤ j → j ≤ m →
        ¬ (rb_readl rb (rb_walk true rb.size p j) = ib1 ∧
          K.adreno_cmd_is_ib (rb_readl rb (rb_walk true rb.size p (j - 1))) = true)) →
      rb_readl rb (rb_walk true rb.size p m) = K.KGSL_CONTEXT_TO_MEM_IDENTIFIER →
      (ctx_switch = true ∨
        ∃ j, j < m ∧ rb_readl rb (rb_walk true rb.size p j) = K.KGSL_CONTEXT_TO_MEM_IDENTIFIER) →
      ∃ q, find_hanging_ib_sequence_loop K F rb ib1 fuel p val i check ctx_switch
        = some (-EINVAL, q) := by
  intro m
  induction m with
  | zero =>
    intro fuel p val i check ctx_switch hi hfuel hw h0 _ hm hprev
    have hcs : ctx_switch = true := by
      rcases hprev with h | ⟨j, hj, _⟩
      · exact h
      · omega
    have hpw : p / 4 ≠ rb.wptr := hw 0 (Nat.le_refl _)
    have hmp : rb_readl rb p = K.KGSL_CONTEXT_TO_MEM_IDENTIFIER := hm
    obtain ⟨f, rfl⟩ : ∃ f, fuel = f + 1 := ⟨fuel - 1, by omega⟩
    rw [hanging_loop_step K F rb ib1 f p val i check ctx_switch hi hpw, if_neg h0,
      if_pos ⟨hmp, hcs⟩]
    exact ⟨_, rfl⟩
  | succ m ih =>
    intro fuel p val i check ctx_switch hi hfuel hw h0 hrest hm hprev
    have hpw : p / 4 ≠ rb.wptr := hw 0 (Nat.zero_le _)
    obtain ⟨f, rfl⟩ : ∃ f, fuel = f + 1 := ⟨fuel - 1, by omega⟩
    rw [hanging_loop_step K F rb ib1 f p val i check ctx_switch hi hpw, if_neg h0]
    by_cases hnow : rb_readl rb p = K.KGSL_CONTEXT_TO_MEM_IDENTIFIER ∧ ctx_switch = true
    · rw [if_pos hnow]
      exact ⟨_, rfl⟩
    · rw [if_neg hnow]
      apply ih f (rb_step true rb.size p) _ _ _ _ (Nat.mod_lt _ (by omega)) (by omega)
      · intro j hj
        exact hw (j + 1) (by omega)
      · intro h
        apply hrest 1 (Nat.le_refl _) (by omega)
        refine ⟨h.2.1, ?_⟩
        have hv := h.2.2
        have hidx : ((i + 1) % 2 + 1) % 2 = i := by omega
        rw [hidx, Function.update_same] at hv
        exact hv
      · intro j hj1 hj2
        have := hrest (j + 1) (by omega) (by omega)
        have e : j + 1 - 1 = (j - 1) + 1 := by omega
        rw [e] at this
        exact this
      · exact hm
      · rcases hprev with h | ⟨j, hj, hjm⟩
        · left
          rw [h]
          simp
        · cases j with
          | zero =>
            left
            have hjm0 : rb_readl rb p = K.KGSL_CONTEXT_TO_MEM_IDENTIFIER := hjm
            rw [if_pos hjm0]
          | succ j => exact Or.inr ⟨j, by omega, hjm⟩

/-- C21, counterexample: one context-switch marker (word 3) lies between the
start offset (word 2) and the call of the IB (words 4 and 5); the function
returns 0 and moves `*rb_rptr` from 8 to 4. -/
theorem C21_one_switch_counterexample :
    rb_readl rb_one_switch 12 = msm_consts.KGSL_CONTEXT_TO_MEM_IDENTIFIER ∧
    _find_hanging_ib_sequence msm_consts 8 rb_one_switch 8 0x5000 = some (0, 4) := by
  decide

/-- C21 (as amended): `_find_hanging_ib_sequence` treats the second context
switch before the faulting IB as an error. For every ring buffer and start
offset, if two `KGSL_CONTEXT_TO_MEM_IDENTIFIER` words occur in the forward
scan from `*rb_rptr` (at steps `j1 < j2`, before the write pointer is
reached) and no pair (IB call header, operand equal to `ib1`) is completed up
to the second of them, the function returns `-EINVAL` and leaves `*rb_rptr`
unchanged. A single such word only sets the flag `ctx_switch`. -/
theorem C21_second_ctx_switch_error (K : ft_consts) (fuel : Nat) (rb : adreno_ringbuffer)
    (rb_rptr ib1 j1 j2 : Nat) (hj : j1 < j2) (hfuel : j2 < fuel)
    (hw : ∀ j, j ≤ j2 → rb_walk true rb.size rb_rptr j / 4 ≠ rb.wptr)
    (hm1 : rb_readl rb (rb_walk true rb.size rb_rptr j1) = K.KGSL_CONTEXT_TO_MEM_IDENTIFIER)
    (hm2 : rb_readl rb (rb_walk true rb.size rb_rptr j2) = K.KGSL_CONTEXT_TO_MEM_IDENTIFIER)
    (hnoib : ∀ j, 1 ≤ j → j ≤ j2 →
      ¬ (rb_readl rb (rb_walk true rb.size rb_rptr j) = ib1 ∧
        K.adreno_cmd_is_ib (rb_readl rb (rb_walk true rb.size rb_rptr (j - 1))) = true)) :
    _find_hanging_ib_sequence K fuel rb rb_rptr ib1 = some (-EINVAL, rb_rptr) := by
  obtain ⟨q, hq⟩ := hanging_loop_second_marker K fuel rb ib1 j2 fuel rb_rptr (fun _ => 0) 0
    false false (by omega) hfuel hw (fun h => by cases h.1) hnoib hm2 (Or.inr ⟨j1, hj, hm1⟩)
  unfold _find_hanging_ib_sequence
  rw [hq]
  simp only []
  rw [if_neg (by decide)]

/-- C21, witness: context-switch markers at words 2 and 3, before the call
of the IB at words 4 and 5; the scan starts at word 2. -/
theorem C21_second_ctx_switch_error_witness :
    _find_hanging_ib_sequence msm_consts 8 rb_two_switches 8 0x5000 = some (-EINVAL, 8) :=
  C21_second_ctx_switch_error msm_consts 8 rb_two_switches 8 0x5000 0 1 (by decide) (by decide)
    (by intro j hj; interval_cases j <;> decide) (by decide) (by decide)
    (by intro j h1 h2; interval_cases j; decide)

/-! ### The global end-of-pipe slot at the end of `adreno_ft` -/

theorem and_bnot32_self (f H : Nat) (hH : H < 2 ^ 32) : (f &&& bnot32 H) &&& H = 0 := by
  have h := and_bnot32_or_clear f H 0 hH (Nat.zero_and H)
  rw [Nat.or_zero] at h
  exact h

/-- C25: the long-IB re-check. `_adreno_check_long_ib` always clears
`long_ib`, touches nothing else, and returns 1 exactly when the global
end-of-pipe timestamp equals `long_ib_ts` (else 0). In `_adreno_ft`, for a
live offending context that has not opted out and with `long_ib` set: if the
timestamp has moved since detection the function returns 0, its only call
outside is the extraction (no restart, no resubmission of either segment),
`long_ib` is cleared and `CTXT_FLAGS_GPU_HANG` is cleared on the offending
context; if it has not moved the status is set to 1 and the only resubmission
is the one of the good segment. -/
theorem C25_long_ib_recheck (K : ft_consts) (o : ft_oracle) (device : kgsl_device)
    (ft_data : adreno_ft_data) (c : kgsl_context) (a : adreno_context)
    (hK : flags_disjoint K) (hH : K.CTXT_FLAGS_GPU_HANG < 2 ^ 32)
    (hget : kgsl_context_get device ft_data.context_id = some c) (hdev : c.devctxt = some a)
    (hnoft : a.flags &&& K.CTXT_FLAGS_NO_FAULT_TOLERANCE = 0)
    (hlong : device.long_ib ≠ 0) :
    (∀ d : kgsl_device,
      (_adreno_check_long_ib K d).2 = { d with long_ib := 0 } ∧
      ((_adreno_check_long_ib K d).1 = 1 ↔
        d.memstore K.KGSL_MEMSTORE_GLOBAL memstore_field.eoptimestamp = d.long_ib_ts) ∧
      ((_adreno_check_long_ib K d).1 = 0 ↔
        d.memstore K.KGSL_MEMSTORE_GLOBAL memstore_field.eoptimestamp ≠ d.long_ib_ts)) ∧
    (device.memstore K.KGSL_MEMSTORE_GLOBAL memstore_field.eoptimestamp ≠ device.long_ib_ts →
      (_adreno_ft K o device ft_data).ret = 0 ∧
      (_adreno_ft K o device ft_data).trace = [ft_event.extract rb_ptr.null] ∧
      resubmits (_adreno_ft K o device ft_data).trace = [] ∧
      (_adreno_ft K o device ft_data).device.long_ib = 0 ∧
      ∃ f, ctx_flags (_adreno_ft K o device ft_data).device c.id = some f ∧
        f &&& K.CTXT_FLAGS_GPU_HANG = 0) ∧
    (device.memstore K.KGSL_MEMSTORE_GLOBAL memstore_field.eoptimestamp = device.long_ib_ts →
      (_adreno_ft K o device ft_data).ft_data.status = 1 ∧
      resubmits (_adreno_ft K o device ft_data).trace =
        [(ft_stage.good, resubmit_ret o ft_stage.good (some c) o.extract.good_rb_size)]) := by
  obtain ⟨hK1, _, _, _⟩ := hK
  have hn : (a.flags ||| K.CTXT_FLAGS_GPU_HANG) &&& K.CTXT_FLAGS_NO_FAULT_TOLERANCE = 0 := by
    rw [or_and_disjoint _ _ _ hK1, hnoft]
  refine ⟨?_, ?_, ?_⟩
  · intro d
    unfold _adreno_check_long_ib
    simp only []
    by_cases h : d.memstore K.KGSL_MEMSTORE_GLOBAL memstore_field.eoptimestamp = d.long_ib_ts
    · simp only [h, if_true, ne_eq, not_true_eq_false, iff_false, true_and, iff_true]
      decide
    · simp only [h, if_false, ne_eq, not_false_eq_true, iff_true, true_and, iff_false]
      decide
  · intro hts
    rw [adreno_ft_eq_live K o device ft_data c a hget hdev]
    unfold _adreno_ft_live
    simp only []
    rw [if_neg (by rw [hn]; simp)]
    have hl : (ft_mark_hung K device c).long_ib = device.long_ib := rfl
    have hms : (ft_mark_hung K device c).memstore = device.memstore := rfl
    have hlt : (ft_mark_hung K device c).long_ib_ts = device.long_ib_ts := rfl
    simp only [hl]
    rw [if_pos hlong]
    unfold _adreno_check_long_ib
    simp only [hms, hlt, hts, if_false]
    rw [if_neg (by decide)]
    refine ⟨rfl, rfl, rfl, rfl, ?_⟩
    refine ⟨(a.flags ||| K.CTXT_FLAGS_GPU_HANG) &&& bnot32 K.CTXT_FLAGS_GPU_HANG, ?_,
      and_bnot32_self _ _ hH⟩
    rw [ctx_flags_set_flags]
    refine Eq.trans (congrArg (Option.map (fun flags => flags &&& bnot32 K.CTXT_FLAGS_GPU_HANG))
      (ctx_flags_congr _ (ft_mark_hung K device c) c.id rfl)) ?_
    rw [ctx_flags_mark_hung, ctx_flags_of_get device ft_data.context_id c a hget hdev]
    rfl
  · intro hts
    rw [adreno_ft_eq_live K o device ft_data c a hget hdev]
    unfold _adreno_ft_live
    simp only []
    rw [if_neg (by rw [hn]; simp)]
    have hl : (ft_mark_hung K device c).long_ib = device.long_ib := rfl
    have hms : (ft_mark_hung K device c).memstore = device.memstore := rfl
    have hlt : (ft_mark_hung K device c).long_ib_ts = device.long_ib_ts := rfl
    simp only [hl]
    rw [if_pos hlong]
    unfold _adreno_check_long_ib
    simp only [hms, hlt, hts, if_true]
    rw [if_pos (by decide)]
    refine ⟨by rw [play_good_ft_data], ?_⟩
    rw [play_good_resubmits]
    rfl

/-- C25, witness: detection at timestamp 40, the timestamp is 41 at the
re-check. -/
theorem C25_long_ib_recheck_witness :
    (kgsl_context_get (dev_long_ib 40) ft_data_default.context_id = some ctx_clean ∧
      (dev_long_ib 40).long_ib ≠ 0) ∧
    (_adreno_ft msm_consts oracle_all_ok (dev_long_ib 40) ft_data_default).ret = 0 ∧
    (_adreno_ft msm_consts oracle_all_ok (dev_long_ib 40) ft_data_default).trace
      = [ft_event.extract rb_ptr.null] ∧
    (_adreno_ft msm_consts oracle_all_ok (dev_long_ib 41) ft_data_default).ft_data.status = 1 ∧
    resubmits (_adreno_ft msm_consts oracle_all_ok (dev_long_ib 41) ft_data_default).trace
      = [(ft_stage.good, 0)] :=
  ⟨⟨rfl, by decide⟩,
    ((C25_long_ib_recheck msm_consts oracle_all_ok (dev_long_ib 40) ft_data_default ctx_clean
      { flags := 0, timestamp := 5 } (by unfold flags_disjoint; decide) (by decide) rfl rfl
      (by decide) (by decide)).2.1 (by decide)).1,
    ((C25_long_ib_recheck msm_consts oracle_all_ok (dev_long_ib 40) ft_data_default ctx_clean
      { flags := 0, timestamp := 5 } (by unfold flags_disjoint; decide) (by decide) rfl rfl
      (by decide) (by decide)).2.1 (by decide)).2.1,
    ((C25_long_ib_recheck msm_consts oracle_all_ok (dev_long_ib 41) ft_data_default ctx_clean
      { flags := 0, timestamp := 5 } (by unfold flags_disjoint; decide) (by decide) rfl rfl
      (by decide) (by decide)).2.2 (by decide)).1,
    ((C25_long_ib_recheck msm_consts oracle_all_ok (dev_long_ib 41) ft_data_default ctx_clean
      { flags := 0, timestamp := 5 } (by unfold flags_disjoint; decide) (by decide) rfl rfl
      (by decide) (by decide)).2.2 (by decide)).2⟩

/-! ### The SKIP_FRAME patch with a sentinel -/

theorem handles_are_append (rb : rb_ptr) (a b : List ft_event)
    (ha : handles_are rb a) (hb : handles_are rb b) : handles_are rb (a ++ b) := by
  intro e he
  rcases List.mem_append.mp he with h | h
  · exact ha e h
  · exact hb e h

theorem resubmit_rb_handles (o : ft_oracle) (stage : ft_stage) (device : kgsl_device)
    (rb : rb_ptr) (context : Option kgsl_context) (buff : Nat → Nat) (size : Nat) :
    handles_are rb (_adreno_ft_resubmit_rb o stage device rb context buff size).2.2 := by
  unfold _adreno_ft_resubmit_rb
  intro e he
  split at he
  · simp only [List.mem_singleton] at he
    subst he; exact Or.inr rfl
  · split at he
    · simp only [List.mem_cons, List.mem_singleton, List.not_mem_nil, or_false] at he
      rcases he with rfl | rfl <;> exact Or.inr rfl
    · simp only [List.mem_singleton] at he
      subst he; exact Or.inr rfl

theorem play_good_handles (K : ft_consts) (o : ft_oracle) (rb : rb_ptr)
    (context : kgsl_context) (last : Option Nat) (s : ft_state)
    (h : handles_are rb s.trace) :
    handles_are rb (_adreno_ft_play_good_cmds K o rb context last s).trace := by
  obtain ⟨d, hd⟩ := play_good_trace K o rb context last s
  rw [hd]
  exact handles_are_append rb _ _ h (resubmit_rb_handles _ _ _ _ _ _ _)

theorem skipframe_handles (K : ft_consts) (o : ft_oracle) (rb : rb_ptr)
    (context : kgsl_context) (last : Option Nat) (s : ft_state)
    (h : handles_are rb s.trace) :
    handles_are rb (_adreno_ft_skipframe K o rb context last s).trace := by
  unfold _adreno_ft_skipframe
  split
  · have hp : handles_are rb (_adreno_ft_skipframe_patch K context s).trace := by
      rw [skipframe_patch_trace]; exact h
    simp only []
    split
    · exact play_good_handles K o rb context last _
        (handles_are_append rb _ _ hp (resubmit_rb_handles _ _ _ _ _ _ _))
    · exact play_good_handles K o rb context last _
        (handles_are_append rb _ _ hp (resubmit_rb_handles _ _ _ _ _ _ _))
  · exact play_good_handles K o rb context last s h

theorem skipib_handles (K : ft_consts) (o : ft_oracle) (rb : rb_ptr)
    (context : kgsl_context) (last : Option Nat) (s : ft_state)
    (h : handles_are rb s.trace) :
    handles_are rb (_adreno_ft_skipib K o rb context last s).trace := by
  unfold _adreno_ft_skipib
  split
  · simp only []
    split
    · exact play_good_handles K o rb context last _ h
    · split
      · exact skipframe_handles K o rb context last _
          (handles_are_append rb _ _ h (resubmit_rb_handles _ _ _ _ _ _ _))
      · exact play_good_handles K o rb context last _
          (handles_are_append rb _ _ h (resubmit_rb_handles _ _ _ _ _ _ _))
  · exact skipframe_handles K o rb context last s h

theorem replay_handles (K : ft_consts) (o : ft_oracle) (rb : rb_ptr)
    (context : kgsl_context) (last : Option Nat) (s : ft_state)
    (h : handles_are rb s.trace) :
    handles_are rb (_adreno_ft_replay K o rb context last s).trace := by
  unfold _adreno_ft_replay
  split
  · simp only []
    split
    · exact skipib_handles K o rb context last _
        (handles_are_append rb _ _ h (resubmit_rb_handles _ _ _ _ _ _ _))
    · exact play_good_handles K o rb context last _
        (handles_are_append rb _ _ h (resubmit_rb_handles _ _ _ _ _ _ _))
  · exact skipib_handles K o rb context last s h

/-- C30: the ring-buffer handle of `_adreno_ft`. The local `rb` is
initialised to `NULL` and never assigned: on every path through the function,
for every oracle, device and snapshot, every handle passed to
`adreno_ringbuffer_extract`, to `_adreno_ft_resubmit_rb` and through it to
`adreno_ringbuffer_restore` is `NULL`, never `&adreno_dev->ringbuffer`; and
a run with a live offending context that enters the ladder makes such
calls. -/
theorem C30_rb_handle_is_null (K : ft_consts) (o : ft_oracle) (device : kgsl_device)
    (ft_data : adreno_ft_data) :
    (∀ e ∈ (_adreno_ft K o device ft_data).trace,
      event_rb e ≠ some rb_ptr.device_ringbuffer) ∧
    (_adreno_ft msm_consts oracle_all_ok dev_two_contexts ft_data_default).trace.map event_call
      = [ft_call.extract rb_ptr.null,
         ft_call.resubmit ft_stage.replay rb_ptr.null 3 0,
         ft_call.restore ft_stage.replay rb_ptr.null 3,
         ft_call.resubmit ft_stage.good rb_ptr.null 2 0,
         ft_call.restore ft_stage.good rb_ptr.null 2] := by
  refine ⟨?_, by decide⟩
  have hall : handles_are rb_ptr.null (_adreno_ft K o device ft_data).trace := by
    have hnil : handles_are rb_ptr.null [] := fun e he => by cases he
    have hext : handles_are rb_ptr.null [ft_event.extract rb_ptr.null] := by
      intro e he
      simp only [List.mem_singleton] at he
      subst he; exact Or.inr rfl
    unfold _adreno_ft
    split
    · exact hnil
    · split
      · exact hnil
      · unfold _adreno_ft_live
        simp only []
        split
        · exact play_good_handles K o _ _ _ _ hnil
        · split
          · split
            · exact play_good_handles K o _ _ _ _ hext
            · exact hext
          · split
            · exact play_good_handles K o _ _ _ _ hext
            · split
              · exact play_good_handles K o _ _ _ _ hext
              · exact replay_handles K o _ _ _ _ hext
  intro e he h
  rcases hall e he with h1 | h1
  · rw [h1] at h; cases h
  · rw [h1] at h; cases h

/-- C27: the run of `_adreno_ft` for an offending context with
`CTXT_FLAGS_NO_FAULT_TOLERANCE`, on the snapshot as `adreno_setup_ft_data`
leaves it (`good_rb_size` 0). The jump to `play_good_cmds` comes before the
call of `adreno_ringbuffer_extract`: the only call is the good-segment
resubmission with size 0, so the device is restarted and nothing is restored,
although the extraction would have yielded a good segment of two words. -/
theorem C27_no_ft_skips_extraction :
    kgsl_context_get dev_no_ft ft_data_default.context_id = some ctx_no_ft ∧
    ft_data_default.good_rb_size = 0 ∧ oracle_all_ok.extract.good_rb_size = 2 ∧
    (_adreno_ft msm_consts oracle_all_ok dev_no_ft ft_data_default).trace.map event_call
      = [ft_call.resubmit ft_stage.good rb_ptr.null 0 0] ∧
    (_adreno_ft msm_consts oracle_all_ok dev_no_ft ft_data_default).ret = 0 ∧
    (_adreno_ft msm_consts oracle_all_ok dev_two_contexts ft_data_disable).trace.map event_call
      = [ft_call.extract rb_ptr.null,
         ft_call.resubmit ft_stage.good rb_ptr.null 2 0,
         ft_call.restore ft_stage.good rb_ptr.null 2] := by
  refine ⟨rfl, rfl, rfl, by decide, by decide, by decide⟩

/-- C29: the SKIP_IB loop of `_adreno_ft` outside the bad segment. With a bad
segment of one word that is an IB call header, the loop reads the word after
the segment (the outcome depends on it) and, when that word equals `ib1`,
writes the two words after the segment. With `ib1 = 0` and the call of an IB
at address 0 in the segment, the call is overwritten before `ib1` is tested:
the status is set to failed, nothing of the bad segment is resubmitted, and
the snapshot keeps the patched segment. -/
theorem C29_skipib_leaves_segment :
    (skipib_loop msm_consts 0x5000 1 0 bad_rb_header_last).1 = 0 ∧
    (skipib_loop msm_consts 0x5000 1 0 bad_rb_header_last_other).1 = 1 ∧
    (∀ i, i < 1 → bad_rb_header_last i = bad_rb_header_last_other i) ∧
    (skipib_loop msm_consts 0x5000 1 0 bad_rb_header_last).2 1
      = msm_consts.KGSL_NOP_IB_IDENTIFIER ∧
    (skipib_loop msm_consts 0x5000 1 0 bad_rb_header_last).2 2
      = msm_consts.KGSL_NOP_IB_IDENTIFIER ∧
    bad_rb_header_last 2 = 7 ∧
    (_adreno_ft_skipib msm_consts oracle_all_ok rb_ptr.null ctx_clean none
      { ladder_state_no_ib with
        ft_data := { ladder_state_no_ib.ft_data with
          bad_rb_buffer := bad_rb_ib_zero, bad_rb_size := 3 } }).ft_data.bad_rb_buffer 0
      = msm_consts.cp_nop_packet 2 ∧
    bad_rb_ib_zero 0 = msm_consts.CP_HDR_INDIRECT_BUFFER_PFD ∧
    bad_resubmits (_adreno_ft_skipib msm_consts oracle_all_ok rb_ptr.null ctx_clean none
      { ladder_state_no_ib with
        ft_data := { ladder_state_no_ib.ft_data with
          bad_rb_buffer := bad_rb_ib_zero, bad_rb_size := 3 } }).trace = [] := by
  refine ⟨by decide, by decide, by decide, by decide, by decide, by decide, by decide,
    by decide, by decide⟩

/-- C28: one poll of `adreno_ft_detect` in which the long-IB branch is
entered. Context 1 is looked up by this call (accumulated time reset to 0),
the status register moved and registers 1 to 5 did not: the call returns 0
and the accumulated time is 100, two polling intervals of 50, not one. -/
theorem C28_double_increment :
    (adreno_ft_detect msm_consts msm_detect_consts env_busy dev_busy { prev_global_ts := 41 }
        prev_regs_status_moved).map
      (fun r => (r.ret, r.site, r.statics.curr_context,
        (devctxt_of r.device 1).map (fun a => a.ib_gpu_time_used))) =
      some (0, detect_return.fall_through, some 1, some 100) ∧
    msm_detect_consts.KGSL_TIMEOUT_PART = 50 := by
  exact ⟨rfl, rfl⟩

/-! ### The top-level fault handler -/

theorem dump_and_exec_ft_terminal (K : ft_consts) (C : dump_consts) (e : dump_env)
    (F fuel : Nat) (dd : dump_device) (context : kgsl_context) (pid : Nat)
    (res : Int) (dd2 : dump_device) (ev : List dump_event)
    (h1 : dd.state ≠ C.KGSL_STATE_HUNG) (h2 : dd.state ≠ C.KGSL_STATE_DUMP_AND_FT)
    (hctx : idr_find dd.device.context_idr
      (dd.device.memstore K.KGSL_MEMSTORE_GLOBAL memstore_field.current_context) = some context)
    (hpid : e.pid_of context.id = some pid)
    (h : adreno_dump_and_exec_ft K C e F fuel dd = some (res, dd2, ev)) :
    dd2.ft_gate_done = true ∧
    dd2.state = (if res ≠ 0 then C.KGSL_STATE_HUNG else C.KGSL_STATE_ACTIVE) ∧
    dd2.active_pwrlevel = dd.active_pwrlevel := by
  unfold adreno_dump_and_exec_ft at h
  rw [if_neg h1, if_neg h2] at h
  have hd : (kgsl_pwrctrl_set_state dd C.KGSL_STATE_DUMP_AND_FT).device = dd.device := rfl
  simp only [hd, hctx, hpid] at h
  split at h
  · cases h
  · next res1 d1 ft1 _ =>
    split at h
    · cases h
    · next res2 d2 _ =>
      by_cases hr : res2 ≠ 0
      · simp only [hr, ne_eq, not_false_eq_true, if_true] at h
        split at h
        · cases h
        · simp only [Option.some.injEq, Prod.mk.injEq] at h
          obtain ⟨rfl, rfl, _⟩ := h
          exact ⟨rfl, by rw [if_pos hr]; rfl, rfl⟩
      · have hr0 : res2 = 0 := not_not.mp hr
        subst hr0
        simp only [ne_eq, not_true_eq_false, if_false] at h
        split at h
        · split at h
          · cases h
          · simp only [Option.some.injEq, Prod.mk.injEq] at h
            obtain ⟨rfl, rfl, _⟩ := h
            exact ⟨rfl, rfl, rfl⟩
        · simp only [Option.some.injEq, Prod.mk.injEq] at h
          obtain ⟨rfl, rfl, _⟩ := h
          exact ⟨rfl, rfl, rfl⟩

/-- C22: the `-ENODATA` exit of `adreno_dump_and_exec_ft`. When the function
is entered with a device state that is neither `KGSL_STATE_HUNG` nor
`KGSL_STATE_DUMP_AND_FT` and the current context id of the memstore is not in
the context table, or the context has no owning process, the function sets
`KGSL_STATE_DUMP_AND_FT`, re-arms `ft_gate` and leaves through `goto done`: it
returns `-ENODATA` with the state still `KGSL_STATE_DUMP_AND_FT` and `ft_gate`
not completed. -/
theorem C22_enodata_exit (K : ft_consts) (C : dump_consts) (e : dump_env)
    (F fuel : Nat) (dd : dump_device)
    (h1 : dd.state ≠ C.KGSL_STATE_HUNG) (h2 : dd.state ≠ C.KGSL_STATE_DUMP_AND_FT)
    (hctx : ∀ context, idr_find dd.device.context_idr
        (dd.device.memstore K.KGSL_MEMSTORE_GLOBAL memstore_field.current_context)
        = some context → e.pid_of context.id = none) :
    adreno_dump_and_exec_ft K C e F fuel dd =
      some (-ENODATA,
        { dd with state := C.KGSL_STATE_DUMP_AND_FT, ft_gate_done := false }, []) := by
  unfold adreno_dump_and_exec_ft
  rw [if_neg h1, if_neg h2]
  have hd : (kgsl_pwrctrl_set_state dd C.KGSL_STATE_DUMP_AND_FT).device = dd.device := rfl
  simp only [hd]
  cases hf : idr_find dd.device.context_idr
      (dd.device.memstore K.KGSL_MEMSTORE_GLOBAL memstore_field.current_context) with
  | none => rfl
  | some context =>
    simp only [hctx context hf]
    rfl

/-- C22, witness: the memstore names context 0 as current and the table
holds contexts 1 and 2. -/
theorem C22_enodata_exit_witness :
    (dump_dev_unknown_context.state = msm_dump_consts.KGSL_STATE_ACTIVE ∧
      idr_find dump_dev_unknown_context.device.context_idr
        (dump_dev_unknown_context.device.memstore msm_consts.KGSL_MEMSTORE_GLOBAL
          memstore_field.current_context) = none) ∧
    (adreno_dump_and_exec_ft msm_consts msm_dump_consts dump_env_ok 8 8
        dump_dev_unknown_context).map (fun r => (r.1, r.2.1.state, r.2.1.ft_gate_done))
      = some (-ENODATA, msm_dump_consts.KGSL_STATE_DUMP_AND_FT, false) ∧
    (adreno_dump_and_exec_ft msm_consts msm_dump_consts dump_env_ok 8 8
        dump_dev_known_context).map (fun r => (r.1, r.2.1.state, r.2.1.ft_gate_done))
      = some (0, msm_dump_consts.KGSL_STATE_ACTIVE, true) := by
  refine ⟨⟨rfl, rfl⟩, ?_, rfl⟩
  rw [C22_enodata_exit msm_consts msm_dump_consts dump_env_ok 8 8 dump_dev_unknown_context
    (by decide) (by decide) (by intro context h; cases h)]
  rfl


/-! ### The backward end-of-pipe search against its reference -/

theorem eop_loop_step (K : ft_consts) (rb : adreno_ringbuffer) (v : Nat)
    (fuel temp : Nat) (val : Nat → Nat) (i : Nat) (check : Bool) (hi : i < 3) :
    find_cmd_seq_after_eop_ts_loop K rb v false (fuel + 1) temp val i check =
      if check = true ∧
          (rb_readl rb (adreno_ringbuffer_dec_wrapped temp rb.size) = K.CP_HDR_MEM_WRITE ∨
            rb_readl rb (adreno_ringbuffer_dec_wrapped temp rb.size) = K.CACHE_FLUSH_TS) ∧
          val ((i + 2) % 3) = K.memstore_gpuaddr_global_eop ∧ val ((i + 1) % 3) = v then
        some (0, adreno_ringbuffer_dec_wrapped temp rb.size)
      else if adreno_ringbuffer_dec_wrapped temp rb.size / 4 ≠ rb.wptr then
        find_cmd_seq_after_eop_ts_loop K rb v false fuel
          (adreno_ringbuffer_dec_wrapped temp rb.size)
          (Function.update val i (rb_readl rb (adreno_ringbuffer_dec_wrapped temp rb.size)))
          ((i + 1) % 3) (if (i + 1) % 3 = 2 then true else check)
      else some (-EINVAL, adreno_ringbuffer_dec_wrapped temp rb.size) := by
  have hne1 : (i + 2) % 3 ≠ i := by omega
  have hne2 : ((i + 2) % 3 + 2) % 3 ≠ i := by omega
  have hj : ((i + 2) % 3 + 2) % 3 = (i + 1) % 3 := by omega
  have hii : ((i + 2) % 3 + 1) % 3 = i := by omega
  rw [find_cmd_seq_after_eop_ts_loop]
  simp only [Bool.not_false, if_true, Bool.false_eq_true, if_false, Bool.false_and,
    Bool.true_and, Bool.false_or]
  simp only [Function.update_same, Function.update_noteq hne1, Function.update_noteq hne2,
    hj, hii, ite_self, Bool.and_eq_true, Bool.or_eq_true, beq_iff_eq, and_assoc]

theorem eop_walk_positions_succ (rb : adreno_ringbuffer) (temp n : Nat) :
    eop_walk_positions rb temp (n + 1) =
      adreno_ringbuffer_dec_wrapped temp rb.size ::
        eop_walk_positions rb (adreno_ringbuffer_dec_wrapped temp rb.size) n := by
  unfold eop_walk_positions
  rw [List.range_succ_eq_map, List.map_cons, List.map_map]
  rfl

theorem eop_search_succ (K : ft_consts) (rb : adreno_ringbuffer) (v n s temp : Nat) :
    eop_search K rb v (n + 1) s temp =
      if s = 0 ∧ eop_write_at K rb v (adreno_ringbuffer_dec_wrapped temp rb.size) = true then
        some (adreno_ringbuffer_dec_wrapped temp rb.size)
      else eop_search K rb v n (s - 1) (adreno_ringbuffer_dec_wrapped temp rb.size) := by
  unfold eop_search
  rw [eop_walk_positions_succ]
  cases s with
  | zero =>
    simp only [List.drop_zero, true_and, Nat.zero_sub]
    rw [List.find?_cons]
    cases h : eop_write_at K rb v (adreno_ringbuffer_dec_wrapped temp rb.size) <;> simp
  | succ k =>
    simp only [List.drop_succ_cons, Nat.add_sub_cancel, Nat.succ_ne_zero, false_and, if_false]

theorem inc_dec_wrapped (p size : Nat) (hp : p < size) (h4 : p % 4 = 0) (hs : size % 4 = 0) :
    adreno_ringbuffer_inc_wrapped (adreno_ringbuffer_dec_wrapped p size) size = p := by
  have hdec := dec_wrapped_eq p size hp h4 hs
  have hq : adreno_ringbuffer_dec_wrapped p size < size ∧
      adreno_ringbuffer_dec_wrapped p size % 4 = 0 := by
    rw [hdec]; split <;> omega
  rw [inc_wrapped_eq _ size hq.1 hq.2 hs, hdec]
  split_ifs <;> omega

theorem eop_search_zero (K : ft_consts) (rb : adreno_ringbuffer) (v s temp : Nat) :
    eop_search K rb v 0 s temp = none := by
  unfold eop_search eop_walk_positions
  simp

theorem eop_loop_cond (K : ft_consts) (rb : adreno_ringbuffer) (v : Nat)
    (hs : rb.size % 4 = 0) (temp : Nat) (val : Nat → Nat) (i : Nat) (check : Bool) (s : Nat)
    (hp : temp < rb.size) (h4 : temp % 4 = 0) (hinv : eop_loop_inv rb s temp val i check) :
    (check = true ∧
        (rb_readl rb (adreno_ringbuffer_dec_wrapped temp rb.size) = K.CP_HDR_MEM_WRITE ∨
          rb_readl rb (adreno_ringbuffer_dec_wrapped temp rb.size) = K.CACHE_FLUSH_TS) ∧
        val ((i + 2) % 3) = K.memstore_gpuaddr_global_eop ∧ val ((i + 1) % 3) = v) ↔
      (s = 0 ∧ eop_write_at K rb v (adreno_ringbuffer_dec_wrapped temp rb.size) = true) := by
  rcases hinv with ⟨_, ⟨h1, _, h3⟩ | ⟨h1, _, h3, _⟩ | ⟨h1, h2, h3, h4v⟩⟩
  · subst h1; subst h3
    constructor
    · intro h; exact absurd h.1 (by decide)
    · intro h; exact absurd h.1 (by decide)
  · subst h1; subst h3
    constructor
    · intro h; exact absurd h.1 (by decide)
    · intro h; exact absurd h.1 (by decide)
  · subst h1; subst h2
    unfold eop_write_at
    rw [inc_dec_wrapped temp rb.size hp h4 hs, h3, h4v]
    simp only [Bool.and_eq_true, Bool.or_eq_true, beq_iff_eq, true_and]

theorem eop_loop_inv_step (rb : adreno_ringbuffer) (hs : rb.size % 4 = 0) (temp : Nat)
    (val : Nat → Nat) (i : Nat) (check : Bool) (s : Nat)
    (hp : temp < rb.size) (h4 : temp % 4 = 0) (hinv : eop_loop_inv rb s temp val i check) :
    eop_loop_inv rb (s - 1) (adreno_ringbuffer_dec_wrapped temp rb.size)
      (Function.update val i (rb_readl rb (adreno_ringbuffer_dec_wrapped temp rb.size)))
      ((i + 1) % 3) (if (i + 1) % 3 = 2 then true else check) := by
  have hid := inc_dec_wrapped temp rb.size hp h4 hs
  rcases hinv with ⟨hi, ⟨h1, h2, h3⟩ | ⟨h1, h2, h3, h5⟩ | ⟨h1, h2, h3, h5⟩⟩
  · subst h1; subst h2; subst h3
    refine ⟨by decide, Or.inr (Or.inl ⟨rfl, rfl, rfl, ?_⟩)⟩
    exact Function.update_same _ _ _
  · subst h1; subst h2; subst h3
    refine ⟨by decide, Or.inr (Or.inr ⟨rfl, rfl, ?_, ?_⟩)⟩
    · exact Function.update_same _ _ _
    · rw [hid]
      exact (Function.update_noteq (by decide) _ _).trans h5
  · subst h1; subst h2
    have e1 : ((i + 1) % 3 + 2) % 3 = i := by omega
    have e2 : ((i + 1) % 3 + 1) % 3 = (i + 2) % 3 := by omega
    have hne : (i + 2) % 3 ≠ i := by omega
    refine ⟨Nat.mod_lt _ (by decide), Or.inr (Or.inr ⟨rfl, ?_, ?_, ?_⟩)⟩
    · split <;> rfl
    · rw [e1]; exact Function.update_same _ _ _
    · rw [e2, hid]
      exact (Function.update_noteq hne _ _).trans h3

theorem eop_loop_dist_step (size w temp n : Nat) (hs : size % 4 = 0) (hw : w < size / 4)
    (hp : temp < size) (h4 : temp % 4 = 0)
    (hd : (if 4 * w < temp then temp - 4 * w else temp + size - 4 * w) = 4 * (n + 1)) :
    adreno_ringbuffer_dec_wrapped temp size < size ∧
      adreno_ringbuffer_dec_wrapped temp size % 4 = 0 ∧
      (n = 0 → adreno_ringbuffer_dec_wrapped temp size / 4 = w ∧
        adreno_ringbuffer_dec_wrapped temp size = w * 4) ∧
      (n ≠ 0 → adreno_ringbuffer_dec_wrapped temp size / 4 ≠ w ∧
        (if 4 * w < adreno_ringbuffer_dec_wrapped temp size then
            adreno_ringbuffer_dec_wrapped temp size - 4 * w
          else adreno_ringbuffer_dec_wrapped temp size + size - 4 * w) = 4 * n) := by
  rw [dec_wrapped_eq temp size hp h4 hs]
  refine ⟨?_, ?_, ?_, ?_⟩
  · split_ifs <;> omega
  · split_ifs <;> omega
  · intro hn; subst hn
    split_ifs at hd ⊢ <;> omega
  · intro hn
    split_ifs at hd ⊢ <;> omega

theorem eop_loop_eq_search (K : ft_consts) (rb : adreno_ringbuffer) (v : Nat)
    (hs : rb.size % 4 = 0) (hw : rb.wptr < rb.size / 4) :
    ∀ (n fuel temp : Nat) (val : Nat → Nat) (i : Nat) (check : Bool) (s : Nat),
      temp < rb.size → temp % 4 = 0 →
      (if 4 * rb.wptr < temp then temp - 4 * rb.wptr else temp + rb.size - 4 * rb.wptr) =
        4 * (n + 1) →
      n < fuel → eop_loop_inv rb s temp val i check →
      find_cmd_seq_after_eop_ts_loop K rb v false fuel temp val i check =
        match eop_search K rb v (n + 1) s temp with
        | some p => some (0, p)
        | none => some (-EINVAL, rb.wptr * 4) := by
  intro n
  induction n with
  | zero =>
    intro fuel temp val i check s hp h4 hd hf hinv
    obtain ⟨f, rfl⟩ : ∃ f, fuel = f + 1 := ⟨fuel - 1, by omega⟩
    obtain ⟨_, _, h0, _⟩ := eop_loop_dist_step rb.size rb.wptr temp 0 hs hw hp h4 hd
    obtain ⟨hq, hq4⟩ := h0 rfl
    rw [eop_loop_step K rb v f temp val i check hinv.1, eop_search_succ]
    by_cases hc : s = 0 ∧ eop_write_at K rb v (adreno_ringbuffer_dec_wrapped temp rb.size) = true
    · rw [if_pos ((eop_loop_cond K rb v hs temp val i check s hp h4 hinv).2 hc), if_pos hc]
    · rw [if_neg (fun h => hc ((eop_loop_cond K rb v hs temp val i check s hp h4 hinv).1 h)),
        if_neg hc, if_neg (not_not.2 hq), hq4]
      rw [eop_search_zero]
  | succ n ih =>
    intro fuel temp val i check s hp h4 hd hf hinv
    obtain ⟨f, rfl⟩ : ∃ f, fuel = f + 1 := ⟨fuel - 1, by omega⟩
    obtain ⟨hq1, hq2, _, h1⟩ :=
      eop_loop_dist_step rb.size rb.wptr temp (n + 1) hs hw hp h4 hd
    obtain ⟨hne, hd2⟩ := h1 (Nat.succ_ne_zero n)
    rw [eop_loop_step K rb v f temp val i check hinv.1, eop_search_succ]
    by_cases hc : s = 0 ∧ eop_write_at K rb v (adreno_ringbuffer_dec_wrapped temp rb.size) = true
    · rw [if_pos ((eop_loop_cond K rb v hs temp val i check s hp h4 hinv).2 hc), if_pos hc]
    · rw [if_neg (fun h => hc ((eop_loop_cond K rb v hs temp val i check s hp h4 hinv).1 h)),
        if_neg hc, if_pos hne]
      exact ih f _ _ _ _ (s - 1) hq1 hq2 hd2 (by omega)
        (eop_loop_inv_step rb hs temp val i check s hp h4 hinv)

theorem rb_walk_back_eq (size : Nat) (hs : size % 4 = 0) :
    ∀ (k p : Nat), p < size → p % 4 = 0 → 4 * k ≤ size →
      rb_walk false size p k = (p + size - 4 * k) % size := by
  intro k
  induction k with
  | zero =>
    intro p hp _ _
    show p = (p + size - 4 * 0) % size
    rw [Nat.mul_zero, Nat.sub_zero, Nat.add_mod_right, Nat.mod_eq_of_lt hp]
  | succ k ih =>
    intro p hp h4 hk
    have hdec := dec_wrapped_eq p size hp h4 hs
    have hq : adreno_ringbuffer_dec_wrapped p size < size ∧
        adreno_ringbuffer_dec_wrapped p size % 4 = 0 := by
      rw [hdec]; split <;> omega
    show rb_walk false size (adreno_ringbuffer_dec_wrapped p size) k = _
    rw [ih _ hq.1 hq.2 (by omega), hdec]
    by_cases h0 : p = 0
    · subst h0
      rw [if_pos rfl]
      have e : size - 4 + size - 4 * k = (0 + size - 4 * (k + 1)) + size := by omega
      rw [e, Nat.add_mod_right]
    · rw [if_neg h0]
      have e : p - 4 + size - 4 * k = p + size - 4 * (k + 1) := by omega
      rw [e]

theorem eop_walk_positions_eq (rb : adreno_ringbuffer) (hs : rb.size % 4 = 0)
    (hw : rb.wptr < rb.size / 4) :
    eop_walk_positions rb (rb.wptr * 4) (rb.size / 4) =
      (List.range (rb.size / 4)).map
        (fun k => (rb.wptr * 4 + rb.size - 4 * (k + 1)) % rb.size) := by
  unfold eop_walk_positions
  apply List.map_congr_left
  intro k hk
  rw [List.mem_range] at hk
  exact rb_walk_back_eq rb.size hs (k + 1) (rb.wptr * 4) (by omega) (by omega) (by omega)

/-- Claim C24: `_find_cmd_seq_after_eop_ts` called backward from the write
pointer with the target value `v` equals the reference: among the positions
`wptr - 1` down to `wptr` (modulo the buffer size), the first one reached after
at least two earlier reads whose three words are the end-of-pipe write of `v`;
when it exists and `_find_start_of_cmd_seq` walking backward from it succeeds
the result is `0` with the locator's position, otherwise `-EINVAL` with
`*rb_rptr` unchanged. The scan makes at most `size / 4` reads: the loop
returns with `size / 4` executions of its body, and the function returns. -/
theorem C24_backward_eop_search_reference (K : ft_consts) (fuel : Nat)
    (rb : adreno_ringbuffer) (v : Nat)
    (hs : rb.size % 4 = 0) (hw : rb.wptr < rb.size / 4) (hfuel : rb.size ≤ 4 * fuel) :
    _find_cmd_seq_after_eop_ts K fuel rb (rb.wptr * 4) v false =
        find_cmd_seq_after_eop_ts_reference K fuel rb v ∧
      (∃ r, _find_cmd_seq_after_eop_ts K fuel rb (rb.wptr * 4) v false = some r) ∧
      (∃ r, find_cmd_seq_after_eop_ts_loop K rb v false (rb.size / 4) (rb.wptr * 4)
        (fun _ => 0) 0 false = some r) := by
  have hp : rb.wptr * 4 < rb.size := by omega
  have h4 : rb.wptr * 4 % 4 = 0 := by omega
  have hd : (if 4 * rb.wptr < rb.wptr * 4 then rb.wptr * 4 - 4 * rb.wptr
      else rb.wptr * 4 + rb.size - 4 * rb.wptr) = 4 * (rb.size / 4 - 1 + 1) := by
    split_ifs <;> omega
  have hinv : eop_loop_inv rb 2 (rb.wptr * 4) (fun _ => 0) 0 false :=
    ⟨by decide, Or.inl ⟨rfl, rfl, rfl⟩⟩
  have hn : rb.size / 4 - 1 + 1 = rb.size / 4 := by omega
  have hloop : ∀ f, rb.size ≤ 4 * f →
      find_cmd_seq_after_eop_ts_loop K rb v false f (rb.wptr * 4) (fun _ => 0) 0 false =
        match eop_search K rb v (rb.size / 4) 2 (rb.wptr * 4) with
        | some p => some (0, p)
        | none => some (-EINVAL, rb.wptr * 4) := by
    intro f hf
    have h := eop_loop_eq_search K rb v hs hw (rb.size / 4 - 1) f (rb.wptr * 4) (fun _ => 0) 0
      false 2 hp h4 hd (by omega) hinv
    rw [hn] at h
    exact h
  refine ⟨?_, ?_, ?_⟩
  · unfold _find_cmd_seq_after_eop_ts find_cmd_seq_after_eop_ts_reference
    rw [if_neg (by simp), hloop fuel hfuel]
    cases hsr : eop_search K rb v (rb.size / 4) 2 (rb.wptr * 4) with
    | none =>
      simp only []
      rw [if_neg (by decide)]
    | some p =>
      simp only [if_true]
      cases hl : _find_start_of_cmd_seq K fuel rb p false with
      | none => rfl
      | some r =>
        obtain ⟨st, q⟩ := r
        simp only []
        by_cases h0 : st = 0
        · rw [if_pos h0, if_pos h0]
        · rw [if_neg h0, if_neg h0]
          rcases find_start_loop_status K rb false p fuel p _ hl with h | h
          · exact absurd h h0
          · simp only [] at h
            rw [h]
  · obtain ⟨r, hr, _⟩ :=
      find_cmd_seq_after_eop_ts_returns K fuel rb (rb.wptr * 4) v hs hw hfuel hp h4
    exact ⟨r, hr⟩
  · rw [hloop (rb.size / 4) (by omega)]
    cases eop_search K rb v (rb.size / 4) 2 (rb.wptr * 4) with
    | none => exact ⟨_, rfl⟩
    | some p => exact ⟨_, rfl⟩

theorem C24_backward_eop_search_reference_witness :
    rb_eop_sequence.size % 4 = 0 ∧ rb_eop_sequence.wptr < rb_eop_sequence.size / 4 ∧
      rb_eop_sequence.size ≤ 4 * 8 ∧
      _find_cmd_seq_after_eop_ts msm_consts 8 rb_eop_sequence (rb_eop_sequence.wptr * 4) 42
          false =
        find_cmd_seq_after_eop_ts_reference msm_consts 8 rb_eop_sequence 42 ∧
      find_cmd_seq_after_eop_ts_reference msm_consts 8 rb_eop_sequence 42 = some (0, 8) ∧
      eop_search msm_consts rb_eop_sequence 42 (rb_eop_sequence.size / 4) 2
          (rb_eop_sequence.wptr * 4) = some 20 :=
  ⟨by decide, by decide, by decide,
    (C24_backward_eop_search_reference msm_consts 8 rb_eop_sequence 42
      (by decide) (by decide) (by decide)).1,
    by decide, by decide⟩

end Adreno
